import Mathlib

/-!
# Interview front end: session page, media hook, channel client

A shallow embedding of the parts of the React front end that the
specification speaks about:

* `hooks/useWebRTC.js`: the media capture hook (codec choice, recorder
  start and stop, device enumeration, duration formatter, the names it
  exports and returns);
* `services/socket.js`: the channel client singleton with all its methods;
* `pages/InterviewSession.jsx`: the session page (life cycle, question
  timer, advancing, transcript, hints, cleanup);
* `pages/SessionDetails.jsx`: its copy of the duration formatter and the
  Duration card;
* `pages/AIPromptManagement.jsx` and `pages/CandidateLanding.jsx`: the
  create and submit handlers with their local validation.

JavaScript numbers that hold counts of seconds, indexes and identifiers are
embedded as `Nat` or `Int` (exact on the safe-integer range the page works
in).  React state is a record field, a ref is a record field, an `await` is a
suspension point of an explicit task, and every observable effect (REST
request, channel emit, interval registration) is appended to a log.
-/

namespace Interview

/-! ## Duration formatter (three copies in the source) -/

/-- JavaScript `String.prototype.padStart(targetLength, padString)`: the
receiver is returned unchanged when it is long enough or the pad string is
empty; otherwise the pad string is repeated and cut to the missing length and
put in front. -/
def padStart (s : String) (targetLength : Nat) (padString : String) : String :=
  if targetLength ≤ s.length ∨ padString.length = 0 then s
  else
    let fillLen := targetLength - s.length
    String.mk ((List.replicate fillLen padString.data).flatten.take fillLen) ++ s

/-- The function `formatDuration` of `hooks/useWebRTC.js` (lines 270-274):
`mins = Math.floor(seconds / 60)`, `secs = seconds % 60`, and the template
string joins `mins`, a colon and `secs.toString().padStart(2, '0')`. -/
def formatDuration (seconds : Nat) : String :=
  let mins := seconds / 60
  let secs := seconds % 60
  toString mins ++ ":" ++ padStart (toString secs) 2 "0"

/-- The function `formatDuration` of `pages/SessionDetails.jsx` (lines 74-78). -/
def SessionDetails.formatDuration (seconds : Nat) : String :=
  let mins := seconds / 60
  let secs := seconds % 60
  toString mins ++ ":" ++ padStart (toString secs) 2 "0"

/-- The function `formatTime` of `pages/InterviewSession.jsx` (lines 287-291). -/
def formatTime (seconds : Nat) : String :=
  let mins := seconds / 60
  let secs := seconds % 60
  toString mins ++ ":" ++ padStart (toString secs) 2 "0"

/-- The decimal digit character of a number below ten. -/
def digitChar (d : Nat) : Char := Char.ofNat (48 + d)

/-! ## Media capture hook (`hooks/useWebRTC.js`) -/

/-- A track of a media stream: its kind, the `enabled` flag the toggles flip
and whether `stop()` has been called on it. -/
structure MediaStreamTrack where
  kind : String
  enabled : Bool
  stopped : Bool
  deriving DecidableEq, Repr

/-- A media stream handle: an identifier and its tracks. -/
structure MediaStream where
  id : Nat
  tracks : List MediaStreamTrack
  deriving DecidableEq, Repr

/-- A blob: its bytes and its type. -/
structure Blob where
  bytes : List Nat
  type : String
  deriving DecidableEq, Repr

/-- The three states of a platform recorder. -/
inductive RecorderState where
  | inactive
  | recording
  | paused
  deriving DecidableEq, Repr

/-- The two `onstop` handlers the hook installs on a recorder: the logging
one set by `startRecording` and the resolving one set by `stopRecording`. -/
inductive OnStop where
  | logChunks
  | resolveBlob
  deriving DecidableEq, Repr

/-- The recorder object created by `new MediaRecorder(stream, options)`. -/
structure Recorder where
  stream : MediaStream
  mimeType : String
  videoBitsPerSecond : Nat
  audioBitsPerSecond : Nat
  state : RecorderState
  timeslice : Nat
  onstop : OnStop
  deriving DecidableEq, Repr

/-- A device descriptor as `enumerateDevices` returns it. -/
structure MediaDeviceInfo where
  deviceId : String
  kind : String
  label : String
  deriving DecidableEq, Repr

/-- The state and refs of one `useWebRTC` instance, together with the
intervals it has registered with the platform that are still live and the
recorders it has created that `mediaRecorderRef` no longer points to (a
recorder stays what it was when the ref is overwritten: nothing in the hook
can reach it any more). -/
structure Adapter where
  isVideoEnabled : Bool
  isAudioEnabled : Bool
  isRecording : Bool
  recordingDuration : Nat
  error : Option String
  videoSurface : Option (Option MediaStream)
  streamRef : Option MediaStream
  mediaRecorderRef : Option Recorder
  detachedRecorders : List Recorder
  recordedChunksRef : List Blob
  recordingTimerRef : Option Nat
  liveIntervals : List Nat
  nextIntervalId : Nat
  cameras : List MediaDeviceInfo
  microphones : List MediaDeviceInfo
  selectedCamera : String
  selectedMicrophone : String
  deriving DecidableEq, Repr

/-- What the platform answers to the hook: the capability predicate
`MediaRecorder.isTypeSupported`, the outcome of `getUserMedia` (`none` when
the promise rejects) and whether the recorder constructor accepts a type. -/
structure Platform where
  isTypeSupported : String → Bool
  getUserMedia : Option MediaStream
  recorderAccepts : String → Bool

/-- The preference list the fallback chain of `startRecording` walks. -/
def mimePreferences : List String :=
  ["video/webm;codecs=vp9,opus", "video/webm;codecs=vp8,opus", "video/webm", "video/mp4"]

/-- Lines 111-126 of `startRecording`: `options.mimeType` starts as the vp9
entry; when that is not supported the vp8 entry is tried, then plain webm,
and `video/mp4` is taken in the last `else` without asking the predicate. -/
def selectMimeType (isTypeSupported : String → Bool) : String :=
  if !isTypeSupported "video/webm;codecs=vp9,opus" then
    if isTypeSupported "video/webm;codecs=vp8,opus" then "video/webm;codecs=vp8,opus"
    else if isTypeSupported "video/webm" then "video/webm"
    else "video/mp4"
  else "video/webm;codecs=vp9,opus"

/-- The function `startVideo` (lines 42-77): clears the error, asks for a
stream, stores it in `streamRef`, attaches it to the video surface when there
is one and raises both enabled flags; a rejected `getUserMedia` sets the
error text and rethrows. -/
def startVideo (pf : Platform) (a : Adapter) : Adapter × Bool :=
  let a1 := { a with error := none }
  match pf.getUserMedia with
  | some stream =>
    ({ a1 with
        streamRef := some stream
        videoSurface := a1.videoSurface.map (fun _ => some stream)
        isVideoEnabled := true
        isAudioEnabled := true }, true)
  | none =>
    ({ a1 with error := some "Failed to access camera/microphone. Please check permissions." }, false)

/-- What a call of `startRecording` did: the `options.mimeType` it handed to
the recorder constructor (when that line was reached) and whether the call
threw to its caller. -/
structure StartOutcome where
  passedMimeType : Option String
  threw : Bool
  deriving DecidableEq, Repr

/-- The `catch` block of `startRecording` (lines 154-158): the error text is
set and the error is thrown on to the caller. -/
def startRecordingFailed (a : Adapter) (passed : Option String) : Adapter × StartOutcome :=
  ({ a with error := some "Failed to start recording" }, { passedMimeType := passed, threw := true })

/-- The function `startRecording` (lines 97-159): a stream is acquired when
none is held, the chunk list is reset, the mime type is chosen, the recorder
is constructed (the platform may refuse the type) and started with a one
second timeslice, and the duration interval is registered.  Both refs are
overwritten without a look at what they hold: a recorder that was in
`mediaRecorderRef` is from then on out of the hook's reach, and so is the
interval that was in `recordingTimerRef`. -/
def startRecording (pf : Platform) (a : Adapter) : Adapter × StartOutcome :=
  let (a1, ok) :=
    match a.streamRef with
    | none => startVideo pf a
    | some _ => (a, true)
  if !ok then startRecordingFailed a1 none
  else
    match a1.streamRef with
    | none => startRecordingFailed a1 none
    | some stream =>
      let a2 := { a1 with recordedChunksRef := [] }
      let mimeType := selectMimeType pf.isTypeSupported
      if !pf.recorderAccepts mimeType then startRecordingFailed a2 (some mimeType)
      else
        let recorder : Recorder :=
          { stream := stream
            mimeType := mimeType
            videoBitsPerSecond := 2500000
            audioBitsPerSecond := 128000
            state := RecorderState.recording
            timeslice := 1000
            onstop := OnStop.logChunks }
        ({ a2 with
            mediaRecorderRef := some recorder
            detachedRecorders := a2.detachedRecorders ++ a2.mediaRecorderRef.toList
            isRecording := true
            recordingDuration := 0
            recordingTimerRef := some a2.nextIntervalId
            liveIntervals := a2.liveIntervals ++ [a2.nextIntervalId]
            nextIntervalId := a2.nextIntervalId + 1 },
          { passedMimeType := some mimeType, threw := false })

/-- How the promise returned by `stopRecording` stands when the executor has
run: resolved with a value (`none` is JavaScript `null`), still waiting for
the recorder's stop event, or rejected because the executor threw. -/
inductive StopOutcome where
  | resolved (blob : Option Blob)
  | awaitingStopEvent
  | rejected (reason : String)
  deriving DecidableEq, Repr

/-- Lines 179-184 of `stopRecording`: `setIsRecording(false)`, then the
duration interval is cleared and its ref set to null when the ref holds one. -/
def stopRecordingTail (a : Adapter) : Adapter :=
  let a1 := { a with isRecording := false }
  match a1.recordingTimerRef with
  | some t =>
    { a1 with
        liveIntervals := a1.liveIntervals.filter (fun i => i != t)
        recordingTimerRef := none }
  | none => a1

/-- The function `stopRecording` (lines 162-186), the promise executor run to
its end.  With a recorder in the ref and `isRecording` true the resolving
`onstop` handler is installed and `stop()` is called, which throws on a
recorder that is already inactive; in every other case the promise is
resolved with `null`.  The tail then runs unless `stop()` threw. -/
def stopRecording (a : Adapter) : Adapter × StopOutcome :=
  match a.mediaRecorderRef, a.isRecording with
  | some r, true =>
    let r1 : Recorder := { r with onstop := OnStop.resolveBlob }
    if r.state = RecorderState.inactive then
      ({ a with mediaRecorderRef := some r1 }, StopOutcome.rejected "InvalidStateError")
    else
      let r2 : Recorder := { r1 with state := RecorderState.inactive }
      (stopRecordingTail { a with mediaRecorderRef := some r2 }, StopOutcome.awaitingStopEvent)
  | _, _ => (stopRecordingTail a, StopOutcome.resolved none)

/-! ## Channel client (`services/socket.js`) -/

/-- A value carried in the payload of a channel event. -/
inductive Val where
  | null
  | bool (b : Bool)
  | num (n : Int)
  | str (s : String)
  deriving DecidableEq, Repr

/-- What the channel client does to the socket library: opening a socket,
registering a handler, emitting a named event, closing the socket. -/
inductive ChannelEffect where
  | ioOpen (socket : Nat)
  | on (socket : Nat) (event : String)
  | emit (socket : Nat) (event : String) (payload : List (String × Val))
  | socketDisconnect (socket : Nat)
  | off (socket : Nat) (event : String)
  deriving DecidableEq, Repr

/-- The fields of the `SocketService` singleton; `socket` is the handle of
the held socket, `none` for `null`. -/
structure SocketService where
  socket : Option Nat
  isConnected : Bool
  deriving DecidableEq, Repr

/-- The method `leaveInterview` (lines 50-54): with a socket held it emits
`leave_interview` with the session identifier, otherwise it does nothing. -/
def SocketService.leaveInterview (svc : SocketService) (sessionId : String) :
    SocketService × List ChannelEffect :=
  match svc.socket with
  | some sock => (svc, [ChannelEffect.emit sock "leave_interview" [("session_id", Val.str sessionId)]])
  | none => (svc, [])

/-- The method `disconnect` (lines 35-41): with a socket held it closes it,
drops the handle and lowers `isConnected`; otherwise it does nothing. -/
def SocketService.disconnect (svc : SocketService) : SocketService × List ChannelEffect :=
  match svc.socket with
  | some sock => ({ socket := none, isConnected := false }, [ChannelEffect.socketDisconnect sock])
  | none => (svc, [])

/-- The method `connect` (lines 11-33): with no socket held it opens one
(`fresh` is the handle the socket library returns) and registers the
`connect`, `disconnect` and `error` handlers on it; with a socket held it
does nothing.  `isConnected` is raised later, by the `connect` handler. -/
def SocketService.connect (svc : SocketService) (fresh : Nat) : SocketService × List ChannelEffect :=
  match svc.socket with
  | none =>
    ({ svc with socket := some fresh },
      [ChannelEffect.ioOpen fresh, ChannelEffect.on fresh "connect",
        ChannelEffect.on fresh "disconnect", ChannelEffect.on fresh "error"])
  | some _ => (svc, [])

/-- The method `joinInterview` (lines 44-48). -/
def SocketService.joinInterview (svc : SocketService) (sessionId : String) :
    SocketService × List ChannelEffect :=
  match svc.socket with
  | some sock => (svc, [ChannelEffect.emit sock "join_interview" [("session_id", Val.str sessionId)]])
  | none => (svc, [])

/-- The method `updateSessionStatus` (lines 123-130). -/
def SocketService.updateSessionStatus (svc : SocketService) (sessionId : String) (status : String) :
    SocketService × List ChannelEffect :=
  match svc.socket with
  | some sock =>
    (svc, [ChannelEffect.emit sock "session_status_update"
      [("session_id", Val.str sessionId), ("status", Val.str status)]])
  | none => (svc, [])

/-- The method `startVideoStream` (lines 67-74); the two fields of the
`config` object are written as `config.video` and `config.audio`. -/
def SocketService.startVideoStream (svc : SocketService) (sessionId : String) (video audio : Bool) :
    SocketService × List ChannelEffect :=
  match svc.socket with
  | some sock =>
    (svc, [ChannelEffect.emit sock "video_stream_start"
      [("session_id", Val.str sessionId), ("config.video", Val.bool video),
        ("config.audio", Val.bool audio)]])
  | none => (svc, [])

/-- The listen methods (lines 133-191): with a socket held the handler for
`event` is registered on it, otherwise nothing happens. -/
def SocketService.listen (svc : SocketService) (event : String) : SocketService × List ChannelEffect :=
  match svc.socket with
  | some sock => (svc, [ChannelEffect.on sock event])
  | none => (svc, [])

/-! ## Session page (`pages/InterviewSession.jsx`) -/

/-- A question as the backend sends it. -/
structure Question where
  id : Nat
  text : String
  time_limit : Int
  deriving DecidableEq, Repr

/-- The session record the backend sends with `getSession`; the page only
caches it and shows the candidate name. -/
structure Session where
  id : String
  candidate_name : String
  status : String
  deriving DecidableEq, Repr

/-- The values of `sessionStatus`. -/
inductive SessionStatus where
  | loading
  | ready
  | active
  | completed
  | error
  deriving DecidableEq, Repr

/-- An entry of the AI message list. -/
structure AIMessage where
  id : Nat
  type : String
  message : String
  timestamp : Int
  deriving DecidableEq, Repr

/-- The REST requests the page issues through `interviewAPI`; `none` in the
last two arguments of `saveResponse` is JavaScript `null`. -/
inductive Request where
  | saveResponse (sessionId : String) (questionId : Nat) (transcript : String)
      (aiAnalysis : Option String) (aiScore : Option String)
  | nextQuestion (sessionId : String)
  | getSession (sessionId : String)
  | startSession (sessionId : String)
  deriving DecidableEq, Repr

/-- The body of a fulfilled `getSession` response: the session record and
the ordered question list. -/
structure GetSessionResponse where
  session : Session
  questions : List Question
  deriving DecidableEq, Repr

/-- The body of a fulfilled `startSession` response. -/
structure StartSessionResponse where
  success : Bool
  current_question : Option Question
  deriving DecidableEq, Repr

/-- The body of a successful `nextQuestion` response. -/
structure NextQuestionResponse where
  success : Bool
  interview_completed : Bool
  current_question : Option Question
  deriving DecidableEq, Repr

/-- The values of one render that the functions defined in that render close
over: `handleNextQuestion` reads `currentQuestion` and `transcript` from the
render it was created in, not from the latest state. -/
structure Closure where
  currentQuestion : Option Question
  transcript : String
  deriving DecidableEq, Repr

/-- Where an invocation of one of the page's async functions stands: at one
of the `await`s of `handleNextQuestion`, at the `await` of
`handleInterviewComplete`, at the `await` of `initializeSession`, at one of
the two `await`s of `startInterview`, or finished. -/
inductive Await where
  | saveResponse
  | nextQuestion
  | stopRecording
  | finished
  | getSession
  | startMedia
  | startSession
  deriving DecidableEq, Repr

/-- An invocation of an async function of the page, with the render values
it closes over. -/
structure Task where
  env : Closure
  awaiting : Await
  deriving DecidableEq, Repr

/-- What a registered interval runs: the question timer callback of
`startQuestionTimer` (with the render values it closes over) or the
transcription capture callback. -/
inductive IntervalKind where
  | questionTimer (env : Closure)
  | transcriptionCapture
  deriving DecidableEq, Repr

/-- An interval registered with `setInterval`; `live` turns false when it is
cleared.  The handle of an interval is its position in the list of
registered intervals. -/
structure Interval where
  kind : IntervalKind
  ms : Nat
  live : Bool
  deriving DecidableEq, Repr

/-- The effects of the page that the outside can observe, in the order they
are made: REST requests, calls into the media hook, channel traffic and
interval registration. -/
inductive Effect where
  | request (r : Request)
  | hookStopMedia
  | hookStopRecording
  | hookStartMedia
  | hookStartRecording
  | channel (e : ChannelEffect)
  | setInterval (handle : Nat) (ms : Nat)
  | clearInterval (handle : Nat)
  deriving DecidableEq, Repr

/-- The state of one mounted `InterviewSession`: the React state of the
component, its two refs, the channel client singleton, the intervals
registered so far, the invocations of its async functions and the log of
effects. -/
structure Page where
  sessionId : String
  session : Option Session
  questions : List Question
  currentQuestion : Option Question
  questionIndex : Nat
  sessionStatus : SessionStatus
  timeRemaining : Int
  transcript : String
  aiMessages : List AIMessage
  error : String
  timerRef : Option Nat
  transcriptIntervalRef : Option Nat
  socketService : SocketService
  intervals : List Interval
  tasks : List Task
  log : List Effect
  deriving DecidableEq, Repr

/-- The render values of the latest render: what a click handler of the
current view closes over. -/
def Page.closure (p : Page) : Closure :=
  { currentQuestion := p.currentQuestion, transcript := p.transcript }

/-- Appends effects to the log. -/
def Page.emit (p : Page) (es : List Effect) : Page :=
  { p with log := p.log ++ es }

/-- The platform call `clearInterval(handle)`: the interval stops firing. -/
def Page.clearInterval (p : Page) (handle : Nat) : Page :=
  { p with
      intervals := p.intervals.modify (fun iv => { iv with live := false }) handle
      log := p.log ++ [Effect.clearInterval handle] }

/-- A new invocation joins the list of invocations, suspended at `at_`. -/
def Page.suspend (p : Page) (env : Closure) (at_ : Await) : Page :=
  { p with tasks := p.tasks ++ [{ env := env, awaiting := at_ }] }

/-- Moves invocation `t` to another suspension point. -/
def Page.moveTask (p : Page) (t : Nat) (at_ : Await) : Page :=
  { p with tasks := p.tasks.modify (fun k => { k with awaiting := at_ }) t }

/-- The function `handleNextQuestion` (lines 208-222) from its call to its
first `await`: with a current question and a non-empty transcript in its
closure it submits `saveResponse(sessionId, currentQuestion.id, transcript,
null, null)` and waits for it; otherwise it skips the save and requests
`nextQuestion` at once. -/
def handleNextQuestion (env : Closure) (p : Page) : Page :=
  match env.currentQuestion with
  | some q =>
    if env.transcript ≠ "" then
      (p.emit [Effect.request (Request.saveResponse p.sessionId q.id env.transcript none none)]).suspend
        env Await.saveResponse
    else
      (p.emit [Effect.request (Request.nextQuestion p.sessionId)]).suspend env Await.nextQuestion
  | none =>
    (p.emit [Effect.request (Request.nextQuestion p.sessionId)]).suspend env Await.nextQuestion

/-- The `catch` block of `handleNextQuestion` (lines 242-245) for invocation
`t`: the error text is set and the invocation ends. -/
def nextQuestionFailed (t : Nat) (p : Page) : Page :=
  { p.moveTask t Await.finished with error := "Failed to proceed to next question" }

/-- The function `startQuestionTimer` (lines 173-186) as defined in the render
`env`: `timeRemaining` is set to the limit and a one-second interval whose
callback belongs to the same render is registered and stored in `timerRef`. -/
def startQuestionTimer (env : Closure) (timeLimit : Int) (p : Page) : Page :=
  { p with
      timeRemaining := timeLimit
      timerRef := some p.intervals.length
      intervals := p.intervals ++ [{ kind := IntervalKind.questionTimer env, ms := 1000, live := true }]
      log := p.log ++ [Effect.setInterval p.intervals.length 1000] }

/-- The function `handleInterviewComplete` (lines 249-252) from its call to
its `await`: it calls the hook's `stopRecording` and waits for the promise. -/
def handleInterviewComplete (env : Closure) (p : Page) : Page :=
  (p.emit [Effect.hookStopRecording]).suspend env Await.stopRecording

/-- The settlement of the `saveResponse` promise awaited by invocation `t`
(lines 212-222): when it is fulfilled the invocation requests `nextQuestion`
and waits for it; when it is rejected control passes to the `catch` block.
An invocation that is not waiting for `saveResponse` is not affected. -/
def saveSettled (t : Nat) (ok : Bool) (p : Page) : Page :=
  match p.tasks[t]? with
  | some k =>
    if k.awaiting = Await.saveResponse then
      if ok then
        (p.emit [Effect.request (Request.nextQuestion p.sessionId)]).moveTask t Await.nextQuestion
      else nextQuestionFailed t p
    else p
  | none => p

/-- The settlement of the `nextQuestion` promise awaited by invocation `t`
(lines 222-246); `none` is a rejected promise.  A response without `success`
changes nothing; a completed interview starts `handleInterviewComplete`
without waiting for it; otherwise the next question is installed, the index
incremented, transcript and AI messages emptied, the interval in `timerRef`
cleared and a new timer started from `current_question.time_limit`, which
throws into the `catch` block when the response carries no question. -/
def nextSettled (t : Nat) (r : Option NextQuestionResponse) (p : Page) : Page :=
  match p.tasks[t]? with
  | some k =>
    if k.awaiting = Await.nextQuestion then
      match r with
      | none => nextQuestionFailed t p
      | some resp =>
        if resp.success then
          if resp.interview_completed then
            handleInterviewComplete k.env (p.moveTask t Await.finished)
          else
            let p1 :=
              { p with
                  currentQuestion := resp.current_question
                  questionIndex := p.questionIndex + 1
                  transcript := ""
                  aiMessages := [] }
            let p2 :=
              match p1.timerRef with
              | some h => p1.clearInterval h
              | none => p1
            match resp.current_question with
            | some q => (startQuestionTimer k.env q.time_limit p2).moveTask t Await.finished
            | none => nextQuestionFailed t p2
        else p.moveTask t Await.finished
    else p
  | none => p

/-- The updater the interval callback passes to `setTimeRemaining` (lines
177-184): at `prev <= 1` it calls `handleNextQuestion` and returns 0,
otherwise it returns `prev - 1`. -/
def questionTimerCallback (env : Closure) (p : Page) : Page :=
  if p.timeRemaining ≤ 1 then
    { handleNextQuestion env p with timeRemaining := 0 }
  else
    { p with timeRemaining := p.timeRemaining - 1 }

/-- One firing of the interval with handle `h`: a cleared or unknown handle
does nothing, a live question timer runs its callback. -/
def tick (h : Nat) (p : Page) : Page :=
  match p.intervals[h]? with
  | some iv =>
    if iv.live then
      match iv.kind with
      | IntervalKind.questionTimer env => questionTimerCallback env p
      | IntervalKind.transcriptionCapture => p
    else p
  | none => p

/-- The interval with handle `h` fires `k` times in a row, nothing else
happening in between. -/
def ticks (h : Nat) : Nat → Page → Page
  | 0, p => p
  | k + 1, p => ticks h k (tick h p)

/-- A click on the Next button: `handleNextQuestion` of the latest render. -/
def clickNext (p : Page) : Page :=
  handleNextQuestion p.closure p

/-- The number of `nextQuestion` requests in a log. -/
def countNextQuestion (log : List Effect) : Nat :=
  (log.filter (fun e =>
    match e with
    | Effect.request (Request.nextQuestion _) => true
    | _ => false)).length

/-- The number of `saveResponse` requests in a log. -/
def countSaveResponse (log : List Effect) : Nat :=
  (log.filter (fun e =>
    match e with
    | Effect.request (Request.saveResponse _ _ _ _ _) => true
    | _ => false)).length

/-- The calls `cleanup` makes (lines 125-135), in source order. -/
inductive CleanupStep where
  | clearQuestionTimer
  | clearTranscriptInterval
  | stopMedia
  | leaveInterview
  | disconnect
  deriving DecidableEq, Repr

/-- One statement of `cleanup`: it makes the platform calls `calls` and, when
they return, leaves the page in `after`; when the statement throws, the calls
were attempted, the state is otherwise kept and control leaves `cleanup`. -/
def cleanupStatement (throws : Bool) (p : Page) (calls : List Effect) (after : Page) :
    Except Page Page :=
  if calls ≠ [] ∧ throws then Except.error (p.emit calls) else Except.ok after

/-- The first statement of `cleanup`: the question timer is cleared when
`timerRef` holds one. -/
def cleanupQuestionTimer (throws : CleanupStep → Bool) (p : Page) : Except Page Page :=
  match p.timerRef with
  | some h =>
    cleanupStatement (throws CleanupStep.clearQuestionTimer) p [Effect.clearInterval h] (p.clearInterval h)
  | none => Except.ok p

/-- The second statement of `cleanup`: the transcription interval is cleared
when `transcriptIntervalRef` holds one. -/
def cleanupTranscriptInterval (throws : CleanupStep → Bool) (p : Page) : Except Page Page :=
  match p.transcriptIntervalRef with
  | some h =>
    cleanupStatement (throws CleanupStep.clearTranscriptInterval) p [Effect.clearInterval h]
      (p.clearInterval h)
  | none => Except.ok p

/-- The third statement of `cleanup`: the call `stopMedia()` of the name the
page takes from the hook's result. -/
def cleanupStopMedia (throws : CleanupStep → Bool) (p : Page) : Except Page Page :=
  cleanupStatement (throws CleanupStep.stopMedia) p [Effect.hookStopMedia] (p.emit [Effect.hookStopMedia])

/-- The fourth statement of `cleanup`: `socketService.leaveInterview(sessionId)`. -/
def cleanupLeaveInterview (throws : CleanupStep → Bool) (p : Page) : Except Page Page :=
  let r := p.socketService.leaveInterview p.sessionId
  cleanupStatement (throws CleanupStep.leaveInterview) p (r.2.map Effect.channel)
    { p with socketService := r.1, log := p.log ++ r.2.map Effect.channel }

/-- The fifth statement of `cleanup`: `socketService.disconnect()`. -/
def cleanupDisconnect (throws : CleanupStep → Bool) (p : Page) : Except Page Page :=
  let r := p.socketService.disconnect
  cleanupStatement (throws CleanupStep.disconnect) p (r.2.map Effect.channel)
    { p with socketService := r.1, log := p.log ++ r.2.map Effect.channel }

/-- The function `cleanup` (lines 125-135): five statements in sequence with
no `try` around any of them, so the first one that throws ends the function.
`Except.error` carries the page as the throw left it.  `throws` says which
statements throw; the body is the same for every choice, and the choice the
hook as it is makes is `cleanupThrowsAsWired`: the call of `stopMedia`
throws. -/
def cleanup (throws : CleanupStep → Bool) (p : Page) : Except Page Page := do
  let p1 ← cleanupQuestionTimer throws p
  let p2 ← cleanupTranscriptInterval throws p1
  let p3 ← cleanupStopMedia throws p2
  let p4 ← cleanupLeaveInterview throws p3
  cleanupDisconnect throws p4

/-- The page after `cleanup`, whether it returned or threw. -/
def cleanupResult (throws : CleanupStep → Bool) (p : Page) : Page :=
  match cleanup throws p with
  | Except.ok q => q
  | Except.error q => q

/-! ## Session lifecycle of the page -/

/-- The channel client makes a call for the page: its effects go to the log
and its new state replaces the old one. -/
def Page.channelCall (p : Page) (r : SocketService × List ChannelEffect) : Page :=
  { p with socketService := r.1, log := p.log ++ r.2.map Effect.channel }

/-- The function `initializeSession` (lines 62-68) from its call to its
`await`: the channel client connects, `getSession` is requested and the
invocation waits for it.  `sock` is the handle the socket library hands out
if a socket has to be opened. -/
def initializeSession (sock : Nat) (p : Page) : Page :=
  ((p.channelCall (p.socketService.connect sock)).emit
    [Effect.request (Request.getSession p.sessionId)]).suspend p.closure Await.getSession

/-- The page right after it is mounted (lines 30-38, 57-58, 90-92): the
initial React state, empty refs, and `initializeSession` started when the
route carries a session identifier. -/
def mounted (sessionId : String) (sock : Nat) : Page :=
  let p0 : Page :=
    { sessionId := sessionId
      session := none
      questions := []
      currentQuestion := none
      questionIndex := 0
      sessionStatus := SessionStatus.loading
      timeRemaining := 0
      transcript := ""
      aiMessages := []
      error := ""
      timerRef := none
      transcriptIntervalRef := none
      socketService := { socket := none, isConnected := false }
      intervals := []
      tasks := []
      log := [] }
  if sessionId ≠ "" then initializeSession sock p0 else p0

/-- The function `setupSocketListeners` (lines 100-122): four handlers are
registered through the channel client. -/
def setupSocketListeners (p : Page) : Page :=
  (((p.channelCall (p.socketService.listen "joined_interview")).channelCall
    (p.socketService.listen "transcript_update")).channelCall
    (p.socketService.listen "ai_response")).channelCall (p.socketService.listen "error")

/-- The settlement of the `getSession` promise awaited by invocation `t`
(lines 68-87); `none` is a rejected promise.  On fulfilment the session and
the question list are cached, the first question (if any) becomes current,
the channel room is joined, the listeners are set up and the status becomes
`ready`; on rejection the error text is set and the status becomes `error`. -/
def getSessionSettled (t : Nat) (r : Option GetSessionResponse) (p : Page) : Page :=
  match p.tasks[t]? with
  | some k =>
    if k.awaiting = Await.getSession then
      match r with
      | some d =>
        let p1 :=
          { p with
              session := some d.session
              questions := d.questions
              currentQuestion :=
                match d.questions with
                | q :: _ => some q
                | [] => p.currentQuestion }
        let p2 := p1.channelCall (p1.socketService.joinInterview p1.sessionId)
        let p3 := setupSocketListeners p2
        { p3.moveTask t Await.finished with sessionStatus := SessionStatus.ready }
      | none =>
        { p.moveTask t Await.finished with
            error := "Failed to load interview session"
            sessionStatus := SessionStatus.error }
    else p
  | none => p

/-- The `catch` block of `startInterview` (lines 166-169) for invocation `t`:
only the error text is set. -/
def startInterviewFailed (t : Nat) (p : Page) : Page :=
  { p.moveTask t Await.finished with error := "Failed to start interview" }

/-- The function `startInterview` (lines 138-141) from its call to its first
`await`: the name `startMedia` taken from the hook's result is called with
`(true, true)`; when the call itself throws, control passes to the `catch`
block at once, otherwise the invocation waits for the returned promise.
Whether the call throws is a parameter of the body; with the hook as it is,
which returns no `startMedia`, it does (`Event.asWired`). -/
def startInterview (startMediaThrows : Bool) (p : Page) : Page :=
  let p1 := p.emit [Effect.hookStartMedia]
  if startMediaThrows then
    startInterviewFailed p1.tasks.length (p1.suspend p.closure Await.startMedia)
  else p1.suspend p.closure Await.startMedia

/-- The settlement of the `startMedia` promise awaited by invocation `t`
(lines 141-144): fulfilled, `startSession` is requested and awaited;
rejected, control passes to the `catch` block. -/
def startMediaSettled (t : Nat) (ok : Bool) (p : Page) : Page :=
  match p.tasks[t]? with
  | some k =>
    if k.awaiting = Await.startMedia then
      if ok then
        (p.emit [Effect.request (Request.startSession p.sessionId)]).moveTask t Await.startSession
      else startInterviewFailed t p
    else p
  | none => p

/-- The function `startTranscriptionCapture` (lines 189-205): a two-second
interval is registered and stored in `transcriptIntervalRef`. -/
def startTranscriptionCapture (p : Page) : Page :=
  { p with
      transcriptIntervalRef := some p.intervals.length
      intervals := p.intervals ++ [{ kind := IntervalKind.transcriptionCapture, ms := 2000, live := true }]
      log := p.log ++ [Effect.setInterval p.intervals.length 2000] }

/-- The settlement of the `startSession` promise awaited by invocation `t`
(lines 144-169); `none` is a rejected promise, `video` and `audio` are the
hook's `isVideoEnabled` and `isAudioEnabled` in the render the invocation
closes over.  With `success` the returned question becomes current, the
status becomes `active` (whatever it was), the hook's `startRecording` is
called, the question timer is started from `current_question.time_limit`
(which throws into the `catch` block when no question came back), the
transcription capture is started and the two channel events are emitted.
Without `success` nothing happens; a rejection passes to the `catch` block. -/
def startSessionSettled (t : Nat) (r : Option StartSessionResponse) (video audio : Bool) (p : Page) :
    Page :=
  match p.tasks[t]? with
  | some k =>
    if k.awaiting = Await.startSession then
      match r with
      | none => startInterviewFailed t p
      | some resp =>
        if resp.success then
          let p1 :=
            { p with
                currentQuestion := resp.current_question
                sessionStatus := SessionStatus.active
                log := p.log ++ [Effect.hookStartRecording] }
          match resp.current_question with
          | none => startInterviewFailed t p1
          | some q =>
            let p2 := startTranscriptionCapture (startQuestionTimer k.env q.time_limit p1)
            let p3 := p2.channelCall (p2.socketService.updateSessionStatus p2.sessionId "active")
            let p4 := p3.channelCall (p3.socketService.startVideoStream p3.sessionId video audio)
            p4.moveTask t Await.finished
        else p.moveTask t Await.finished
    else p
  | none => p

/-- The settlement of the `stopRecording` promise awaited by invocation `t`
of `handleInterviewComplete` (lines 252-271).  Rejected, the `catch` block
only logs.  Fulfilled, `stopMedia()` is called; when that call throws the
`catch` block only logs; when it returns, `session_status_update` with
`completed` is emitted, the status becomes `completed`, and the intervals
held in `timerRef` and in `transcriptIntervalRef` are cleared.  Whether the
call of `stopMedia` throws is a parameter of the body; with the hook as it
is, which returns no `stopMedia`, it does (`Event.asWired`). -/
def stopRecordingSettled (t : Nat) (ok : Bool) (stopMediaThrows : Bool) (p : Page) : Page :=
  match p.tasks[t]? with
  | some k =>
    if k.awaiting = Await.stopRecording then
      if ok then
        let p1 := p.emit [Effect.hookStopMedia]
        if stopMediaThrows then p1.moveTask t Await.finished
        else
          let p2 := p1.channelCall (p1.socketService.updateSessionStatus p1.sessionId "completed")
          let p3 := { p2 with sessionStatus := SessionStatus.completed }
          let p4 :=
            match p3.timerRef with
            | some h => p3.clearInterval h
            | none => p3
          let p5 :=
            match p4.transcriptIntervalRef with
            | some h => p4.clearInterval h
            | none => p4
          p5.moveTask t Await.finished
      else p.moveTask t Await.finished
    else p
  | none => p

/-- The `transcript_update` handler (lines 105-107): the fragment is put
behind the transcript, after one space. -/
def onTranscriptUpdate (text : String) (p : Page) : Page :=
  { p with transcript := p.transcript ++ " " ++ text }

/-- The `ai_response` handler (lines 109-116); `now` is `Date.now()`. -/
def onAIResponse (now : Nat) (type message : String) (timestamp : Int) (p : Page) : Page :=
  { p with aiMessages := p.aiMessages ++
      [{ id := now, type := type, message := message, timestamp := timestamp }] }

/-- The `error` handler of the channel (lines 118-121): the message is shown. -/
def onSocketError (message : String) (p : Page) : Page :=
  { p with error := message }

/-- What can happen to a mounted page: a click on a button of the current
view, the firing of an interval, the settlement of a promise an invocation
waits for, or a channel event delivered to its handler. -/
inductive Event where
  | getSessionSettled (t : Nat) (r : Option GetSessionResponse)
  | clickStart (startMediaThrows : Bool)
  | startMediaSettled (t : Nat) (ok : Bool)
  | startSessionSettled (t : Nat) (r : Option StartSessionResponse) (video audio : Bool)
  | clickNext
  | tick (h : Nat)
  | saveSettled (t : Nat) (ok : Bool)
  | nextSettled (t : Nat) (r : Option NextQuestionResponse)
  | stopRecordingSettled (t : Nat) (ok : Bool) (stopMediaThrows : Bool)
  | joinedInterview
  | transcriptUpdate (text : String)
  | aiResponse (now : Nat) (type message : String) (timestamp : Int)
  | socketError (message : String)
  deriving DecidableEq, Repr

/-- One event on the page.  The Start button exists only in the view of the
status `ready` (lines 429-436) and the Next button only in the view of the
status `active` with a current question (lines 457-471); a click on a button
that is not rendered cannot happen. -/
def step (e : Event) (p : Page) : Page :=
  match e with
  | Event.getSessionSettled t r => getSessionSettled t r p
  | Event.clickStart throws =>
    if p.sessionStatus = SessionStatus.ready then startInterview throws p else p
  | Event.startMediaSettled t ok => startMediaSettled t ok p
  | Event.startSessionSettled t r video audio => startSessionSettled t r video audio p
  | Event.clickNext =>
    if p.sessionStatus = SessionStatus.active ∧ p.currentQuestion.isSome then clickNext p else p
  | Event.tick h => tick h p
  | Event.saveSettled t ok => saveSettled t ok p
  | Event.nextSettled t r => nextSettled t r p
  | Event.stopRecordingSettled t ok throws => stopRecordingSettled t ok throws p
  | Event.joinedInterview => p
  | Event.transcriptUpdate text => onTranscriptUpdate text p
  | Event.aiResponse now type message timestamp => onAIResponse now type message timestamp p
  | Event.socketError message => onSocketError message p

/-- A sequence of events, first to last. -/
def run : List Event → Page → Page
  | [], p => p
  | e :: es, p => run es (step e p)

/-- The states a mounted page can get into, whatever the calls into the hook
do (return or throw).  `ReachableAsWired` keeps the runs the hook as it is
allows. -/
def Reachable (p : Page) : Prop :=
  ∃ (sessionId : String) (sock : Nat) (es : List Event), p = run es (mounted sessionId sock)

/-- No invocation of a list is still waiting for `getSession`. -/
def tasksOk (l : List Task) : Prop :=
  ∀ k ∈ l, k.awaiting ≠ Await.getSession

/-- No invocation of the page is still waiting for `getSession`. -/
def Page.initDone (p : Page) : Prop := tasksOk p.tasks

/-- Nothing is in flight: every invocation has finished and no interval is
live. -/
def Page.quiet (p : Page) : Prop :=
  (∀ k ∈ p.tasks, k.awaiting = Await.finished) ∧ (∀ iv ∈ p.intervals, iv.live = false)

/-- What holds of every state a mounted page can get into: while the status
is `loading` at most one invocation exists, it waits for `getSession`, and no
interval is registered; once the status has left `loading` no invocation
waits for `getSession`; in the status `error` nothing is in flight. -/
def Page.lifecycle (p : Page) : Prop :=
  (p.sessionStatus = SessionStatus.loading →
    p.tasks.length ≤ 1 ∧ (∀ k ∈ p.tasks, k.awaiting = Await.getSession) ∧ p.intervals = []) ∧
  (p.sessionStatus ≠ SessionStatus.loading → p.initDone) ∧
  (p.sessionStatus = SessionStatus.error → p.quiet)

/-- Two pages with the same status, the same invocations and the same
intervals. -/
def Page.sameFlight (p q : Page) : Prop :=
  q.sessionStatus = p.sessionStatus ∧ q.tasks = p.tasks ∧ q.intervals = p.intervals

/-- Whether an interval is a question timer that has not been cleared. -/
def Interval.isRunningQuestionTimer (iv : Interval) : Bool :=
  iv.live &&
    match iv.kind with
    | IntervalKind.questionTimer _ => true
    | IntervalKind.transcriptionCapture => false

/-- The handles of the running question timers in a list of registered
intervals. -/
def runningIn (l : List Interval) : List Nat :=
  (List.range l.length).filter fun i =>
    match l[i]? with
    | some iv => iv.isRunningQuestionTimer
    | none => false

/-- The handles of the question timers of the page that are running. -/
def Page.runningQuestionTimers (p : Page) : List Nat :=
  runningIn p.intervals

/-! ## Media capture hook: data delivery, stop event, stream release -/

/-- The `ondataavailable` handler installed by `startRecording` (lines
132-136): a segment that exists and has a size above zero is pushed onto the
chunk list, anything else is dropped. -/
def dataAvailable (data : Option Blob) (a : Adapter) : Adapter :=
  match data with
  | some b =>
    if b.bytes.length > 0 then { a with recordedChunksRef := a.recordedChunksRef ++ [b] } else a
  | none => a

/-- The recorder delivers a sequence of segments, first to last. -/
def deliver : List (Option Blob) → Adapter → Adapter
  | [], a => a
  | d :: ds, a => deliver ds (dataAvailable d a)

/-- The segments of a delivery that the handler keeps. -/
def keptSegments (ds : List (Option Blob)) : List Blob :=
  ds.filterMap fun d =>
    match d with
    | some b => if b.bytes.length > 0 then some b else none
    | none => none

/-- The constructor call `new Blob(parts, { type })`: the bytes of the parts
one after the other. -/
def Blob.concat (parts : List Blob) (type : String) : Blob :=
  { bytes := (parts.map fun b => b.bytes).flatten, type := type }

/-- The stop event of the recorder held in `mediaRecorderRef`: its `onstop`
handler runs.  The handler installed by `stopRecording` (lines 165-172)
resolves the pending promise with the blob of the chunk list, typed
`mediaRecorderRef.current.mimeType || 'video/webm'`; the handler installed by
`startRecording` only logs.  The result is the value the promise is resolved
with, if it is resolved. -/
def stopEvent (a : Adapter) : Option Blob :=
  match a.mediaRecorderRef with
  | some r =>
    match r.onstop with
    | OnStop.resolveBlob =>
      some (Blob.concat a.recordedChunksRef (if r.mimeType = "" then "video/webm" else r.mimeType))
    | OnStop.logChunks => none
  | none => none

/-- The recorders created by the adapter that are not inactive: those out of
the hook's reach and the one in the ref. -/
def activeRecorders (a : Adapter) : List Recorder :=
  (a.detachedRecorders ++ a.mediaRecorderRef.toList).filter fun r => r.state != RecorderState.inactive

/-- The function `stopVideo` (lines 80-94): with a stream in the ref every
track of it is stopped and the ref is set to null; the source of the video
surface, when there is one, is set to null; both enabled flags are lowered.
The second component lists the tracks `stop()` was called on. -/
def stopVideo (a : Adapter) : Adapter × List MediaStreamTrack :=
  ({ a with
      streamRef := none
      videoSurface := a.videoSurface.map (fun _ => none)
      isVideoEnabled := false
      isAudioEnabled := false },
    match a.streamRef with
    | some stream => stream.tracks
    | none => [])

/-- The state of a freshly mounted hook (lines 4-17). -/
def initialAdapter : Adapter :=
  { isVideoEnabled := false
    isAudioEnabled := false
    isRecording := false
    recordingDuration := 0
    error := none
    videoSurface := none
    streamRef := none
    mediaRecorderRef := none
    detachedRecorders := []
    recordedChunksRef := []
    recordingTimerRef := none
    liveIntervals := []
    nextIntervalId := 1
    cameras := []
    microphones := []
    selectedCamera := ""
    selectedMicrophone := "" }

/-- A call of one of the two recording functions of the hook. -/
inductive RecordingCall where
  | start (pf : Platform)
  | stop

/-- A sequence of recording calls, first to last. -/
def recordingCalls : List RecordingCall → Adapter → Adapter
  | [], a => a
  | RecordingCall.start pf :: cs, a => recordingCalls cs (startRecording pf a).1
  | RecordingCall.stop :: cs, a => recordingCalls cs (stopRecording a).1

/-! ## Text trimming -/

/-- The characters `String.prototype.trim` strips: the white space and line
terminator code points of the language. -/
def isJsWhitespace (c : Char) : Bool :=
  let n := c.toNat
  n == 0x0009 || n == 0x000A || n == 0x000B || n == 0x000C || n == 0x000D || n == 0x0020 ||
  n == 0x00A0 || n == 0x1680 || (0x2000 ≤ n && n ≤ 0x200A) || n == 0x2028 || n == 0x2029 ||
  n == 0x202F || n == 0x205F || n == 0x3000 || n == 0xFEFF

/-- JavaScript `String.prototype.trim`: white space is stripped from both
ends. -/
def jsTrim (s : String) : String :=
  String.mk ((s.data.dropWhile isJsWhitespace).reverse.dropWhile isJsWhitespace).reverse

/-- A text that is empty or consists only of white space. -/
def isBlank (s : String) : Bool :=
  s.data.all isJsWhitespace

/-- JavaScript `a || b` on an optional text: `a` when it is there and not
empty, otherwise `b`. -/
def orElse (a : Option String) (b : String) : String :=
  match a with
  | some x => if x = "" then b else x
  | none => b

/-! ## AI prompt management page (`pages/AIPromptManagement.jsx`) -/

/-- The form of the page (lines 32-37). -/
structure PromptForm where
  name : String
  description : String
  prompt_text : String
  is_active : Bool
  deriving DecidableEq, Repr

/-- A stored prompt template. -/
structure AIPrompt where
  id : Nat
  name : String
  description : String
  prompt_text : String
  is_active : Bool
  deriving DecidableEq, Repr

/-- The calls of the page into `adminAPI`. -/
inductive AdminCall where
  | getAIPrompts
  | createAIPrompt (data : PromptForm)
  | updateAIPrompt (promptId : Nat) (data : PromptForm)
  deriving DecidableEq, Repr

/-- The body of a fulfilled create or update response. -/
structure MutationResponse where
  success : Bool
  error : Option String
  deriving DecidableEq, Repr

/-- The React state of the page (lines 25-37) and the calls it has made. -/
structure PromptPage where
  prompts : List AIPrompt
  loading : Bool
  error : String
  success : String
  editingPrompt : Option AIPrompt
  showCreateForm : Bool
  formData : PromptForm
  calls : List AdminCall
  deriving DecidableEq, Repr

/-- The function `loadPrompts` (lines 43-54) run to its end; the outcome of
`getAIPrompts` is `none` for a rejected promise and otherwise the `prompts`
field of the body, which may be missing. -/
def loadPrompts (outcome : Option (Option (List AIPrompt))) (p : PromptPage) : PromptPage :=
  let p1 := { p with loading := true, calls := p.calls ++ [AdminCall.getAIPrompts] }
  let p2 :=
    match outcome with
    | some prompts => { p1 with prompts := prompts.getD [] }
    | none => { p1 with error := "Failed to load AI prompts" }
  { p2 with loading := false }

/-- The function `resetForm` (lines 64-73). -/
def resetForm (p : PromptPage) : PromptPage :=
  { p with
      formData := { name := "", description := "", prompt_text := "", is_active := false }
      editingPrompt := none
      showCreateForm := false }

/-- The function `handleCreate` (lines 75-97) run to its end, the outcomes of
the two requests given (`none` is a rejected promise).  A form whose name or
prompt text trims to the empty string only sets the error text and returns;
otherwise `createAIPrompt(formData)` is called and, on success, the form is
reset and the list reloaded. -/
def handleCreate (createOutcome : Option MutationResponse)
    (loadOutcome : Option (Option (List AIPrompt))) (p : PromptPage) : PromptPage :=
  if jsTrim p.formData.name = "" ∨ jsTrim p.formData.prompt_text = "" then
    { p with error := "Name and prompt text are required" }
  else
    let p1 := { p with calls := p.calls ++ [AdminCall.createAIPrompt p.formData] }
    match createOutcome with
    | some resp =>
      if resp.success then
        loadPrompts loadOutcome (resetForm { p1 with success := "AI prompt created successfully" })
      else { p1 with error := orElse resp.error "Failed to create AI prompt" }
    | none => { p1 with error := "Failed to create AI prompt" }

/-- The number of `createAIPrompt` calls in a list of calls. -/
def countCreate (calls : List AdminCall) : Nat :=
  (calls.filter fun c =>
    match c with
    | AdminCall.createAIPrompt _ => true
    | _ => false).length

/-! ## Candidate landing page (`pages/CandidateLanding.jsx`) -/

/-- The form of the landing page (lines 12-15). -/
structure LandingForm where
  candidateName : String
  interviewCode : String
  deriving DecidableEq, Repr

/-- The body of a fulfilled `validateCode` response. -/
structure ValidateResponse where
  success : Bool
  session_id : String
  error : Option String
  deriving DecidableEq, Repr

/-- How the `validateCode` promise settles: fulfilled with a body, or rejected
with an error whose `response.data.error` may be missing. -/
inductive ValidateOutcome where
  | fulfilled (body : ValidateResponse)
  | rejected (serverError : Option String)
  deriving DecidableEq, Repr

/-- The React state of the landing page (lines 12-18), the calls of
`validateCode` it has made (code first, name second, as in lines 16-23 of
`services/api.js`) and the paths it has navigated to. -/
structure Landing where
  formData : LandingForm
  loading : Bool
  error : String
  validateCalls : List (String × String)
  navigations : List String
  deriving DecidableEq, Repr

/-- The function `handleSubmit` (lines 30-62) run to its end.  A blank name
or code only sets the error text; otherwise `loading` is raised, the error
cleared, `validateCode` called with the trimmed code and the trimmed name,
the browser sent to `/interview/<session_id>` on success and an error text
set otherwise, and `loading` lowered in the `finally` block. -/
def handleSubmit (outcome : ValidateOutcome) (p : Landing) : Landing :=
  if jsTrim p.formData.candidateName = "" ∨ jsTrim p.formData.interviewCode = "" then
    { p with error := "Please fill in all fields" }
  else
    let p1 :=
      { p with
          loading := true
          error := ""
          validateCalls := p.validateCalls ++
            [(jsTrim p.formData.interviewCode, jsTrim p.formData.candidateName)] }
    let p2 :=
      match outcome with
      | ValidateOutcome.fulfilled body =>
        if body.success then { p1 with navigations := p1.navigations ++ ["/interview/" ++ body.session_id] }
        else { p1 with error := orElse body.error "Failed to validate code" }
      | ValidateOutcome.rejected serverError =>
        { p1 with
            error := orElse serverError "Failed to validate code. Please check your code and try again." }
    { p2 with loading := false }

/-! ## Channel client: the remaining methods and its life -/

/-- The value `connect()` returns: `this.socket` at the end of the method
(line 32). -/
def SocketService.connectReturn (svc : SocketService) (fresh : Nat) : Option Nat :=
  (svc.connect fresh).1.socket

/-- The `connect` handler registered in `connect` (lines 18-21). -/
def SocketService.onConnectEvent (svc : SocketService) : SocketService :=
  { svc with isConnected := true }

/-- The `disconnect` handler registered in `connect` (lines 23-26). -/
def SocketService.onDisconnectEvent (svc : SocketService) : SocketService :=
  { svc with isConnected := false }

/-- The method `sendAudioData` (lines 57-65). -/
def SocketService.sendAudioData (svc : SocketService) (sessionId audioData : String) (timestamp : Val) :
    SocketService × List ChannelEffect :=
  match svc.socket with
  | some sock =>
    (svc, [ChannelEffect.emit sock "audio_data"
      [("session_id", Val.str sessionId), ("audio_data", Val.str audioData), ("timestamp", timestamp)]])
  | none => (svc, [])

/-- The method `stopVideoStream` (lines 76-82). -/
def SocketService.stopVideoStream (svc : SocketService) (sessionId : String) :
    SocketService × List ChannelEffect :=
  match svc.socket with
  | some sock => (svc, [ChannelEffect.emit sock "video_stream_stop" [("session_id", Val.str sessionId)]])
  | none => (svc, [])

/-- The method `sendTranscriptSegment` (lines 85-96). -/
def SocketService.sendTranscriptSegment (svc : SocketService) (sessionId text : String)
    (confidence startTime endTime questionId : Val) : SocketService × List ChannelEffect :=
  match svc.socket with
  | some sock =>
    (svc, [ChannelEffect.emit sock "transcript_segment"
      [("session_id", Val.str sessionId), ("text", Val.str text), ("confidence", confidence),
        ("start_time", startTime), ("end_time", endTime), ("question_id", questionId)]])
  | none => (svc, [])

/-- The method `requestAIResponse` (lines 99-108); the last parameter has the
default value `'hint'`, taken when the argument is left out (`none`). -/
def SocketService.requestAIResponse (svc : SocketService) (sessionId : String) (questionId : Val)
    (transcriptContext : String) (type : Option String) : SocketService × List ChannelEffect :=
  match svc.socket with
  | some sock =>
    (svc, [ChannelEffect.emit sock "ai_response_request"
      [("session_id", Val.str sessionId), ("question_id", questionId),
        ("transcript_context", Val.str transcriptContext), ("type", Val.str (type.getD "hint"))]])
  | none => (svc, [])

/-- The method `sendRecordingMetadata` (lines 111-120). -/
def SocketService.sendRecordingMetadata (svc : SocketService) (sessionId : String) (questionId : Val)
    (type : String) (fileInfo : Val) : SocketService × List ChannelEffect :=
  match svc.socket with
  | some sock =>
    (svc, [ChannelEffect.emit sock "recording_metadata"
      [("session_id", Val.str sessionId), ("question_id", questionId), ("type", Val.str type),
        ("file_info", fileInfo)]])
  | none => (svc, [])

/-- The method `off` (lines 194-198). -/
def SocketService.off (svc : SocketService) (event : String) : SocketService × List ChannelEffect :=
  match svc.socket with
  | some sock => (svc, [ChannelEffect.off sock event])
  | none => (svc, [])

/-- A call of one of the nine emit methods, with its arguments. -/
inductive EmitCall where
  | joinInterview (sessionId : String)
  | leaveInterview (sessionId : String)
  | sendAudioData (sessionId audioData : String) (timestamp : Val)
  | startVideoStream (sessionId : String) (video audio : Bool)
  | stopVideoStream (sessionId : String)
  | sendTranscriptSegment (sessionId text : String) (confidence startTime endTime questionId : Val)
  | requestAIResponse (sessionId : String) (questionId : Val) (transcriptContext : String)
      (type : Option String)
  | sendRecordingMetadata (sessionId : String) (questionId : Val) (type : String) (fileInfo : Val)
  | updateSessionStatus (sessionId status : String)
  deriving DecidableEq, Repr

/-- The event name an emit method sends. -/
def EmitCall.event : EmitCall → String
  | EmitCall.joinInterview _ => "join_interview"
  | EmitCall.leaveInterview _ => "leave_interview"
  | EmitCall.sendAudioData _ _ _ => "audio_data"
  | EmitCall.startVideoStream _ _ _ => "video_stream_start"
  | EmitCall.stopVideoStream _ => "video_stream_stop"
  | EmitCall.sendTranscriptSegment _ _ _ _ _ _ => "transcript_segment"
  | EmitCall.requestAIResponse _ _ _ _ => "ai_response_request"
  | EmitCall.sendRecordingMetadata _ _ _ _ => "recording_metadata"
  | EmitCall.updateSessionStatus _ _ => "session_status_update"

/-- An emit method is called on the client. -/
def SocketService.emitCall (svc : SocketService) : EmitCall → SocketService × List ChannelEffect
  | EmitCall.joinInterview sid => svc.joinInterview sid
  | EmitCall.leaveInterview sid => svc.leaveInterview sid
  | EmitCall.sendAudioData sid audio ts => svc.sendAudioData sid audio ts
  | EmitCall.startVideoStream sid video audio => svc.startVideoStream sid video audio
  | EmitCall.stopVideoStream sid => svc.stopVideoStream sid
  | EmitCall.sendTranscriptSegment sid text c st en q => svc.sendTranscriptSegment sid text c st en q
  | EmitCall.requestAIResponse sid q ctx type => svc.requestAIResponse sid q ctx type
  | EmitCall.sendRecordingMetadata sid q type info => svc.sendRecordingMetadata sid q type info
  | EmitCall.updateSessionStatus sid status => svc.updateSessionStatus sid status

/-- The ten listen methods (lines 133-191). -/
inductive ListenMethod where
  | onJoinedInterview
  | onLeftInterview
  | onAudioProcessed
  | onTranscriptUpdate
  | onAIResponse
  | onVideoStreamStarted
  | onVideoStreamStopped
  | onRecordingSaved
  | onSessionStatusUpdated
  | onError
  deriving DecidableEq, Repr

/-- The event a listen method registers its callback for. -/
def ListenMethod.event : ListenMethod → String
  | ListenMethod.onJoinedInterview => "joined_interview"
  | ListenMethod.onLeftInterview => "left_interview"
  | ListenMethod.onAudioProcessed => "audio_processed"
  | ListenMethod.onTranscriptUpdate => "transcript_update"
  | ListenMethod.onAIResponse => "ai_response"
  | ListenMethod.onVideoStreamStarted => "video_stream_started"
  | ListenMethod.onVideoStreamStopped => "video_stream_stopped"
  | ListenMethod.onRecordingSaved => "recording_saved"
  | ListenMethod.onSessionStatusUpdated => "session_status_updated"
  | ListenMethod.onError => "error"

/-- A listen method is called on the client. -/
def SocketService.listenCall (svc : SocketService) (m : ListenMethod) :
    SocketService × List ChannelEffect :=
  svc.listen m.event

/-- The client as the module creates it (lines 6-9, 202). -/
def SocketService.initial : SocketService :=
  { socket := none, isConnected := false }

/-- What happens to the client: a call of one of its methods, or the held
socket reporting that it is connected or disconnected. -/
inductive ClientCall where
  | connect (fresh : Nat)
  | disconnect
  | emit (c : EmitCall)
  | listen (m : ListenMethod)
  | off (event : String)
  | socketConnected
  | socketDisconnected
  deriving DecidableEq, Repr

/-- One call on the client. -/
def SocketService.call (svc : SocketService) : ClientCall → SocketService × List ChannelEffect
  | ClientCall.connect fresh => svc.connect fresh
  | ClientCall.disconnect => svc.disconnect
  | ClientCall.emit c => svc.emitCall c
  | ClientCall.listen m => svc.listenCall m
  | ClientCall.off event => svc.off event
  | ClientCall.socketConnected =>
    match svc.socket with
    | some _ => (svc.onConnectEvent, [])
    | none => (svc, [])
  | ClientCall.socketDisconnected =>
    match svc.socket with
    | some _ => (svc.onDisconnectEvent, [])
    | none => (svc, [])

/-- A sequence of calls on the client, first to last, with the effects they
have on the socket library. -/
def runClient : List ClientCall → SocketService → SocketService × List ChannelEffect
  | [], svc => (svc, [])
  | c :: cs, svc =>
    let r := svc.call c
    let rest := runClient cs r.1
    (rest.1, r.2 ++ rest.2)

/-- The number of sockets opened in a list of effects. -/
def countOpened (es : List ChannelEffect) : Nat :=
  (es.filter fun e =>
    match e with
    | ChannelEffect.ioOpen _ => true
    | _ => false).length

/-- The number of sockets closed in a list of effects. -/
def countClosed (es : List ChannelEffect) : Nat :=
  (es.filter fun e =>
    match e with
    | ChannelEffect.socketDisconnect _ => true
    | _ => false).length

/-- The sockets a client holds: one or none. -/
def heldCount (svc : SocketService) : Nat :=
  match svc.socket with
  | some _ => 1
  | none => 0

/-- The state of the client after a sequence of calls on the client the
module creates. -/
def clientAfter (cs : List ClientCall) : SocketService :=
  (runClient cs SocketService.initial).1

/-! ## Session page: transcript and hints -/

/-- A sequence of `transcript_update` events, first to last. -/
def receiveFragments : List String → Page → Page
  | [], p => p
  | t :: ts, p => receiveFragments ts (onTranscriptUpdate t p)

/-- The text a sequence of fragments is expected to add to the transcript,
written out independently of the handler: each fragment behind one space, in
the order of the list.  `receiveFragments` is compared with it. -/
def fragmentsText : List String → String
  | [] => ""
  | t :: ts => " " ++ t ++ fragmentsText ts

/-- The function `requestHint` (lines 275-284): with a current question the
channel client is asked to send an `ai_response_request` of type `hint` with
the question's id and the transcript; without one nothing happens. -/
def requestHint (p : Page) : Page :=
  match p.currentQuestion with
  | some q =>
    p.channelCall
      (p.socketService.requestAIResponse p.sessionId (Val.num q.id) p.transcript (some "hint"))
  | none => p

/-! ## Media capture hook: device enumeration -/

/-- How a call ends for its caller. -/
inductive CallOutcome where
  | returned
  | threw
  deriving DecidableEq, Repr

/-- The function `getDevices` (lines 20-39) run to its end; `enumerated` is
what `enumerateDevices` answers, `none` when the platform rejects the call.
On success the devices are sorted into cameras and microphones and a first
device is selected where none is selected yet.  On failure the `catch` block
logs, sets the error text and does not throw on: the call returns to its
caller in both cases. -/
def getDevices (enumerated : Option (List MediaDeviceInfo)) (a : Adapter) : Adapter × CallOutcome :=
  match enumerated with
  | some devices =>
    let cameras := devices.filter fun d => d.kind = "videoinput"
    let microphones := devices.filter fun d => d.kind = "audioinput"
    let a1 := { a with cameras := cameras, microphones := microphones }
    let a2 :=
      match cameras with
      | c :: _ => if a1.selectedCamera = "" then { a1 with selectedCamera := c.deviceId } else a1
      | [] => a1
    let a3 :=
      match microphones with
      | m :: _ =>
        if a2.selectedMicrophone = "" then { a2 with selectedMicrophone := m.deviceId } else a2
      | [] => a2
    (a3, CallOutcome.returned)
  | none => ({ a with error := some "Failed to get media devices" }, CallOutcome.returned)

/-! ## What the page takes from the hook -/

/-- The names `hooks/useWebRTC.js` exports: the one `export const` of line 3;
the module has no default export. -/
def useWebRTCExports : List String :=
  ["useWebRTC"]

/-- The keys of the object `useWebRTC` returns (lines 291-323). -/
def useWebRTCReturnedKeys : List String :=
  ["isVideoEnabled", "isAudioEnabled", "isRecording", "recordingDuration", "error", "devices",
    "selectedCamera", "selectedMicrophone", "videoRef", "stream", "startVideo", "stopVideo",
    "startRecording", "stopRecording", "toggleAudio", "toggleVideo", "downloadRecording",
    "uploadRecording", "getRecordingBlob", "setSelectedCamera", "setSelectedMicrophone",
    "getDevices", "formatDuration", "hasRecording"]

/-- The export `pages/InterviewSession.jsx` imports from the hook module
(line 21: `import useWebRTC from '../hooks/useWebRTC'`). -/
def interviewSessionImport : String :=
  "default"

/-- The names `InterviewSession` destructures from the hook's result (lines
41-54; `error` is renamed `webrtcError`). -/
def interviewSessionDestructured : List String :=
  ["isVideoEnabled", "isAudioEnabled", "isRecording", "videoRef", "startMedia", "stopMedia",
    "toggleVideo", "toggleAudio", "startRecording", "stopRecording", "captureAudioChunk", "error"]

/-- The names among the destructured ones that the page calls as functions
in its coordinator actions: `startMedia` in `startInterview`, `stopMedia` in
`cleanup` and `handleInterviewComplete`, `startRecording` in `startInterview`,
`stopRecording` in `handleInterviewComplete`, `captureAudioChunk` in the
transcription tick. -/
def interviewSessionCalled : List String :=
  ["startMedia", "stopMedia", "startRecording", "stopRecording", "captureAudioChunk"]

/-- Whether calling the name taken from the hook's result throws for want of
a value: destructuring a key the object lacks yields `undefined`, and calling
`undefined` throws a `TypeError`. -/
def callOfMissingThrows (name : String) : Bool :=
  !useWebRTCReturnedKeys.contains name

/-- The throwing steps of `cleanup` with the hook as it is: only `stopMedia`
can throw, and it does when the hook's result lacks it. -/
def cleanupThrowsAsWired (st : CleanupStep) : Bool :=
  match st with
  | CleanupStep.stopMedia => callOfMissingThrows "stopMedia"
  | _ => false

/-- An event the page can meet with the hook as it is: the call of
`startMedia` behind a click on Start and the call of `stopMedia` behind the
settlement of `stopRecording` throw exactly when the hook's result lacks the
name; every other event is left to the environment. -/
def Event.asWired : Event → Bool
  | Event.clickStart throws => throws == callOfMissingThrows "startMedia"
  | Event.stopRecordingSettled _ _ throws => throws == callOfMissingThrows "stopMedia"
  | _ => true

/-- The states a mounted page can get into with the hook as it is. -/
def ReachableAsWired (p : Page) : Prop :=
  ∃ (sessionId : String) (sock : Nat) (es : List Event),
    (∀ e ∈ es, e.asWired = true) ∧ p = run es (mounted sessionId sock)

/-- No invocation of a list waits for `startMedia` or for `startSession`. -/
def startFree (l : List Task) : Prop :=
  ∀ k ∈ l, k.awaiting ≠ Await.startMedia ∧ k.awaiting ≠ Await.startSession

/-- What holds of every state the page gets into with the hook as it is: the
status is neither `active` nor `completed`, and no invocation waits for
`startMedia` or `startSession`. -/
def Page.neverStarted (p : Page) : Prop :=
  p.sessionStatus ≠ SessionStatus.active ∧ p.sessionStatus ≠ SessionStatus.completed ∧
  startFree p.tasks

/-! ## Candidate landing page: typing -/

/-- The two inputs of the landing form. -/
inductive LandingField where
  | candidateName
  | interviewCode
  deriving DecidableEq, Repr

/-- The function `handleInputChange` of the landing page (lines 20-28): the
typed value is stored as it is under the name of the input, and a shown
error is cleared. -/
def Landing.handleInputChange (field : LandingField) (value : String) (p : Landing) : Landing :=
  let form :=
    match field with
    | LandingField.candidateName => { p.formData with candidateName := value }
    | LandingField.interviewCode => { p.formData with interviewCode := value }
  { p with formData := form, error := "" }

/-! ## Session details page: the duration card -/

/-- The digits of the thousandths `m < 1000` of a number as JavaScript prints
them behind the point: three places with the trailing zeros left off. -/
def fractionDigits (m : Nat) : String :=
  let d1 := m / 100
  let d2 := m / 10 % 10
  let d3 := m % 10
  if d3 ≠ 0 then String.mk [digitChar d1, digitChar d2, digitChar d3]
  else if d2 ≠ 0 then String.mk [digitChar d1, digitChar d2]
  else String.mk [digitChar d1]

/-- The decimal text of the number `m / 1000` for a whole `m >= 0`: the whole
part, and a point with the fraction digits when there is a fraction. -/
def thousandthsText (m : Nat) : String :=
  if m % 1000 = 0 then toString (m / 1000)
  else toString (m / 1000) ++ "." ++ fractionDigits (m % 1000)

/-- The Duration card of `pages/SessionDetails.jsx` (lines 202-206) for a
completed session: `formatDuration` applied to the difference `ms` of the two
timestamps in milliseconds divided by 1000.  The argument `ms / 1000` need not
be whole: `Math.floor(seconds / 60)` is `ms / 60000` rounded down,
`seconds % 60` is `(ms % 60000) / 1000`, and its `toString()` carries a
fraction when `ms` is not a multiple of 1000.  The text is given where
`ms / 1000` is a binary fraction (`ms` a multiple of 125), so that the double
arithmetic of the source is exact; for the other differences the text also
shows the rounding of the division and the result is left open (`none`). -/
def SessionDetails.durationShown (ms : Nat) : Option String :=
  if ms % 125 = 0 then
    some (toString (ms / 60000) ++ ":" ++ padStart (thousandthsText (ms % 60000)) 2 "0")
  else none

/-! ## Reading a formatted duration back -/

/-- The value of a decimal digit character. -/
def digitValue (c : Char) : Nat :=
  c.toNat - 48

/-- The number a list of decimal digits denotes. -/
def decimalValue (cs : List Char) : Nat :=
  cs.foldl (fun acc c => 10 * acc + digitValue c) 0

/-- Whether an invocation of `handleNextQuestion` with these render values
submits `saveResponse` before anything else (the test `currentQuestion &&
transcript` of line 211): 1 when it does, 0 when it does not. -/
def savesFirst (env : Closure) : Nat :=
  match env.currentQuestion with
  | some _ => if env.transcript ≠ "" then 1 else 0
  | none => 0

/-- The `await` at which an invocation of `handleNextQuestion` with these
render values first suspends. -/
def firstAwait (env : Closure) : Await :=
  if savesFirst env = 1 then Await.saveResponse else Await.nextQuestion

/-- A successful `nextQuestion` response that carries a further question. -/
def further (q : Question) : Option NextQuestionResponse :=
  some { success := true, interview_completed := false, current_question := some q }

/-- The calls `cleanup` has to make on a page, each with the statement it
belongs to, in source order: a guarded call is listed when its guard holds. -/
def cleanupCalls (p : Page) : List (CleanupStep × Effect) :=
  (p.timerRef.toList.map fun h => (CleanupStep.clearQuestionTimer, Effect.clearInterval h)) ++
  (p.transcriptIntervalRef.toList.map fun h =>
    (CleanupStep.clearTranscriptInterval, Effect.clearInterval h)) ++
  [(CleanupStep.stopMedia, Effect.hookStopMedia)] ++
  (p.socketService.socket.toList.map fun sock =>
    (CleanupStep.leaveInterview,
      Effect.channel (ChannelEffect.emit sock "leave_interview" [("session_id", Val.str p.sessionId)]))) ++
  (p.socketService.socket.toList.map fun sock =>
    (CleanupStep.disconnect, Effect.channel (ChannelEffect.socketDisconnect sock)))

/-- The calls of a list that are attempted when the list is run in order and
abandoned at the first call that throws. -/
def attempted (throws : CleanupStep → Bool) : List (CleanupStep × Effect) → List Effect
  | [] => []
  | (st, e) :: rest => e :: (if throws st then [] else attempted throws rest)

/-! ## Concrete scenarios -/

/-- The first question of the session. -/
def qA : Question := { id := 1, text := "Tell us about yourself", time_limit := 60 }

/-- The second question. -/
def qB : Question := { id := 2, text := "Describe a project", time_limit := 90 }

/-- The third question. -/
def qC : Question := { id := 3, text := "Any questions", time_limit := 30 }

/-- The render values the first question timer closes over: the timer is
started by `startInterview` in a render whose transcript is still empty. -/
def timerEnv : Closure := { currentQuestion := some qA, transcript := "" }

/-- An active session on its first question in the last second of the timer:
the transcript holds one fragment, the question timer (handle 0) and the
transcription interval (handle 1) are live and a socket is held. -/
def racePage : Page :=
  { sessionId := "s1"
    session := some { id := "s1", candidate_name := "Jane Doe", status := "ready" }
    questions := [qA, qB, qC]
    currentQuestion := some qA
    questionIndex := 0
    sessionStatus := SessionStatus.active
    timeRemaining := 1
    transcript := " hello"
    aiMessages := []
    error := ""
    timerRef := some 0
    transcriptIntervalRef := some 1
    socketService := { socket := some 7, isConnected := true }
    intervals :=
      [{ kind := IntervalKind.questionTimer timerEnv, ms := 1000, live := true },
       { kind := IntervalKind.transcriptionCapture, ms := 2000, live := true }]
    tasks := []
    log := [] }

/-- The same session with no interval registered yet. -/
def idlePage : Page :=
  { racePage with timeRemaining := 0, timerRef := none, transcriptIntervalRef := none, intervals := [] }

/-- The same session with an empty transcript. -/
def silentPage : Page :=
  { racePage with transcript := "" }

/-- A run in which only the call `stopMedia()` throws. -/
def onlyStopMediaThrows (st : CleanupStep) : Bool :=
  match st with
  | CleanupStep.stopMedia => true
  | _ => false

/-- A stream with one audio and one video track. -/
def cameraStream : MediaStream :=
  { id := 1
    tracks :=
      [{ kind := "audio", enabled := true, stopped := false },
       { kind := "video", enabled := true, stopped := false }] }

/-- An adapter that holds a stream and has never recorded. -/
def idleAdapter : Adapter :=
  { isVideoEnabled := true
    isAudioEnabled := true
    isRecording := false
    recordingDuration := 0
    error := none
    videoSurface := some (some cameraStream)
    streamRef := some cameraStream
    mediaRecorderRef := none
    detachedRecorders := []
    recordedChunksRef := []
    recordingTimerRef := none
    liveIntervals := []
    nextIntervalId := 1
    cameras := []
    microphones := []
    selectedCamera := ""
    selectedMicrophone := "" }

/-- An adapter whose recorder is still in the ref after a recording ended
and whose `isRecording` is false, with a duration interval left in the ref
and two chunks accumulated. -/
def stoppedAdapter : Adapter :=
  { idleAdapter with
      mediaRecorderRef :=
        some
          { stream := cameraStream
            mimeType := "video/webm"
            videoBitsPerSecond := 2500000
            audioBitsPerSecond := 128000
            state := RecorderState.inactive
            timeslice := 1000
            onstop := OnStop.resolveBlob }
      recordedChunksRef := [{ bytes := [1, 2], type := "video/webm" }, { bytes := [3], type := "video/webm" }]
      recordingTimerRef := some 1
      liveIntervals := [1]
      nextIntervalId := 2 }

/-- A capability predicate that accepts only plain webm and mp4. -/
def webmOrMp4 (m : String) : Bool :=
  m == "video/webm" || m == "video/mp4"

/-- A platform that supports no type at all and whose recorder constructor
takes whatever it is given. -/
def lenientPlatform : Platform :=
  { isTypeSupported := fun _ => false
    getUserMedia := some cameraStream
    recorderAccepts := fun _ => true }

/-- A platform that supports no type at all and whose recorder constructor
refuses every type it does not support. -/
def strictPlatform : Platform :=
  { isTypeSupported := fun _ => false
    getUserMedia := some cameraStream
    recorderAccepts := fun _ => false }

/-- The racing page after the Next button and then the expiring tick of the
question timer, neither invocation having completed. -/
def raceIssued : Page :=
  tick 0 (clickNext racePage)

/-- The race played to its end: the save of the button's invocation
succeeds, then each of the two `nextQuestion` requests is answered with a
further question. -/
def raceRun : Page :=
  nextSettled 1 (further qC) (nextSettled 0 (further qB) (saveSettled 0 true raceIssued))

/-- A `nextQuestion` response that reports the interview as completed. -/
def completion : Option NextQuestionResponse :=
  some { success := true, interview_completed := true, current_question := none }

/-- The racing page after the timer tick at expiry: invocation 0 of
`handleNextQuestion` waits for `nextQuestion`. -/
def expiredPage : Page :=
  tick 0 racePage

/-- A fulfilled `getSession` for session `s1` with one question. -/
def getOk : Option GetSessionResponse :=
  some
    { session := { id := "s1", candidate_name := "Jane Doe", status := "ready" }
      questions := [qA] }

/-- A successful `startSession` response with the first question. -/
def startOk : Option StartSessionResponse :=
  some { success := true, current_question := some qA }

/-- The page of session `s1` once `getSession` has been fulfilled: status
`ready`. -/
def readyPage : Page :=
  run [Event.getSessionSettled 0 getOk] (mounted "s1" 7)

/-- A run that ends in the status `error`: `getSession` is rejected. -/
def failedPage : Page :=
  run [Event.getSessionSettled 0 none] (mounted "s1" 7)

/-- A platform that supports plain webm, hands out the camera stream and
whose recorder constructor takes what is supported. -/
def webmPlatform : Platform :=
  { isTypeSupported := webmOrMp4
    getUserMedia := some cameraStream
    recorderAccepts := webmOrMp4 }

/-- The hook after two calls of `startRecording` with no `stopRecording` in
between. -/
def twiceStarted : Adapter :=
  recordingCalls [RecordingCall.start webmPlatform, RecordingCall.start webmPlatform] initialAdapter

/-- The hook after one call of `startRecording`. -/
def onceStarted : Adapter :=
  recordingCalls [RecordingCall.start webmPlatform] initialAdapter

/-- A form with a name and a prompt text. -/
def filledPromptForm : PromptForm :=
  { name := "Hints", description := "", prompt_text := "Offer a hint", is_active := false }

/-- The prompt page with the filled form and nothing called yet. -/
def filledPromptPage : PromptPage :=
  { prompts := []
    loading := false
    error := ""
    success := ""
    editingPrompt := none
    showCreateForm := true
    formData := filledPromptForm
    calls := [] }

/-- The prompt page with a form whose prompt text is empty. -/
def emptyTextPromptPage : PromptPage :=
  { filledPromptPage with formData := { filledPromptForm with prompt_text := "" } }

/-- The landing page with the code "ABC123" and the name "Jane Doe". -/
def janeLanding : Landing :=
  { formData := { candidateName := "Jane Doe", interviewCode := "ABC123" }
    loading := false
    error := ""
    validateCalls := []
    navigations := [] }

/-- A channel client that holds the socket with handle 7 and is connected. -/
def heldService : SocketService :=
  { socket := some 7, isConnected := true }

/-- The active session of `racePage` with no current question. -/
def noQuestionPage : Page :=
  { racePage with currentQuestion := none }

/-- A camera and a microphone as the platform lists them. -/
def listedDevices : List MediaDeviceInfo :=
  [{ deviceId := "cam1", kind := "videoinput", label := "Front camera" },
   { deviceId := "mic1", kind := "audioinput", label := "Headset" },
   { deviceId := "spk1", kind := "audiooutput", label := "Speakers" }]

/-- An adapter that has enumerated the devices once and selected the first
camera and the first microphone. -/
def enumeratedAdapter : Adapter :=
  (getDevices (some listedDevices) idleAdapter).1

/-- The landing page after the candidate typed the code in lower case with a
space on either side. -/
def lowerCaseLanding : Landing :=
  Landing.handleInputChange LandingField.interviewCode " abc123 " janeLanding

/-- An active session on which two question timers are running, the
intervals 0 and 2, with `timerRef` holding the later one; invocation 0 of
`handleNextQuestion` waits for `nextQuestion`. -/
def twoTimersPage : Page :=
  { racePage with
      timeRemaining := 30
      timerRef := some 2
      intervals := racePage.intervals ++
        [{ kind := IntervalKind.questionTimer timerEnv, ms := 1000, live := true }]
      tasks := [{ env := racePage.closure, awaiting := Await.nextQuestion }] }

/-! ## Lemmas on the operations -/

theorem savesFirst_cases (env : Closure) : savesFirst env = 0 ∨ savesFirst env = 1 := by
  unfold savesFirst
  split
  · split <;> simp
  · simp

theorem handleNextQuestion_fields (env : Closure) (p : Page) :
    (handleNextQuestion env p).tasks = p.tasks ++ [{ env := env, awaiting := firstAwait env }] ∧
    countNextQuestion (handleNextQuestion env p).log = countNextQuestion p.log + (1 - savesFirst env) ∧
    countSaveResponse (handleNextQuestion env p).log = countSaveResponse p.log + savesFirst env ∧
    (handleNextQuestion env p).questionIndex = p.questionIndex ∧
    (handleNextQuestion env p).intervals = p.intervals ∧
    (handleNextQuestion env p).timeRemaining = p.timeRemaining := by
  rcases env with ⟨cq, tr⟩
  cases cq with
  | none =>
    simp [handleNextQuestion, firstAwait, savesFirst, Page.suspend, Page.emit, countNextQuestion,
      countSaveResponse]
  | some q =>
    by_cases h : tr = ""
    · simp [handleNextQuestion, firstAwait, savesFirst, Page.suspend, Page.emit, countNextQuestion,
        countSaveResponse, h]
    · simp [handleNextQuestion, firstAwait, savesFirst, Page.suspend, Page.emit, countNextQuestion,
        countSaveResponse, h]

theorem saveSettled_fields (t : Nat) (p : Page) (env : Closure) (w : Await)
    (hw : w = Await.saveResponse ∨ w = Await.nextQuestion)
    (ht : p.tasks[t]? = some { env := env, awaiting := w }) :
    (saveSettled t true p).tasks[t]? = some { env := env, awaiting := Await.nextQuestion } ∧
    (∀ u, u ≠ t → (saveSettled t true p).tasks[u]? = p.tasks[u]?) ∧
    countNextQuestion (saveSettled t true p).log =
      countNextQuestion p.log + (if w = Await.saveResponse then 1 else 0) ∧
    countSaveResponse (saveSettled t true p).log = countSaveResponse p.log ∧
    (saveSettled t true p).questionIndex = p.questionIndex := by
  rcases hw with rfl | rfl
  · refine ⟨?_, ?_, ?_, ?_, ?_⟩
    · simp [saveSettled, ht, Page.moveTask, Page.emit, List.getElem?_modify]
    · intro u hu
      simp [saveSettled, ht, Page.moveTask, Page.emit, List.getElem?_modify, Ne.symm hu]
    · simp [saveSettled, ht, Page.moveTask, Page.emit, countNextQuestion]
    · simp [saveSettled, ht, Page.moveTask, Page.emit, countSaveResponse]
    · simp [saveSettled, ht, Page.moveTask, Page.emit]
  · have : saveSettled t true p = p := by simp [saveSettled, ht]
    rw [this]
    simp [ht]

theorem nextSettled_fields (t : Nat) (p : Page) (env : Closure) (q : Question)
    (ht : p.tasks[t]? = some { env := env, awaiting := Await.nextQuestion }) :
    (nextSettled t (further q) p).tasks[t]? = some { env := env, awaiting := Await.finished } ∧
    (∀ u, u ≠ t → (nextSettled t (further q) p).tasks[u]? = p.tasks[u]?) ∧
    countNextQuestion (nextSettled t (further q) p).log = countNextQuestion p.log ∧
    countSaveResponse (nextSettled t (further q) p).log = countSaveResponse p.log ∧
    (nextSettled t (further q) p).questionIndex = p.questionIndex + 1 := by
  cases htr : p.timerRef with
  | none =>
    refine ⟨?_, ?_, ?_, ?_, ?_⟩
    · simp [nextSettled, ht, further, htr, startQuestionTimer, Page.moveTask, List.getElem?_modify]
    · intro u hu
      simp [nextSettled, ht, further, htr, startQuestionTimer, Page.moveTask, List.getElem?_modify,
        Ne.symm hu]
    · simp [nextSettled, ht, further, htr, startQuestionTimer, Page.moveTask, countNextQuestion]
    · simp [nextSettled, ht, further, htr, startQuestionTimer, Page.moveTask, countSaveResponse]
    · simp [nextSettled, ht, further, htr, startQuestionTimer, Page.moveTask]
  | some h =>
    refine ⟨?_, ?_, ?_, ?_, ?_⟩
    · simp [nextSettled, ht, further, htr, startQuestionTimer, Page.moveTask, Page.clearInterval,
        List.getElem?_modify]
    · intro u hu
      simp [nextSettled, ht, further, htr, startQuestionTimer, Page.moveTask, Page.clearInterval,
        List.getElem?_modify, Ne.symm hu]
    · simp [nextSettled, ht, further, htr, startQuestionTimer, Page.moveTask, Page.clearInterval,
        countNextQuestion]
    · simp [nextSettled, ht, further, htr, startQuestionTimer, Page.moveTask, Page.clearInterval,
        countSaveResponse]
    · simp [nextSettled, ht, further, htr, startQuestionTimer, Page.moveTask, Page.clearInterval]

theorem getElem?_append_pair_fst {α : Type} (l : List α) (a b : α) :
    (l ++ [a, b])[l.length]? = some a := by
  rw [List.getElem?_append_right (Nat.le_refl _)]; simp

theorem getElem?_append_pair_snd {α : Type} (l : List α) (a b : α) :
    (l ++ [a, b])[l.length + 1]? = some b := by
  rw [List.getElem?_append_right (Nat.le_add_right _ _)]; simp

theorem settle_both (s0 : Page) (n : Nat) (e1 e2 : Closure) (a b : Await) (qa qb : Question)
    (ha : a = Await.saveResponse ∨ a = Await.nextQuestion)
    (hb : b = Await.saveResponse ∨ b = Await.nextQuestion)
    (h1 : s0.tasks[n]? = some { env := e1, awaiting := a })
    (h2 : s0.tasks[n + 1]? = some { env := e2, awaiting := b }) :
    let s := nextSettled (n + 1) (further qb) (nextSettled n (further qa)
      (saveSettled (n + 1) true (saveSettled n true s0)))
    countNextQuestion s.log = countNextQuestion s0.log
      + (if a = Await.saveResponse then 1 else 0) + (if b = Await.saveResponse then 1 else 0) ∧
    countSaveResponse s.log = countSaveResponse s0.log ∧
    s.questionIndex = s0.questionIndex + 2 := by
  intro s
  obtain ⟨a1, a2, a3, a4, a5⟩ := saveSettled_fields n s0 e1 a ha h1
  have h2a : (saveSettled n true s0).tasks[n + 1]? = some { env := e2, awaiting := b } := by
    rw [a2 (n + 1) (by omega)]; exact h2
  obtain ⟨b1, b2, b3, b4, b5⟩ := saveSettled_fields (n + 1) (saveSettled n true s0) e2 b hb h2a
  have h1b : (saveSettled (n + 1) true (saveSettled n true s0)).tasks[n]? =
      some { env := e1, awaiting := Await.nextQuestion } := by
    rw [b2 n (by omega)]; exact a1
  obtain ⟨c1, c2, c3, c4, c5⟩ :=
    nextSettled_fields n (saveSettled (n + 1) true (saveSettled n true s0)) e1 qa h1b
  have h2c : (nextSettled n (further qa) (saveSettled (n + 1) true (saveSettled n true s0))).tasks[n + 1]? =
      some { env := e2, awaiting := Await.nextQuestion } := by
    rw [c2 (n + 1) (by omega)]; exact b1
  obtain ⟨d1, d2, d3, d4, d5⟩ :=
    nextSettled_fields (n + 1) (nextSettled n (further qa)
      (saveSettled (n + 1) true (saveSettled n true s0))) e2 qb h2c
  refine ⟨?_, ?_, ?_⟩
  · simp only [s]; rw [d3, c3, b3, a3]
  · simp only [s]; rw [d4, c4, b4, a4]
  · simp only [s]; rw [d5, c5, b5, a5]

theorem firstAwait_cases (env : Closure) :
    firstAwait env = Await.saveResponse ∨ firstAwait env = Await.nextQuestion := by
  unfold firstAwait
  split <;> simp

theorem firstAwait_count (env : Closure) :
    (1 - savesFirst env) + (if firstAwait env = Await.saveResponse then 1 else 0) = 1 := by
  unfold firstAwait
  rcases savesFirst_cases env with h | h <;> simp [h]

theorem tick_expiry (h : Nat) (p : Page) (env : Closure) (ms : Nat)
    (hiv : p.intervals[h]? = some { kind := IntervalKind.questionTimer env, ms := ms, live := true })
    (hexp : p.timeRemaining ≤ 1) :
    tick h p = { handleNextQuestion env p with timeRemaining := 0 } := by
  simp [tick, hiv, questionTimerCallback, hexp]

theorem tick_running (h : Nat) (p : Page) (env : Closure) (ms : Nat)
    (hiv : p.intervals[h]? = some { kind := IntervalKind.questionTimer env, ms := ms, live := true })
    (hrun : 1 < p.timeRemaining) :
    tick h p = { p with timeRemaining := p.timeRemaining - 1 } := by
  simp [tick, hiv, questionTimerCallback, not_le.mpr hrun]

theorem ticks_fields (h : Nat) (env : Closure) (ms : Nat) (k : Nat) :
    ∀ (s : Page) (m : Nat),
      s.intervals[h]? = some { kind := IntervalKind.questionTimer env, ms := ms, live := true } →
      s.timeRemaining = (m : Int) →
      (ticks h k s).tasks.length = s.tasks.length + (k - (m - 1)) ∧
      (ticks h k s).timeRemaining = ((m - k : Nat) : Int) := by
  induction k with
  | zero => intro s m _ hm; simp [ticks, hm]
  | succ k ih =>
    intro s m hiv hm
    by_cases hexp : m ≤ 1
    · have hle : s.timeRemaining ≤ 1 := by rw [hm]; exact_mod_cast hexp
      obtain ⟨f1, _, _, _, f5, _⟩ := handleNextQuestion_fields env s
      have hiv1 : (tick h s).intervals[h]? =
          some { kind := IntervalKind.questionTimer env, ms := ms, live := true } := by
        rw [tick_expiry h s env ms hiv hle]
        show (handleNextQuestion env s).intervals[h]? = _
        rw [f5]; exact hiv
      have hm1 : (tick h s).timeRemaining = ((0 : Nat) : Int) := by
        rw [tick_expiry h s env ms hiv hle]; rfl
      have hlen : (tick h s).tasks.length = s.tasks.length + 1 := by
        rw [tick_expiry h s env ms hiv hle]
        show (handleNextQuestion env s).tasks.length = _
        rw [f1]; simp
      obtain ⟨i1, i2⟩ := ih (tick h s) 0 hiv1 hm1
      refine ⟨?_, ?_⟩
      · show (ticks h k (tick h s)).tasks.length = _
        rw [i1, hlen]; omega
      · show (ticks h k (tick h s)).timeRemaining = _
        rw [i2]; congr 1; omega
    · have hgt : 1 < s.timeRemaining := by rw [hm]; exact_mod_cast (not_le.mp hexp)
      have hiv1 : (tick h s).intervals[h]? =
          some { kind := IntervalKind.questionTimer env, ms := ms, live := true } := by
        rw [tick_running h s env ms hiv hgt]; exact hiv
      have hm1 : (tick h s).timeRemaining = ((m - 1 : Nat) : Int) := by
        rw [tick_running h s env ms hiv hgt]
        show s.timeRemaining - 1 = _
        rw [hm]; omega
      have hlen : (tick h s).tasks.length = s.tasks.length := by
        rw [tick_running h s env ms hiv hgt]
      obtain ⟨i1, i2⟩ := ih (tick h s) (m - 1) hiv1 hm1
      refine ⟨?_, ?_⟩
      · show (ticks h k (tick h s)).tasks.length = _
        rw [i1, hlen]; omega
      · show (ticks h k (tick h s)).timeRemaining = _
        rw [i2]; congr 1; omega

theorem cleanup_log (throws : CleanupStep → Bool) (p : Page) :
    (cleanupResult throws p).log = p.log ++ attempted throws (cleanupCalls p) := by
  rcases p with ⟨sid, ses, qs, cq, qi, st, trm, tr, ai, er, timerRef, trRef, ⟨sock, conn⟩, ivs, tasks, log⟩
  cases timerRef <;> cases trRef <;> cases sock <;>
    cases h1 : throws CleanupStep.clearQuestionTimer <;>
    cases h2 : throws CleanupStep.clearTranscriptInterval <;>
    cases h3 : throws CleanupStep.stopMedia <;>
    cases h4 : throws CleanupStep.leaveInterview <;>
    cases h5 : throws CleanupStep.disconnect <;>
    simp [cleanupResult, cleanup, cleanupQuestionTimer, cleanupTranscriptInterval, cleanupStopMedia,
      cleanupLeaveInterview, cleanupDisconnect, cleanupStatement, cleanupCalls, attempted,
      Page.emit, Page.clearInterval, SocketService.leaveInterview, SocketService.disconnect,
      bind, Except.bind, h1, h2, h3, h4, h5]


theorem padStart_two_digits (r : Nat) (h : r < 60) :
    padStart (toString r) 2 "0" = String.mk [digitChar (r / 10), digitChar (r % 10)] := by
  interval_cases r <;> rfl

theorem startRecording_passed (pf : Platform) (a : Adapter) :
    (startRecording pf a).2.passedMimeType = none ∨
    (startRecording pf a).2.passedMimeType = some (selectMimeType pf.isTypeSupported) := by
  unfold startRecording
  cases hs : a.streamRef with
  | none =>
    cases hg : pf.getUserMedia with
    | none => simp [hg, startVideo, startRecordingFailed]
    | some stream =>
      by_cases hacc : pf.recorderAccepts (selectMimeType pf.isTypeSupported) = true <;>
        simp [hg, startVideo, startRecordingFailed, hacc]
  | some stream =>
    by_cases hacc : pf.recorderAccepts (selectMimeType pf.isTypeSupported) = true <;>
      simp [hs, startRecordingFailed, hacc]


/-! ## Lemmas on the session lifecycle -/

theorem forall_mem_modify {α : Type} (P : α → Prop) (f : α → α) (l : List α) (t : Nat)
    (hP : ∀ a ∈ l, P a) (hf : ∀ a, P a → P (f a)) : ∀ a ∈ l.modify f t, P a := by
  induction l generalizing t with
  | nil => intro a ha; simp at ha
  | cons x xs ih =>
    cases t with
    | zero =>
      intro a ha
      simp at ha
      rcases ha with rfl | ha
      · exact hf x (hP x (by simp))
      · exact hP a (by simp [ha])
    | succ n =>
      intro a ha
      simp at ha
      rcases ha with rfl | ha
      · exact hP a (by simp)
      · exact ih n (fun b hb => hP b (by simp [hb])) a ha

theorem tasksOk_modify (l : List Task) (t : Nat) (w : Await) (hw : w ≠ Await.getSession)
    (h : tasksOk l) : tasksOk (l.modify (fun k => { env := k.env, awaiting := w }) t) :=
  forall_mem_modify (fun (k : Task) => k.awaiting ≠ Await.getSession) _ l t h (fun _ _ => hw)

theorem tasksOk_append (l : List Task) (k : Task) :
    tasksOk (l ++ [k]) ↔ tasksOk l ∧ k.awaiting ≠ Await.getSession := by
  unfold tasksOk
  constructor
  · intro h
    exact ⟨fun a ha => h a (by simp [ha]), h k (by simp)⟩
  · rintro ⟨h1, h2⟩ a ha
    simp at ha
    rcases ha with ha | rfl
    · exact h1 a ha
    · exact h2

theorem handleNextQuestion_initDone (env : Closure) (p : Page) (hp : p.initDone) :
    (handleNextQuestion env p).initDone := by
  unfold Page.initDone at *
  unfold handleNextQuestion
  cases env.currentQuestion with
  | none => simp [Page.suspend, Page.emit, tasksOk_append, hp]
  | some q =>
    by_cases h : env.transcript = "" <;> simp [h, Page.suspend, Page.emit, tasksOk_append, hp]

theorem tick_initDone (h : Nat) (p : Page) (hp : p.initDone) : (tick h p).initDone := by
  unfold tick
  cases p.intervals[h]? with
  | none => exact hp
  | some iv =>
    rcases iv with ⟨kind, ms, live⟩
    cases live with
    | false => simpa using hp
    | true =>
      cases kind with
      | transcriptionCapture => simpa using hp
      | questionTimer env =>
        simp only [if_true]
        unfold questionTimerCallback
        split
        · exact handleNextQuestion_initDone env p hp
        · exact hp

theorem saveSettled_initDone (t : Nat) (ok : Bool) (p : Page) (hp : p.initDone) :
    (saveSettled t ok p).initDone := by
  unfold Page.initDone at *
  unfold saveSettled
  cases p.tasks[t]? with
  | none => exact hp
  | some k =>
    by_cases hk : k.awaiting = Await.saveResponse
    · cases ok <;>
        simp [hk, nextQuestionFailed, Page.moveTask, Page.emit, tasksOk_modify, hp]
    · simpa [hk] using hp

theorem nextSettled_initDone (t : Nat) (r : Option NextQuestionResponse) (p : Page) (hp : p.initDone) :
    (nextSettled t r p).initDone := by
  unfold Page.initDone at *
  unfold nextSettled
  cases p.tasks[t]? with
  | none => exact hp
  | some k =>
    by_cases hk : k.awaiting = Await.nextQuestion
    · cases r with
      | none => simp [hk, nextQuestionFailed, Page.moveTask, tasksOk_modify, hp]
      | some resp =>
        rcases resp with ⟨suc, comp, cq⟩
        cases suc <;> cases comp <;> cases cq <;> cases htr : p.timerRef <;>
          simp [hk, htr, nextQuestionFailed, Page.moveTask, handleInterviewComplete, Page.suspend,
            Page.emit, startQuestionTimer, Page.clearInterval, tasksOk_modify, tasksOk_append, hp]
    · simpa [hk] using hp

theorem stopRecordingSettled_initDone (t : Nat) (ok thr : Bool) (p : Page) (hp : p.initDone) :
    (stopRecordingSettled t ok thr p).initDone := by
  unfold Page.initDone at *
  unfold stopRecordingSettled
  cases p.tasks[t]? with
  | none => exact hp
  | some k =>
    by_cases hk : k.awaiting = Await.stopRecording
    · cases ok <;> cases thr <;> cases htr : p.timerRef <;> cases htt : p.transcriptIntervalRef <;>
        simp [hk, htr, htt, Page.moveTask, Page.emit, Page.channelCall, Page.clearInterval,
          tasksOk_modify, hp]
    · simpa [hk] using hp

theorem startInterview_initDone (thr : Bool) (p : Page) (hp : p.initDone) :
    (startInterview thr p).initDone := by
  unfold Page.initDone at *
  cases thr <;>
    simp [startInterview, startInterviewFailed, Page.moveTask, Page.suspend, Page.emit,
      tasksOk_modify, tasksOk_append, hp]

theorem startMediaSettled_initDone (t : Nat) (ok : Bool) (p : Page) (hp : p.initDone) :
    (startMediaSettled t ok p).initDone := by
  unfold Page.initDone at *
  unfold startMediaSettled
  cases p.tasks[t]? with
  | none => exact hp
  | some k =>
    by_cases hk : k.awaiting = Await.startMedia
    · cases ok <;> simp [hk, startInterviewFailed, Page.moveTask, Page.emit, tasksOk_modify, hp]
    · simpa [hk] using hp

theorem startSessionSettled_initDone (t : Nat) (r : Option StartSessionResponse) (v a : Bool) (p : Page)
    (hp : p.initDone) : (startSessionSettled t r v a p).initDone := by
  unfold Page.initDone at *
  unfold startSessionSettled
  cases p.tasks[t]? with
  | none => exact hp
  | some k =>
    by_cases hk : k.awaiting = Await.startSession
    · cases r with
      | none => simp [hk, startInterviewFailed, Page.moveTask, tasksOk_modify, hp]
      | some resp =>
        rcases resp with ⟨suc, cq⟩
        cases suc <;> cases cq <;>
          simp [hk, startInterviewFailed, Page.moveTask, Page.channelCall, startTranscriptionCapture,
            startQuestionTimer, tasksOk_modify, hp]
    · simpa [hk] using hp

theorem startSessionSettled_status (t : Nat) (r : Option StartSessionResponse) (v a : Bool) (p : Page) :
    (startSessionSettled t r v a p).sessionStatus = p.sessionStatus ∨
    (startSessionSettled t r v a p).sessionStatus = SessionStatus.active := by
  unfold startSessionSettled
  cases p.tasks[t]? with
  | none => exact Or.inl rfl
  | some k =>
    by_cases hk : k.awaiting = Await.startSession
    · cases r with
      | none => simp [hk, startInterviewFailed, Page.moveTask]
      | some resp =>
        rcases resp with ⟨suc, cq⟩
        cases suc <;> cases cq <;>
          simp [hk, startInterviewFailed, Page.moveTask, Page.channelCall, startTranscriptionCapture,
            startQuestionTimer]
    · simp [hk]

/-! ### Events that find nothing to do -/

theorem saveSettled_idle (t : Nat) (ok : Bool) (p : Page)
    (h : ∀ k, p.tasks[t]? = some k → k.awaiting ≠ Await.saveResponse) : saveSettled t ok p = p := by
  unfold saveSettled
  cases hk : p.tasks[t]? with
  | none => rfl
  | some k => simp [h k hk]

theorem nextSettled_idle (t : Nat) (r : Option NextQuestionResponse) (p : Page)
    (h : ∀ k, p.tasks[t]? = some k → k.awaiting ≠ Await.nextQuestion) : nextSettled t r p = p := by
  unfold nextSettled
  cases hk : p.tasks[t]? with
  | none => rfl
  | some k => simp [h k hk]

theorem stopRecordingSettled_idle (t : Nat) (ok thr : Bool) (p : Page)
    (h : ∀ k, p.tasks[t]? = some k → k.awaiting ≠ Await.stopRecording) :
    stopRecordingSettled t ok thr p = p := by
  unfold stopRecordingSettled
  cases hk : p.tasks[t]? with
  | none => rfl
  | some k => simp [h k hk]

theorem getSessionSettled_idle (t : Nat) (r : Option GetSessionResponse) (p : Page)
    (h : ∀ k, p.tasks[t]? = some k → k.awaiting ≠ Await.getSession) : getSessionSettled t r p = p := by
  unfold getSessionSettled
  cases hk : p.tasks[t]? with
  | none => rfl
  | some k => simp [h k hk]

theorem startMediaSettled_idle (t : Nat) (ok : Bool) (p : Page)
    (h : ∀ k, p.tasks[t]? = some k → k.awaiting ≠ Await.startMedia) : startMediaSettled t ok p = p := by
  unfold startMediaSettled
  cases hk : p.tasks[t]? with
  | none => rfl
  | some k => simp [h k hk]

theorem startSessionSettled_idle (t : Nat) (r : Option StartSessionResponse) (v a : Bool) (p : Page)
    (h : ∀ k, p.tasks[t]? = some k → k.awaiting ≠ Await.startSession) :
    startSessionSettled t r v a p = p := by
  unfold startSessionSettled
  cases hk : p.tasks[t]? with
  | none => rfl
  | some k => simp [h k hk]

theorem tick_idle (h : Nat) (p : Page)
    (hq : ∀ iv, p.intervals[h]? = some iv → iv.live = false) : tick h p = p := by
  unfold tick
  cases hk : p.intervals[h]? with
  | none => rfl
  | some iv => simp [hq iv hk]

/-! ### What each operation does to the status -/

theorem handleNextQuestion_status (env : Closure) (p : Page) :
    (handleNextQuestion env p).sessionStatus = p.sessionStatus := by
  unfold handleNextQuestion
  cases env.currentQuestion with
  | none => rfl
  | some q => by_cases h : env.transcript = "" <;> simp [h, Page.suspend, Page.emit]

theorem questionTimerCallback_status (env : Closure) (p : Page) :
    (questionTimerCallback env p).sessionStatus = p.sessionStatus := by
  unfold questionTimerCallback
  split
  · exact handleNextQuestion_status env p
  · rfl

theorem tick_status (h : Nat) (p : Page) : (tick h p).sessionStatus = p.sessionStatus := by
  unfold tick
  cases p.intervals[h]? with
  | none => rfl
  | some iv =>
    rcases iv with ⟨kind, ms, live⟩
    cases live with
    | false => simp
    | true =>
      cases kind with
      | transcriptionCapture => simp
      | questionTimer env => simpa using questionTimerCallback_status env p

theorem saveSettled_status (t : Nat) (ok : Bool) (p : Page) :
    (saveSettled t ok p).sessionStatus = p.sessionStatus := by
  unfold saveSettled
  cases p.tasks[t]? with
  | none => rfl
  | some k =>
    by_cases hk : k.awaiting = Await.saveResponse
    · cases ok <;> simp [hk, nextQuestionFailed, Page.moveTask, Page.emit]
    · simp [hk]

theorem nextSettled_status (t : Nat) (r : Option NextQuestionResponse) (p : Page) :
    (nextSettled t r p).sessionStatus = p.sessionStatus := by
  unfold nextSettled
  cases p.tasks[t]? with
  | none => rfl
  | some k =>
    by_cases hk : k.awaiting = Await.nextQuestion
    · cases r with
      | none => simp [hk, nextQuestionFailed, Page.moveTask]
      | some resp =>
        rcases resp with ⟨suc, comp, cq⟩
        cases suc <;> cases comp <;> cases cq <;> cases htr : p.timerRef <;>
          simp [hk, htr, nextQuestionFailed, Page.moveTask, handleInterviewComplete, Page.suspend,
            Page.emit, startQuestionTimer, Page.clearInterval]
    · simp [hk]

theorem stopRecordingSettled_status (t : Nat) (ok thr : Bool) (p : Page) :
    (stopRecordingSettled t ok thr p).sessionStatus = p.sessionStatus ∨
    (stopRecordingSettled t ok thr p).sessionStatus = SessionStatus.completed := by
  unfold stopRecordingSettled
  cases p.tasks[t]? with
  | none => exact Or.inl rfl
  | some k =>
    by_cases hk : k.awaiting = Await.stopRecording
    · cases ok <;> cases thr <;> cases htr : p.timerRef <;> cases htt : p.transcriptIntervalRef <;>
        simp [hk, htr, htt, Page.moveTask, Page.emit, Page.channelCall, Page.clearInterval]
    · simp [hk]

theorem startInterview_status (thr : Bool) (p : Page) :
    (startInterview thr p).sessionStatus = p.sessionStatus := by
  cases thr <;> simp [startInterview, startInterviewFailed, Page.moveTask, Page.suspend, Page.emit]

theorem startMediaSettled_status (t : Nat) (ok : Bool) (p : Page) :
    (startMediaSettled t ok p).sessionStatus = p.sessionStatus := by
  unfold startMediaSettled
  cases p.tasks[t]? with
  | none => rfl
  | some k =>
    by_cases hk : k.awaiting = Await.startMedia
    · cases ok <;> simp [hk, startInterviewFailed, Page.moveTask, Page.emit]
    · simp [hk]

theorem lifecycle_of_sameFlight (p q : Page) (h : p.sameFlight q) (hp : p.lifecycle) : q.lifecycle := by
  obtain ⟨h1, h2, h3⟩ := h
  unfold Page.lifecycle Page.initDone Page.quiet at *
  rw [h1, h2, h3]; exact hp

theorem sameFlight_refl (p : Page) : p.sameFlight p := ⟨rfl, rfl, rfl⟩

/-- In a state whose view has neither button, whose intervals are all
cleared and whose invocations all stand at `w`, where `w` is `finished`, or
is `getSession` and the event is not the settlement of `getSession`, an event
changes neither the status nor the invocations nor the intervals. -/
theorem step_sameFlight (e : Event) (p : Page) (w : Await)
    (hall : ∀ k ∈ p.tasks, k.awaiting = w) (hiv : ∀ iv ∈ p.intervals, iv.live = false)
    (hr : p.sessionStatus ≠ SessionStatus.ready) (ha : p.sessionStatus ≠ SessionStatus.active)
    (hw : w = Await.finished ∨
      (w = Await.getSession ∧ ∀ t r, e ≠ Event.getSessionSettled t r)) :
    p.sameFlight (step e p) := by
  have hfin : ∀ (t : Nat) (k : Task), p.tasks[t]? = some k → k.awaiting = w :=
    fun t k hk => hall k (List.getElem?_mem hk)
  have hne : ∀ x : Await, x ≠ Await.finished → x ≠ Await.getSession → w ≠ x := by
    intro x h1 h2 h
    rcases hw with h3 | ⟨h3, -⟩
    · exact h1 (h ▸ h3)
    · exact h2 (h ▸ h3)
  cases e with
  | getSessionSettled t r =>
    rcases hw with h3 | ⟨-, h3⟩
    · rw [show step (Event.getSessionSettled t r) p = getSessionSettled t r p from rfl,
        getSessionSettled_idle t r p (fun k hk => by rw [hfin t k hk, h3]; decide)]
      exact sameFlight_refl p
    · exact absurd rfl (h3 t r)
  | clickStart thr => simp [step, hr]; exact sameFlight_refl p
  | startMediaSettled t ok =>
    rw [show step (Event.startMediaSettled t ok) p = startMediaSettled t ok p from rfl,
      startMediaSettled_idle t ok p (fun k hk => by
        rw [hfin t k hk]; exact hne _ (by decide) (by decide))]
    exact sameFlight_refl p
  | startSessionSettled t r v a =>
    rw [show step (Event.startSessionSettled t r v a) p = startSessionSettled t r v a p from rfl,
      startSessionSettled_idle t r v a p (fun k hk => by
        rw [hfin t k hk]; exact hne _ (by decide) (by decide))]
    exact sameFlight_refl p
  | clickNext => simp [step, ha]; exact sameFlight_refl p
  | tick h =>
    rw [show step (Event.tick h) p = tick h p from rfl,
      tick_idle h p (fun iv hh => hiv iv (List.getElem?_mem hh))]
    exact sameFlight_refl p
  | saveSettled t ok =>
    rw [show step (Event.saveSettled t ok) p = saveSettled t ok p from rfl,
      saveSettled_idle t ok p (fun k hk => by
        rw [hfin t k hk]; exact hne _ (by decide) (by decide))]
    exact sameFlight_refl p
  | nextSettled t r =>
    rw [show step (Event.nextSettled t r) p = nextSettled t r p from rfl,
      nextSettled_idle t r p (fun k hk => by
        rw [hfin t k hk]; exact hne _ (by decide) (by decide))]
    exact sameFlight_refl p
  | stopRecordingSettled t ok thr =>
    rw [show step (Event.stopRecordingSettled t ok thr) p = stopRecordingSettled t ok thr p from rfl,
      stopRecordingSettled_idle t ok thr p (fun k hk => by
        rw [hfin t k hk]; exact hne _ (by decide) (by decide))]
    exact sameFlight_refl p
  | joinedInterview => exact sameFlight_refl p
  | transcriptUpdate text => exact ⟨rfl, rfl, rfl⟩
  | aiResponse now type message timestamp => exact ⟨rfl, rfl, rfl⟩
  | socketError message => exact ⟨rfl, rfl, rfl⟩

/-- Once no invocation waits for `getSession`, an event keeps it so. -/
theorem step_initDone (e : Event) (p : Page) (hp : p.initDone) : (step e p).initDone := by
  cases e with
  | getSessionSettled t r =>
    rw [show step (Event.getSessionSettled t r) p = getSessionSettled t r p from rfl,
      getSessionSettled_idle t r p (fun k hk => hp k (List.getElem?_mem hk))]
    exact hp
  | clickStart thr =>
    show Page.initDone (if p.sessionStatus = SessionStatus.ready then startInterview thr p else p)
    split
    · exact startInterview_initDone thr p hp
    · exact hp
  | startMediaSettled t ok => exact startMediaSettled_initDone t ok p hp
  | startSessionSettled t r v a => exact startSessionSettled_initDone t r v a p hp
  | clickNext =>
    show Page.initDone (if p.sessionStatus = SessionStatus.active ∧ p.currentQuestion.isSome then
      clickNext p else p)
    split
    · exact handleNextQuestion_initDone _ p hp
    · exact hp
  | tick h => exact tick_initDone h p hp
  | saveSettled t ok => exact saveSettled_initDone t ok p hp
  | nextSettled t r => exact nextSettled_initDone t r p hp
  | stopRecordingSettled t ok thr => exact stopRecordingSettled_initDone t ok thr p hp
  | joinedInterview => exact hp
  | transcriptUpdate text => exact hp
  | aiResponse now type message timestamp => exact hp
  | socketError message => exact hp

/-- Once no invocation waits for `getSession`, an event leaves the status as
it is or sets it to `active` (only the settlement of `startSession` does) or
to `completed` (only the settlement of `stopRecording` does). -/
theorem step_status (e : Event) (p : Page) (hp : p.initDone) :
    (step e p).sessionStatus = p.sessionStatus ∨
    ((∃ t r v a, e = Event.startSessionSettled t r v a) ∧
      (step e p).sessionStatus = SessionStatus.active) ∨
    (step e p).sessionStatus = SessionStatus.completed := by
  cases e with
  | getSessionSettled t r =>
    rw [show step (Event.getSessionSettled t r) p = getSessionSettled t r p from rfl,
      getSessionSettled_idle t r p (fun k hk => hp k (List.getElem?_mem hk))]
    exact Or.inl rfl
  | clickStart thr =>
    left
    show (if p.sessionStatus = SessionStatus.ready then startInterview thr p else p).sessionStatus = _
    split
    · exact startInterview_status thr p
    · rfl
  | startMediaSettled t ok => exact Or.inl (startMediaSettled_status t ok p)
  | startSessionSettled t r v a =>
    rcases startSessionSettled_status t r v a p with h | h
    · exact Or.inl h
    · exact Or.inr (Or.inl ⟨⟨t, r, v, a, rfl⟩, h⟩)
  | clickNext =>
    left
    show (if p.sessionStatus = SessionStatus.active ∧ p.currentQuestion.isSome then
      clickNext p else p).sessionStatus = _
    split
    · exact handleNextQuestion_status _ p
    · rfl
  | tick h => exact Or.inl (tick_status h p)
  | saveSettled t ok => exact Or.inl (saveSettled_status t ok p)
  | nextSettled t r => exact Or.inl (nextSettled_status t r p)
  | stopRecordingSettled t ok thr =>
    rcases stopRecordingSettled_status t ok thr p with h | h
    · exact Or.inl h
    · exact Or.inr (Or.inr h)
  | joinedInterview => exact Or.inl rfl
  | transcriptUpdate text => exact Or.inl rfl
  | aiResponse now type message timestamp => exact Or.inl rfl
  | socketError message => exact Or.inl rfl

/-- The settlement of `getSession` on a page in the status `loading`. -/
theorem getSessionSettled_lifecycle (t : Nat) (r : Option GetSessionResponse) (p : Page)
    (hp : p.lifecycle) (hlen : p.tasks.length ≤ 1)
    (hall : ∀ k ∈ p.tasks, k.awaiting = Await.getSession)
    (hiv : p.intervals = []) : (getSessionSettled t r p).lifecycle := by
  cases htk : p.tasks with
  | nil =>
    have : getSessionSettled t r p = p := by
      apply getSessionSettled_idle; intro k hk; rw [htk] at hk; simp at hk
    rw [this]
    unfold Page.lifecycle Page.initDone Page.quiet tasksOk
    simp [htk, hiv]
  | cons k rest =>
    have hrest : rest = [] := by
      rw [htk] at hlen
      simp at hlen
      exact hlen
    subst hrest
    have hk : k.awaiting = Await.getSession := hall k (by rw [htk]; simp)
    cases t with
    | succ n =>
      have : getSessionSettled (n + 1) r p = p := by
        apply getSessionSettled_idle; intro k2 hk2; rw [htk] at hk2; simp at hk2
      rw [this]
      exact hp
    | zero =>
      unfold Page.lifecycle Page.initDone Page.quiet tasksOk
      cases r with
      | none =>
        simp [getSessionSettled, htk, hk, hiv, Page.moveTask]
      | some d =>
        simp [getSessionSettled, htk, hk, hiv, Page.moveTask, setupSocketListeners, Page.channelCall]

/-- Every event keeps the lifecycle invariant. -/
theorem lifecycle_step (e : Event) (p : Page) (hp : p.lifecycle) : (step e p).lifecycle := by
  obtain ⟨i1, i2, i3⟩ := hp
  by_cases hl : p.sessionStatus = SessionStatus.loading
  · obtain ⟨hlen, hall, hiv⟩ := i1 hl
    by_cases hg : ∃ t r, e = Event.getSessionSettled t r
    · obtain ⟨t, r, rfl⟩ := hg
      exact getSessionSettled_lifecycle t r p ⟨i1, i2, i3⟩ hlen hall hiv
    · have hsf := step_sameFlight e p Await.getSession hall (by rw [hiv]; simp)
        (by rw [hl]; decide) (by rw [hl]; decide)
        (Or.inr ⟨rfl, fun t r h => hg ⟨t, r, h⟩⟩)
      exact lifecycle_of_sameFlight p _ hsf ⟨i1, i2, i3⟩
  · by_cases he : p.sessionStatus = SessionStatus.error
    · obtain ⟨q1, q2⟩ := i3 he
      have hsf := step_sameFlight e p Await.finished q1 q2 (by rw [he]; decide) (by rw [he]; decide)
        (Or.inl rfl)
      exact lifecycle_of_sameFlight p _ hsf ⟨i1, i2, i3⟩
    · have hd := i2 hl
      have hs := step_status e p hd
      have hne : (step e p).sessionStatus ≠ SessionStatus.loading ∧
          (step e p).sessionStatus ≠ SessionStatus.error := by
        rcases hs with h | ⟨-, h⟩ | h
        · rw [h]; exact ⟨hl, he⟩
        · rw [h]; exact ⟨by decide, by decide⟩
        · rw [h]; exact ⟨by decide, by decide⟩
      exact ⟨fun h => absurd h hne.1, fun _ => step_initDone e p hd, fun h => absurd h hne.2⟩

/-- The page right after mounting satisfies the lifecycle invariant. -/
theorem lifecycle_mounted (sessionId : String) (sock : Nat) : (mounted sessionId sock).lifecycle := by
  unfold Page.lifecycle Page.initDone Page.quiet tasksOk mounted
  by_cases h : sessionId = ""
  · simp [h]
  · simp [h, initializeSession, Page.suspend, Page.emit, Page.channelCall, SocketService.connect]

/-- A run of events keeps the lifecycle invariant. -/
theorem lifecycle_run (es : List Event) : ∀ p : Page, p.lifecycle → (run es p).lifecycle := by
  induction es with
  | nil => intro p hp; exact hp
  | cons e rest ih => intro p hp; exact ih (step e p) (lifecycle_step e p hp)

/-- Every reachable state satisfies the lifecycle invariant. -/
theorem lifecycle_reachable (p : Page) (hr : Reachable p) : p.lifecycle := by
  obtain ⟨sid, sock, es, rfl⟩ := hr
  exact lifecycle_run es _ (lifecycle_mounted sid sock)

/-! ## Lemmas for the later claims -/

theorem mem_runningIn (l : List Interval) (i : Nat) :
    i ∈ runningIn l ↔ ∃ iv : Interval, l[i]? = some iv ∧ iv.isRunningQuestionTimer = true := by
  unfold runningIn
  rw [List.mem_filter, List.mem_range]
  constructor
  · rintro ⟨-, h⟩
    cases hi : l[i]? with
    | none => simp [hi] at h
    | some iv => exact ⟨iv, rfl, by simpa [hi] using h⟩
  · rintro ⟨iv, hi, h⟩
    refine ⟨?_, by simp [hi, h]⟩
    by_contra hc
    rw [List.getElem?_eq_none (Nat.le_of_not_lt hc)] at hi
    cases hi

theorem runningIn_append_new (l : List Interval) (env : Closure) (ms : Nat)
    (hl : ∀ (i : Nat) (iv : Interval), l[i]? = some iv → iv.isRunningQuestionTimer = false) :
    runningIn (l ++ [{ kind := IntervalKind.questionTimer env, ms := ms, live := true }]) =
      [l.length] := by
  unfold runningIn
  rw [List.length_append, List.length_singleton, List.range_succ, List.filter_append]
  have hsplit : ∀ (A B : List Nat), A = [] → B = [l.length] → A ++ B = [l.length] := by
    intro A B hA hB; rw [hA, hB]; rfl
  apply hsplit
  · rw [List.filter_eq_nil_iff]
    intro i hi
    rw [List.mem_range] at hi
    rw [List.getElem?_append_left hi]
    cases hiv : l[i]? with
    | none => simp
    | some iv => simp [hl i iv hiv]
  · simp [Interval.isRunningQuestionTimer]

theorem run_append (es fs : List Event) : ∀ p : Page, run (es ++ fs) p = run fs (run es p) := by
  induction es with
  | nil => intro p; rfl
  | cons e rest ih => intro p; exact ih (step e p)

theorem reachable_step (e : Event) (p : Page) (hr : Reachable p) : Reachable (step e p) := by
  obtain ⟨sid, sock, es, rfl⟩ := hr
  exact ⟨sid, sock, es ++ [e], by rw [run_append]; rfl⟩

/-- In a reachable state with the status `error` an event leaves the status
as it is. -/
theorem error_step (e : Event) (p : Page) (hr : Reachable p)
    (he : p.sessionStatus = SessionStatus.error) : (step e p).sessionStatus = SessionStatus.error := by
  obtain ⟨-, -, i3⟩ := lifecycle_reachable p hr
  obtain ⟨q1, q2⟩ := i3 he
  have hsf := step_sameFlight e p Await.finished q1 q2 (by rw [he]; decide) (by rw [he]; decide)
    (Or.inl rfl)
  rw [hsf.1, he]

/-- From a reachable state with the status `error` no run of events leads
to another status. -/
theorem error_run (es : List Event) :
    ∀ p : Page, Reachable p → p.sessionStatus = SessionStatus.error →
      (run es p).sessionStatus = SessionStatus.error := by
  induction es with
  | nil => intro p _ he; exact he
  | cons e rest ih =>
    intro p hr he
    exact ih (step e p) (reachable_step e p hr) (error_step e p hr he)

theorem startRecording_threw (pf : Platform) (a : Adapter) :
    (startRecording pf a).2.threw = false ↔
      ((a.streamRef.isSome = true ∨ pf.getUserMedia.isSome = true) ∧
        pf.recorderAccepts (selectMimeType pf.isTypeSupported) = true) := by
  unfold startRecording
  cases hs : a.streamRef with
  | none =>
    cases hg : pf.getUserMedia with
    | none => simp [hg, startVideo, startRecordingFailed]
    | some stream =>
      by_cases hacc : pf.recorderAccepts (selectMimeType pf.isTypeSupported) = true <;>
        simp [hg, startVideo, startRecordingFailed, hacc]
  | some stream =>
    by_cases hacc : pf.recorderAccepts (selectMimeType pf.isTypeSupported) = true <;>
      simp [hs, startRecordingFailed, hacc]

theorem deliver_fields (ds : List (Option Blob)) :
    ∀ a : Adapter,
      (deliver ds a).recordedChunksRef = a.recordedChunksRef ++ keptSegments ds ∧
      (deliver ds a).mediaRecorderRef = a.mediaRecorderRef ∧
      (deliver ds a).isRecording = a.isRecording := by
  induction ds with
  | nil => intro a; simp [deliver, keptSegments]
  | cons d rest ih =>
    intro a
    obtain ⟨h1, h2, h3⟩ := ih (dataAvailable d a)
    unfold deliver
    rw [h1, h2, h3]
    cases d with
    | none => simp [dataAvailable, keptSegments]
    | some b =>
      by_cases hb : b.bytes.length > 0
      · simp [dataAvailable, keptSegments, hb]
      · simp [dataAvailable, keptSegments, hb]

theorem dropWhile_reverse_nil {α : Type} (f : α → Bool) (l : List α)
    (h : (l.dropWhile f).reverse.dropWhile f = []) : l.dropWhile f = [] := by
  cases hd : l.dropWhile f with
  | nil => rfl
  | cons x xs =>
    exfalso
    have hx : f x = false := by
      have := List.head_dropWhile_not f l (by rw [hd]; simp)
      simpa [hd] using this
    rw [hd, List.dropWhile_eq_nil_iff] at h
    have := h x (by simp)
    rw [hx] at this
    cases this

theorem jsTrim_eq_empty (s : String) : jsTrim s = "" ↔ isBlank s = true := by
  unfold jsTrim isBlank
  constructor
  · intro h
    have h1 : ((s.data.dropWhile isJsWhitespace).reverse.dropWhile isJsWhitespace).reverse = [] := by
      have := congrArg String.data h
      simpa using this
    have h2 : (s.data.dropWhile isJsWhitespace).reverse.dropWhile isJsWhitespace = [] := by
      simpa using h1
    have h3 := dropWhile_reverse_nil _ _ h2
    rw [List.dropWhile_eq_nil_iff] at h3
    rw [List.all_eq_true]
    exact h3
  · intro h
    rw [List.all_eq_true] at h
    have h3 : s.data.dropWhile isJsWhitespace = [] := by
      rw [List.dropWhile_eq_nil_iff]; exact h
    rw [h3]
    rfl

/-! ## Lemmas on the channel client, the transcript and the formatter -/

theorem emitCall_none (svc : SocketService) (c : EmitCall) (h : svc.socket = none) :
    svc.emitCall c = (svc, []) := by
  cases c <;>
    simp [SocketService.emitCall, SocketService.joinInterview, SocketService.leaveInterview,
      SocketService.sendAudioData, SocketService.startVideoStream, SocketService.stopVideoStream,
      SocketService.sendTranscriptSegment, SocketService.requestAIResponse,
      SocketService.sendRecordingMetadata, SocketService.updateSessionStatus, h]

theorem emitCall_some (svc : SocketService) (c : EmitCall) (sock : Nat) (h : svc.socket = some sock) :
    ∃ payload, svc.emitCall c = (svc, [ChannelEffect.emit sock c.event payload]) := by
  cases c <;>
    simp [SocketService.emitCall, SocketService.joinInterview, SocketService.leaveInterview,
      SocketService.sendAudioData, SocketService.startVideoStream, SocketService.stopVideoStream,
      SocketService.sendTranscriptSegment, SocketService.requestAIResponse,
      SocketService.sendRecordingMetadata, SocketService.updateSessionStatus, h, EmitCall.event]

theorem call_socket_flag (svc : SocketService) (c : ClientCall)
    (h : svc.socket = none → svc.isConnected = false) :
    (svc.call c).1.socket = none → (svc.call c).1.isConnected = false := by
  rcases svc with ⟨sock, conn⟩
  cases sock with
  | none =>
    have hc : conn = false := h rfl
    subst hc
    cases c with
    | emit e => rw [SocketService.call, emitCall_none _ _ rfl]; simp
    | _ => simp [SocketService.call, SocketService.connect, SocketService.disconnect,
        SocketService.listenCall, SocketService.listen, SocketService.off]
  | some s =>
    cases c with
    | emit e =>
      obtain ⟨payload, hp⟩ := emitCall_some ⟨some s, conn⟩ e s rfl
      rw [SocketService.call, hp]; simp
    | _ => simp [SocketService.call, SocketService.connect, SocketService.disconnect,
        SocketService.listenCall, SocketService.listen, SocketService.off,
        SocketService.onConnectEvent, SocketService.onDisconnectEvent]

theorem runClient_socket_flag (cs : List ClientCall) (svc : SocketService)
    (h : svc.socket = none → svc.isConnected = false) :
    (runClient cs svc).1.socket = none → (runClient cs svc).1.isConnected = false := by
  induction cs generalizing svc with
  | nil => simpa [runClient] using h
  | cons c cs ih =>
    simp only [runClient]
    exact ih _ (call_socket_flag svc c h)

theorem call_balance (svc : SocketService) (c : ClientCall) :
    countOpened (svc.call c).2 + heldCount svc = countClosed (svc.call c).2 + heldCount (svc.call c).1 := by
  rcases svc with ⟨sock, conn⟩
  cases sock with
  | none =>
    cases c with
    | emit e => rw [SocketService.call, emitCall_none _ _ rfl]; simp [countOpened, countClosed]
    | _ => simp [SocketService.call, SocketService.connect, SocketService.disconnect,
        SocketService.listenCall, SocketService.listen, SocketService.off, countOpened, countClosed,
        heldCount]
  | some s =>
    cases c with
    | emit e =>
      obtain ⟨payload, hp⟩ := emitCall_some ⟨some s, conn⟩ e s rfl
      rw [SocketService.call, hp]; simp [countOpened, countClosed]
    | _ => simp [SocketService.call, SocketService.connect, SocketService.disconnect,
        SocketService.listenCall, SocketService.listen, SocketService.off,
        SocketService.onConnectEvent, SocketService.onDisconnectEvent, countOpened, countClosed,
        heldCount]

theorem countOpened_append (a b : List ChannelEffect) :
    countOpened (a ++ b) = countOpened a + countOpened b := by
  simp [countOpened]

theorem countClosed_append (a b : List ChannelEffect) :
    countClosed (a ++ b) = countClosed a + countClosed b := by
  simp [countClosed]

theorem runClient_balance (cs : List ClientCall) (svc : SocketService) :
    countOpened (runClient cs svc).2 + heldCount svc =
      countClosed (runClient cs svc).2 + heldCount (runClient cs svc).1 := by
  induction cs generalizing svc with
  | nil => simp [runClient, countOpened, countClosed]
  | cons c cs ih =>
    simp only [runClient, countOpened_append, countClosed_append]
    have h1 := call_balance svc c
    have h2 := ih (svc.call c).1
    omega

theorem receiveFragments_eq (ts : List String) (p : Page) :
    receiveFragments ts p = { p with transcript := p.transcript ++ fragmentsText ts } := by
  induction ts generalizing p with
  | nil => simp [receiveFragments, fragmentsText]
  | cons t ts ih =>
    simp only [receiveFragments, fragmentsText]
    rw [ih]
    simp [onTranscriptUpdate, String.append_assoc]

theorem fragmentsText_append (ts us : List String) :
    fragmentsText (ts ++ us) = fragmentsText ts ++ fragmentsText us := by
  induction ts with
  | nil => simp [fragmentsText]
  | cons t ts ih => simp [fragmentsText, ih, String.append_assoc]

theorem digitChar_spec (k : Nat) (h : k < 10) :
    (Nat.digitChar k).isDigit = true ∧ digitValue (Nat.digitChar k) = k := by
  interval_cases k <;> decide

theorem decimalValue_append_single (l : List Char) (c : Char) :
    decimalValue (l ++ [c]) = 10 * decimalValue l + digitValue c := by
  simp [decimalValue, List.foldl_append]

theorem toDigitsCore_spec (fuel : Nat) : ∀ (n : Nat) (ds : List Char), n < fuel →
    ∃ l, Nat.toDigitsCore 10 fuel n ds = l ++ ds ∧ (∀ c ∈ l, c.isDigit = true) ∧
      decimalValue l = n := by
  induction fuel with
  | zero => intro n ds h; omega
  | succ fuel ih =>
    intro n ds h
    simp only [Nat.toDigitsCore]
    have hd := digitChar_spec (n % 10) (Nat.mod_lt _ (by decide))
    by_cases h0 : n / 10 = 0
    · refine ⟨[Nat.digitChar (n % 10)], by simp [h0], ?_, ?_⟩
      · intro c hc
        simp at hc
        rw [hc]; exact hd.1
      · have : decimalValue [Nat.digitChar (n % 10)] = digitValue (Nat.digitChar (n % 10)) := by
          simp [decimalValue]
        rw [this, hd.2]
        omega
    · have hlt : n / 10 < fuel := by omega
      obtain ⟨l, hl, hdig, hval⟩ := ih (n / 10) (Nat.digitChar (n % 10) :: ds) hlt
      refine ⟨l ++ [Nat.digitChar (n % 10)], by simp [h0, hl], ?_, ?_⟩
      · intro c hc
        rcases List.mem_append.mp hc with hc | hc
        · exact hdig c hc
        · simp at hc
          rw [hc]; exact hd.1
      · rw [decimalValue_append_single, hval, hd.2]
        omega

theorem toString_spec (n : Nat) :
    (∀ c ∈ (toString n).data, c.isDigit = true) ∧ decimalValue (toString n).data = n := by
  obtain ⟨l, hl, hdig, hval⟩ := toDigitsCore_spec (n + 1) n [] (Nat.lt_succ_self n)
  have h : (toString n).data = l := by
    show (Nat.repr n).data = l
    simp [Nat.repr, Nat.toDigits, hl, List.asString]
  rw [h]
  exact ⟨hdig, hval⟩

theorem two_digits_spec (r : Nat) (h : r < 60) :
    (∀ c ∈ [digitChar (r / 10), digitChar (r % 10)], c.isDigit = true) ∧
    decimalValue [digitChar (r / 10), digitChar (r % 10)] = r := by
  interval_cases r <;> decide

theorem formatDuration_parts (s : Nat) :
    ∃ before after : List Char,
      (formatDuration s).data = before ++ ':' :: after ∧
      (∀ c ∈ before, c.isDigit = true) ∧ (∀ c ∈ after, c.isDigit = true) ∧
      after.length = 2 ∧ decimalValue before = s / 60 ∧ decimalValue after = s % 60 := by
  have hr : s % 60 < 60 := Nat.mod_lt _ (by decide)
  refine ⟨(toString (s / 60)).data, [digitChar (s % 60 / 10), digitChar (s % 60 % 10)], ?_,
    (toString_spec (s / 60)).1, (two_digits_spec (s % 60) hr).1, rfl,
    (toString_spec (s / 60)).2, (two_digits_spec (s % 60) hr).2⟩
  unfold formatDuration
  simp only
  rw [padStart_two_digits (s % 60) hr]
  simp [String.data_append]

theorem formatDuration_injective : Function.Injective formatDuration := by
  intro s t hst
  obtain ⟨b1, a1, h1, -, -, hl1, hb1, ha1⟩ := formatDuration_parts s
  obtain ⟨b2, a2, h2, -, -, hl2, hb2, ha2⟩ := formatDuration_parts t
  rw [hst, h2] at h1
  have hlen : b2.length = b1.length := by
    have := congrArg List.length h1
    simp [hl1, hl2] at this
    omega
  have hinj := List.append_inj h1 hlen
  have hb : b2 = b1 := hinj.1
  have ha : a2 = a1 := by
    have := hinj.2
    simpa using this
  have e1 : s / 60 = t / 60 := by rw [← hb1, ← hb2, hb]
  have e2 : s % 60 = t % 60 := by rw [← ha1, ← ha2, ha]
  omega

theorem isDigit_ne_colon (c : Char) (h : c.isDigit = true) : c ≠ ':' := by
  intro hc
  rw [hc] at h
  exact absurd h (by decide)

theorem count_colon_digits (l : List Char) (h : ∀ c ∈ l, c.isDigit = true) : l.count ':' = 0 := by
  rw [List.count_eq_zero]
  intro hm
  exact isDigit_ne_colon _ (h _ hm) rfl

theorem jsTrim_parts (c : String) :
    ∃ pre post : List Char, c.data = pre ++ (jsTrim c).data ++ post ∧
      (∀ x ∈ pre, isJsWhitespace x = true) ∧ (∀ x ∈ post, isJsWhitespace x = true) := by
  refine ⟨c.data.takeWhile isJsWhitespace,
    ((c.data.dropWhile isJsWhitespace).reverse.takeWhile isJsWhitespace).reverse, ?_, ?_, ?_⟩
  · have h2 : ((c.data.dropWhile isJsWhitespace).reverse.dropWhile isJsWhitespace).reverse ++
        ((c.data.dropWhile isJsWhitespace).reverse.takeWhile isJsWhitespace).reverse =
        c.data.dropWhile isJsWhitespace := by
      rw [← List.reverse_append, List.takeWhile_append_dropWhile, List.reverse_reverse]
    simp only [jsTrim]
    rw [List.append_assoc, h2, List.takeWhile_append_dropWhile]
  · intro x hx
    exact List.mem_takeWhile_imp hx
  · intro x hx
    exact List.mem_takeWhile_imp (List.mem_reverse.mp hx)

theorem thousandthsText_whole (r : Nat) : thousandthsText (1000 * r) = toString r := by
  simp [thousandthsText]

theorem durationShown_whole (s : Nat) :
    SessionDetails.durationShown (1000 * s) = some (SessionDetails.formatDuration s) := by
  have h1 : 1000 * s % 125 = 0 := by omega
  have h2 : 1000 * s / 60000 = s / 60 := by omega
  have h3 : 1000 * s % 60000 = 1000 * (s % 60) := by omega
  simp only [SessionDetails.durationShown, h1, h2, h3, thousandthsText_whole, if_true,
    SessionDetails.formatDuration]

theorem formatDuration_ne_fraction (s : Nat) : SessionDetails.formatDuration s ≠ "1:5.5" := by
  intro h
  obtain ⟨b, a, hd, -, -, hl, -, -⟩ := formatDuration_parts s
  have h' : formatDuration s = "1:5.5" := h
  rw [h'] at hd
  have hlen : b.length = 2 := by
    have := congrArg List.length hd
    simp [hl] at this
    omega
  match b, hlen with
  | [x, y], _ =>
    simp at hd

/-! ## Lemmas on the page with the hook as it is -/

theorem startFree_modify (l : List Task) (t : Nat) (w : Await)
    (hw : w ≠ Await.startMedia ∧ w ≠ Await.startSession) (h : startFree l) :
    startFree (l.modify (fun k => { env := k.env, awaiting := w }) t) :=
  forall_mem_modify (fun (k : Task) => k.awaiting ≠ Await.startMedia ∧ k.awaiting ≠ Await.startSession)
    _ l t h (fun _ _ => hw)

theorem startFree_append (l : List Task) (k : Task) :
    startFree (l ++ [k]) ↔
      startFree l ∧ k.awaiting ≠ Await.startMedia ∧ k.awaiting ≠ Await.startSession := by
  unfold startFree
  constructor
  · intro h
    exact ⟨fun a ha => h a (by simp [ha]), h k (by simp)⟩
  · rintro ⟨h1, h2⟩ a ha
    simp at ha
    rcases ha with ha | rfl
    · exact h1 a ha
    · exact h2

theorem modify_append_last {α : Type} (f : α → α) (l : List α) (a : α) :
    (l ++ [a]).modify f l.length = l ++ [f a] := by
  induction l with
  | nil => rfl
  | cons x xs ih => simp [List.modify_succ_cons, ih]

theorem handleNextQuestion_startFree (env : Closure) (p : Page) (hp : startFree p.tasks) :
    startFree (handleNextQuestion env p).tasks := by
  unfold handleNextQuestion
  cases env.currentQuestion with
  | none => simp [Page.suspend, Page.emit, startFree_append, hp]
  | some q =>
    by_cases h : env.transcript = "" <;> simp [h, Page.suspend, Page.emit, startFree_append, hp]

theorem tick_startFree (h : Nat) (p : Page) (hp : startFree p.tasks) : startFree (tick h p).tasks := by
  unfold tick
  cases p.intervals[h]? with
  | none => exact hp
  | some iv =>
    rcases iv with ⟨kind, ms, live⟩
    cases live with
    | false => simpa using hp
    | true =>
      cases kind with
      | transcriptionCapture => simpa using hp
      | questionTimer env =>
        simp only [if_true]
        unfold questionTimerCallback
        split
        · exact handleNextQuestion_startFree env p hp
        · exact hp

theorem saveSettled_startFree (t : Nat) (ok : Bool) (p : Page) (hp : startFree p.tasks) :
    startFree (saveSettled t ok p).tasks := by
  unfold saveSettled
  cases p.tasks[t]? with
  | none => exact hp
  | some k =>
    by_cases hk : k.awaiting = Await.saveResponse
    · cases ok <;>
        simp [hk, nextQuestionFailed, Page.moveTask, Page.emit, startFree_modify, hp]
    · simpa [hk] using hp

theorem nextSettled_startFree (t : Nat) (r : Option NextQuestionResponse) (p : Page)
    (hp : startFree p.tasks) : startFree (nextSettled t r p).tasks := by
  unfold nextSettled
  cases p.tasks[t]? with
  | none => exact hp
  | some k =>
    by_cases hk : k.awaiting = Await.nextQuestion
    · cases r with
      | none => simp [hk, nextQuestionFailed, Page.moveTask, startFree_modify, hp]
      | some resp =>
        rcases resp with ⟨suc, comp, cq⟩
        cases suc <;> cases comp <;> cases cq <;> cases htr : p.timerRef <;>
          simp [hk, htr, nextQuestionFailed, Page.moveTask, handleInterviewComplete, Page.suspend,
            Page.emit, startQuestionTimer, Page.clearInterval, startFree_modify, startFree_append, hp]
    · simpa [hk] using hp

theorem stopRecordingSettled_startFree (t : Nat) (ok thr : Bool) (p : Page) (hp : startFree p.tasks) :
    startFree (stopRecordingSettled t ok thr p).tasks := by
  unfold stopRecordingSettled
  cases p.tasks[t]? with
  | none => exact hp
  | some k =>
    by_cases hk : k.awaiting = Await.stopRecording
    · cases ok <;> cases thr <;> cases htr : p.timerRef <;> cases htt : p.transcriptIntervalRef <;>
        simp [hk, htr, htt, Page.moveTask, Page.emit, Page.channelCall, Page.clearInterval,
          startFree_modify, hp]
    · simpa [hk] using hp

theorem stopRecordingSettled_throwing (t : Nat) (ok : Bool) (p : Page) :
    (stopRecordingSettled t ok true p).sessionStatus = p.sessionStatus ∧
    (stopRecordingSettled t ok true p).intervals = p.intervals ∧
    (stopRecordingSettled t ok true p).socketService = p.socketService ∧
    (stopRecordingSettled t ok true p).timerRef = p.timerRef ∧
    (stopRecordingSettled t ok true p).transcriptIntervalRef = p.transcriptIntervalRef := by
  unfold stopRecordingSettled
  cases p.tasks[t]? with
  | none => simp
  | some k =>
    by_cases hk : k.awaiting = Await.stopRecording
    · cases ok <;> simp [hk, Page.moveTask, Page.emit]
    · simp [hk]

theorem startInterview_throwing_startFree (p : Page) (hp : startFree p.tasks) :
    startFree (startInterview true p).tasks := by
  have h : (startInterview true p).tasks =
      p.tasks ++ [{ env := p.closure, awaiting := Await.finished }] := by
    simp only [startInterview, startInterviewFailed, Page.moveTask, Page.suspend, Page.emit, if_true]
    exact modify_append_last _ p.tasks _
  rw [h, startFree_append]
  exact ⟨hp, by simp, by simp⟩

theorem getSessionSettled_neverStarted (t : Nat) (r : Option GetSessionResponse) (p : Page)
    (hp : p.neverStarted) : (getSessionSettled t r p).neverStarted := by
  obtain ⟨h1, h2, h3⟩ := hp
  unfold getSessionSettled
  cases p.tasks[t]? with
  | none => exact ⟨h1, h2, h3⟩
  | some k =>
    by_cases hk : k.awaiting = Await.getSession
    · cases r with
      | none =>
        simp only [hk, if_true]
        exact ⟨by simp, by simp, startFree_modify _ _ _ ⟨by decide, by decide⟩ h3⟩
      | some d =>
        simp only [hk, if_true]
        exact ⟨by simp, by simp, startFree_modify _ _ _ ⟨by decide, by decide⟩ h3⟩
    · simpa [hk] using (⟨h1, h2, h3⟩ : p.neverStarted)

theorem step_neverStarted (e : Event) (p : Page) (he : e.asWired = true) (hp : p.neverStarted) :
    (step e p).neverStarted := by
  obtain ⟨h1, h2, h3⟩ := hp
  have hidx : ∀ (t : Nat) (k : Task), p.tasks[t]? = some k →
      k.awaiting ≠ Await.startMedia ∧ k.awaiting ≠ Await.startSession :=
    fun t k hk => h3 k (List.getElem?_mem hk)
  cases e with
  | getSessionSettled t r => exact getSessionSettled_neverStarted t r p ⟨h1, h2, h3⟩
  | clickStart thr =>
    have hthr : thr = true := by
      have hw : callOfMissingThrows "startMedia" = true := by decide
      simpa [Event.asWired, hw] using he
    subst hthr
    show (if p.sessionStatus = SessionStatus.ready then startInterview true p else p).neverStarted
    split
    · refine ⟨?_, ?_, startInterview_throwing_startFree p h3⟩
      · rw [startInterview_status]; exact h1
      · rw [startInterview_status]; exact h2
    · exact ⟨h1, h2, h3⟩
  | startMediaSettled t ok =>
    show (startMediaSettled t ok p).neverStarted
    rw [startMediaSettled_idle t ok p (fun k hk => (hidx t k hk).1)]
    exact ⟨h1, h2, h3⟩
  | startSessionSettled t r v a =>
    show (startSessionSettled t r v a p).neverStarted
    rw [startSessionSettled_idle t r v a p (fun k hk => (hidx t k hk).2)]
    exact ⟨h1, h2, h3⟩
  | clickNext =>
    show (if p.sessionStatus = SessionStatus.active ∧ p.currentQuestion.isSome then
      clickNext p else p).neverStarted
    split
    · rename_i hc
      exact absurd hc.1 h1
    · exact ⟨h1, h2, h3⟩
  | tick h =>
    refine ⟨?_, ?_, tick_startFree h p h3⟩
    · show (tick h p).sessionStatus ≠ _
      rw [tick_status]; exact h1
    · show (tick h p).sessionStatus ≠ _
      rw [tick_status]; exact h2
  | saveSettled t ok =>
    refine ⟨?_, ?_, saveSettled_startFree t ok p h3⟩
    · show (saveSettled t ok p).sessionStatus ≠ _
      rw [saveSettled_status]; exact h1
    · show (saveSettled t ok p).sessionStatus ≠ _
      rw [saveSettled_status]; exact h2
  | nextSettled t r =>
    refine ⟨?_, ?_, nextSettled_startFree t r p h3⟩
    · show (nextSettled t r p).sessionStatus ≠ _
      rw [nextSettled_status]; exact h1
    · show (nextSettled t r p).sessionStatus ≠ _
      rw [nextSettled_status]; exact h2
  | stopRecordingSettled t ok thr =>
    have hthr : thr = true := by
      have hw : callOfMissingThrows "stopMedia" = true := by decide
      simpa [Event.asWired, hw] using he
    subst hthr
    refine ⟨?_, ?_, stopRecordingSettled_startFree t ok true p h3⟩
    · show (stopRecordingSettled t ok true p).sessionStatus ≠ _
      rw [(stopRecordingSettled_throwing t ok p).1]; exact h1
    · show (stopRecordingSettled t ok true p).sessionStatus ≠ _
      rw [(stopRecordingSettled_throwing t ok p).1]; exact h2
  | joinedInterview => exact ⟨h1, h2, h3⟩
  | transcriptUpdate text => exact ⟨h1, h2, h3⟩
  | aiResponse now type message timestamp => exact ⟨h1, h2, h3⟩
  | socketError message => exact ⟨h1, h2, h3⟩

theorem mounted_neverStarted (sessionId : String) (sock : Nat) :
    (mounted sessionId sock).neverStarted := by
  unfold mounted
  by_cases h : sessionId = ""
  · simp [h, Page.neverStarted, startFree]
  · simp [h, initializeSession, Page.suspend, Page.emit, Page.channelCall, Page.neverStarted,
      startFree]

theorem run_neverStarted (es : List Event) :
    ∀ p : Page, (∀ e ∈ es, e.asWired = true) → p.neverStarted → (run es p).neverStarted := by
  induction es with
  | nil => intro p _ hp; exact hp
  | cons e rest ih =>
    intro p hes hp
    exact ih (step e p) (fun x hx => hes x (by simp [hx]))
      (step_neverStarted e p (hes e (by simp)) hp)

theorem reachable_of_asWired (p : Page) (hr : ReachableAsWired p) : Reachable p := by
  obtain ⟨sid, sock, es, -, h⟩ := hr
  exact ⟨sid, sock, es, h⟩

theorem neverStarted_of_asWired (p : Page) (hr : ReachableAsWired p) : p.neverStarted := by
  obtain ⟨sid, sock, es, hes, rfl⟩ := hr
  exact run_neverStarted es _ hes (mounted_neverStarted sid sock)


theorem runningIn_append_timer (l : List Interval) (env : Closure) (ms : Nat) :
    runningIn (l ++ [{ kind := IntervalKind.questionTimer env, ms := ms, live := true }]) =
      runningIn l ++ [l.length] := by
  unfold runningIn
  rw [List.length_append, List.length_singleton, List.range_succ, List.filter_append]
  congr 1
  · apply List.filter_congr
    intro i hi
    rw [List.mem_range] at hi
    rw [List.getElem?_append_left hi]
  · simp [Interval.isRunningQuestionTimer]

theorem runningIn_clear (l : List Interval) (h : Nat) :
    runningIn (l.modify (fun iv => { iv with live := false }) h) =
      (runningIn l).filter (fun i => decide (i ≠ h)) := by
  unfold runningIn
  rw [List.length_modify, List.filter_filter]
  apply List.filter_congr
  intro i _
  rw [List.getElem?_modify]
  by_cases hih : h = i
  · subst hih
    cases l[h]? <;> simp [Interval.isRunningQuestionTimer]
  · have hne : i ≠ h := fun hc => hih hc.symm
    simp [hih, hne]

theorem nextSettled_advance (p : Page) (t : Nat) (env : Closure) (q : Question)
    (ht : p.tasks[t]? = some { env := env, awaiting := Await.nextQuestion }) :
    nextSettled t (further q) p =
      (startQuestionTimer env q.time_limit
        (match p.timerRef with
          | some h =>
            Page.clearInterval
              { p with currentQuestion := some q, questionIndex := p.questionIndex + 1,
                       transcript := "", aiMessages := [] } h
          | none =>
            { p with currentQuestion := some q, questionIndex := p.questionIndex + 1,
                     transcript := "", aiMessages := [] })).moveTask t Await.finished := by
  cases htr : p.timerRef <;> simp [nextSettled, ht, further, htr]

theorem advance_running (p : Page) (t : Nat) (env : Closure) (q : Question)
    (ht : p.tasks[t]? = some { env := env, awaiting := Await.nextQuestion }) :
    (nextSettled t (further q) p).runningQuestionTimers =
      (p.runningQuestionTimers.filter fun i => decide (p.timerRef ≠ some i)) ++
        [p.intervals.length] := by
  rw [nextSettled_advance p t env q ht]
  cases htr : p.timerRef with
  | none =>
    show runningIn (p.intervals ++ [_]) = _
    rw [runningIn_append_timer]
    simp [Page.runningQuestionTimers]
  | some h =>
    show runningIn ((p.intervals.modify (fun iv => { iv with live := false }) h) ++ [_]) = _
    rw [runningIn_append_timer, runningIn_clear, List.length_modify]
    congr 1
    apply List.filter_congr
    intro i _
    by_cases hih : i = h
    · simp [hih]
    · have : h ≠ i := fun hc => hih hc.symm
      simp [hih, this]

/-! ## Claims -/

/-- C1 (counterexample): on an active page in the last second of the first
question, the Next button and the expiring timer tick are both issued before
either invocation has completed; both invocations run to their end:
`nextQuestion` is requested twice and the question index grows by 2, the
page ending on the third question. -/
theorem race_double_advance :
    raceIssued.tasks.map (fun k => k.awaiting) = [Await.saveResponse, Await.nextQuestion] ∧
    countNextQuestion raceRun.log = 2 ∧
    raceRun.questionIndex = racePage.questionIndex + 2 ∧
    raceRun.currentQuestion = some qC := by
  decide

/-- C1 (amended): if a manual skip and the timer expiry are both issued for
the same question before either has completed, each of the two invocations of
`handleNextQuestion` performs its own advance, there being no single-shot
guard: two invocations are in flight, each submits `saveResponse` exactly
when its own render values hold a current question and a non-empty
transcript, and once the saves have succeeded and both `nextQuestion`
requests are answered with a further question, `nextQuestion` has been
requested twice and the question index has grown by 2. -/
theorem race_each_invocation_advances (p : Page) (h : Nat) (envTimer : Closure) (ms : Nat)
    (qa qb : Question)
    (hiv : p.intervals[h]? = some { kind := IntervalKind.questionTimer envTimer, ms := ms, live := true })
    (hexp : p.timeRemaining ≤ 1) :
    let issued := tick h (clickNext p)
    let s := nextSettled (p.tasks.length + 1) (further qb) (nextSettled p.tasks.length (further qa)
      (saveSettled (p.tasks.length + 1) true (saveSettled p.tasks.length true issued)))
    issued.tasks.length = p.tasks.length + 2 ∧
    countNextQuestion s.log = countNextQuestion p.log + 2 ∧
    countSaveResponse s.log = countSaveResponse p.log + savesFirst p.closure + savesFirst envTimer ∧
    s.questionIndex = p.questionIndex + 2 := by
  intro issued s
  obtain ⟨k1, k2, k3, k4, k5, k6⟩ := handleNextQuestion_fields p.closure p
  have hiv1 : (clickNext p).intervals[h]? =
      some { kind := IntervalKind.questionTimer envTimer, ms := ms, live := true } := by
    unfold clickNext; rw [k5]; exact hiv
  have hexp1 : (clickNext p).timeRemaining ≤ 1 := by
    unfold clickNext; rw [k6]; exact hexp
  obtain ⟨m1, m2, m3, m4, m5, m6⟩ := handleNextQuestion_fields envTimer (clickNext p)
  have ht : issued.tasks = p.tasks ++ [{ env := p.closure, awaiting := firstAwait p.closure },
      { env := envTimer, awaiting := firstAwait envTimer }] := by
    simp only [issued]; rw [tick_expiry h _ envTimer ms hiv1 hexp1]
    show (handleNextQuestion envTimer (clickNext p)).tasks = _
    rw [m1]; unfold clickNext; rw [k1]; simp
  have hl : issued.log = (handleNextQuestion envTimer (clickNext p)).log := by
    simp only [issued]; rw [tick_expiry h _ envTimer ms hiv1 hexp1]
  have hq : issued.questionIndex = p.questionIndex := by
    simp only [issued]; rw [tick_expiry h _ envTimer ms hiv1 hexp1]
    show (handleNextQuestion envTimer (clickNext p)).questionIndex = _
    rw [m4]; unfold clickNext; rw [k4]
  have g1 : issued.tasks[p.tasks.length]? =
      some { env := p.closure, awaiting := firstAwait p.closure } := by
    rw [ht]; exact getElem?_append_pair_fst _ _ _
  have g2 : issued.tasks[p.tasks.length + 1]? =
      some { env := envTimer, awaiting := firstAwait envTimer } := by
    rw [ht]; exact getElem?_append_pair_snd _ _ _
  obtain ⟨r1, r2, r3⟩ := settle_both issued p.tasks.length p.closure envTimer _ _ qa qb
    (firstAwait_cases _) (firstAwait_cases _) g1 g2
  have c1 := firstAwait_count p.closure
  have c2 := firstAwait_count envTimer
  have n1 : countNextQuestion (clickNext p).log =
      countNextQuestion p.log + (1 - savesFirst p.closure) := k2
  have n2 : countSaveResponse (clickNext p).log =
      countSaveResponse p.log + savesFirst p.closure := k3
  refine ⟨?_, ?_, ?_, ?_⟩
  · rw [ht]; simp
  · simp only [s]; rw [r1, hl, m2, n1]; omega
  · simp only [s]; rw [r2, hl, m3, n2]
  · simp only [s]; rw [r3, hq]

/-- C1 (witness): the amended statement at the racing page, whose question
timer is interval 0 and whose remaining time is 1. -/
theorem race_each_invocation_advances_witness :
    racePage.intervals[0]? =
      some { kind := IntervalKind.questionTimer timerEnv, ms := 1000, live := true } ∧
    racePage.timeRemaining ≤ 1 ∧
    (tick 0 (clickNext racePage)).tasks.length = racePage.tasks.length + 2 :=
  ⟨by decide, by decide,
    (race_each_invocation_advances racePage 0 timerEnv 1000 qB qC (by decide) (by decide)).1⟩

/-- C2 (counterexample): a question timer started with the limit 1 and left
to tick twice, nothing else taking effect, has invoked the advance action
twice, not once; with the limit 3 and five ticks it has invoked it three
times. -/
theorem timer_fires_again_after_expiry :
    (ticks 0 2 (startQuestionTimer timerEnv 1 idlePage)).tasks.length = 2 ∧
    countNextQuestion (ticks 0 2 (startQuestionTimer timerEnv 1 idlePage)).log = 2 ∧
    (ticks 0 5 (startQuestionTimer timerEnv 3 idlePage)).tasks.length = 3 := by
  decide

/-- C2 (amended): for a question timer started by `startQuestionTimer` with a
time limit `n >= 1` and then left to tick with no other action taking effect,
after `k` ticks the ticks have invoked the advance action 0 times when
`k < n` and `k - n + 1` times when `k >= n`: the tick that finds the remaining
time at 1 invokes it, and so does every tick after it, the interval not being
cleared by the expiry. -/
theorem timer_invocations_after_ticks (p : Page) (env : Closure) (n k : Nat) (hn : 1 ≤ n) :
    (ticks p.intervals.length k (startQuestionTimer env (n : Int) p)).tasks.length =
      p.tasks.length + (if k < n then 0 else k - n + 1) := by
  have hiv : (startQuestionTimer env (n : Int) p).intervals[p.intervals.length]? =
      some { kind := IntervalKind.questionTimer env, ms := 1000, live := true } := by
    simp [startQuestionTimer]
  obtain ⟨i1, _⟩ :=
    ticks_fields p.intervals.length env 1000 k (startQuestionTimer env (n : Int) p) n hiv rfl
  rw [i1]
  show p.tasks.length + _ = _
  split <;> omega

/-- C2 (witness): the amended statement for the limit 60 and 59 ticks, where
no invocation has happened yet. -/
theorem timer_invocations_after_ticks_witness :
    1 ≤ 60 ∧
    (ticks idlePage.intervals.length 59 (startQuestionTimer timerEnv ((60 : Nat) : Int) idlePage)).tasks.length =
      idlePage.tasks.length + (if 59 < 60 then 0 else 59 - 60 + 1) :=
  ⟨by decide, timer_invocations_after_ticks idlePage timerEnv 60 59 (by decide)⟩


/-- C3 (counterexample): on the racing page the Next button submits
`saveResponse`; when that request fails the error text is set, the invocation
is finished, the log holds no `nextQuestion` request and the question and its
index are what they were: the page has not advanced. -/
theorem save_failure_blocks_advance :
    (saveSettled 0 false (clickNext racePage)).error = "Failed to proceed to next question" ∧
    countNextQuestion (saveSettled 0 false (clickNext racePage)).log = 0 ∧
    (saveSettled 0 false (clickNext racePage)).tasks.map (fun k => k.awaiting) = [Await.finished] ∧
    (saveSettled 0 false (clickNext racePage)).currentQuestion = some qA ∧
    (saveSettled 0 false (clickNext racePage)).questionIndex = 0 := by
  decide

/-- C3 (amended): when `saveResponse` fails for an invocation of
`handleNextQuestion` that waits for it, the page's error state is set to
"Failed to proceed to next question" and the invocation ends there: no
request is added to the log (`nextQuestion` is not requested), the current
question, question index, transcript, remaining time and intervals are
unchanged, and no later settlement resumes the invocation. -/
theorem save_failure_ends_invocation (p : Page) (t : Nat) (env : Closure)
    (r : Option NextQuestionResponse) (ok : Bool)
    (ht : p.tasks[t]? = some { env := env, awaiting := Await.saveResponse }) :
    (saveSettled t false p).error = "Failed to proceed to next question" ∧
    (saveSettled t false p).log = p.log ∧
    (saveSettled t false p).tasks[t]? = some { env := env, awaiting := Await.finished } ∧
    (saveSettled t false p).currentQuestion = p.currentQuestion ∧
    (saveSettled t false p).questionIndex = p.questionIndex ∧
    (saveSettled t false p).transcript = p.transcript ∧
    (saveSettled t false p).timeRemaining = p.timeRemaining ∧
    (saveSettled t false p).intervals = p.intervals ∧
    nextSettled t r (saveSettled t false p) = saveSettled t false p ∧
    saveSettled t ok (saveSettled t false p) = saveSettled t false p := by
  have hfin : (saveSettled t false p).tasks[t]? = some { env := env, awaiting := Await.finished } := by
    simp [saveSettled, ht, nextQuestionFailed, Page.moveTask, List.getElem?_modify]
  refine ⟨?_, ?_, hfin, ?_, ?_, ?_, ?_, ?_, ?_, ?_⟩
  · simp [saveSettled, ht, nextQuestionFailed, Page.moveTask]
  · simp [saveSettled, ht, nextQuestionFailed, Page.moveTask]
  · simp [saveSettled, ht, nextQuestionFailed, Page.moveTask]
  · simp [saveSettled, ht, nextQuestionFailed, Page.moveTask]
  · simp [saveSettled, ht, nextQuestionFailed, Page.moveTask]
  · simp [saveSettled, ht, nextQuestionFailed, Page.moveTask]
  · simp [saveSettled, ht, nextQuestionFailed, Page.moveTask]
  · generalize saveSettled t false p = s at hfin
    simp [nextSettled, hfin]
  · generalize saveSettled t false p = s at hfin
    simp [saveSettled, hfin]

/-- C3 (witness): the amended statement at the racing page, where the Next
button has just submitted `saveResponse` as invocation 0. -/
theorem save_failure_ends_invocation_witness :
    (clickNext racePage).tasks[0]? =
      some { env := racePage.closure, awaiting := Await.saveResponse } ∧
    (saveSettled 0 false (clickNext racePage)).log = (clickNext racePage).log ∧
    (saveSettled 0 false (clickNext racePage)).questionIndex = (clickNext racePage).questionIndex :=
  ⟨by decide,
    (save_failure_ends_invocation (clickNext racePage) 0 racePage.closure none true (by decide)).2.1,
    (save_failure_ends_invocation (clickNext racePage) 0 racePage.closure none true
      (by decide)).2.2.2.2.1⟩

/-- C4 (counterexample): with an empty transcript `handleNextQuestion`
submits no `saveResponse`: the Next button on the page with the empty
transcript, and the timer callback at expiry (whose closure holds the empty
transcript of the render that started the timer), each log a single
`nextQuestion` request and nothing before it. -/
theorem empty_transcript_skips_save :
    (clickNext silentPage).log = [Effect.request (Request.nextQuestion "s1")] ∧
    (tick 0 racePage).log = [Effect.request (Request.nextQuestion "s1")] ∧
    countSaveResponse (tick 0 racePage).log = 0 := by
  decide

/-- C4 (amended): for every current question `q` and every non-empty
transcript, a run of `handleNextQuestion` first submits
`saveResponse(sessionId, q.id, transcript, null, null)` and suspends; a
`nextQuestion` settlement does not resume it, and `nextQuestion` is requested
only when the submission has completed successfully, the log then holding the
two requests in that order.  With an empty transcript (whatever the question)
or with no current question, `nextQuestion` is requested at once and
`saveResponse` not at all.  The timer callback at expiry does the same with
the render values the timer closes over. -/
theorem save_precedes_next_when_transcript (p : Page) (q : Question) (tr : String)
    (cq : Option Question) (r : Option NextQuestionResponse) (htr : tr ≠ "") :
    (handleNextQuestion { currentQuestion := some q, transcript := tr } p).log =
      p.log ++ [Effect.request (Request.saveResponse p.sessionId q.id tr none none)] ∧
    (handleNextQuestion { currentQuestion := some q, transcript := tr } p).tasks =
      p.tasks ++ [{ env := { currentQuestion := some q, transcript := tr }, awaiting := Await.saveResponse }] ∧
    nextSettled p.tasks.length r (handleNextQuestion { currentQuestion := some q, transcript := tr } p) =
      handleNextQuestion { currentQuestion := some q, transcript := tr } p ∧
    (saveSettled p.tasks.length true
        (handleNextQuestion { currentQuestion := some q, transcript := tr } p)).log =
      p.log ++ [Effect.request (Request.saveResponse p.sessionId q.id tr none none),
        Effect.request (Request.nextQuestion p.sessionId)] ∧
    (handleNextQuestion { currentQuestion := cq, transcript := "" } p).log =
      p.log ++ [Effect.request (Request.nextQuestion p.sessionId)] ∧
    (handleNextQuestion { currentQuestion := none, transcript := tr } p).log =
      p.log ++ [Effect.request (Request.nextQuestion p.sessionId)] ∧
    (questionTimerCallback { currentQuestion := some q, transcript := tr }
        { p with timeRemaining := 1 }).log =
      p.log ++ [Effect.request (Request.saveResponse p.sessionId q.id tr none none)] := by
  refine ⟨?_, ?_, ?_, ?_, ?_, ?_, ?_⟩
  · simp [handleNextQuestion, htr, Page.suspend, Page.emit]
  · simp [handleNextQuestion, htr, Page.suspend, Page.emit]
  · simp [handleNextQuestion, htr, Page.suspend, Page.emit, nextSettled]
  · simp [handleNextQuestion, htr, Page.suspend, Page.emit, saveSettled, Page.moveTask]
  · cases cq <;> simp [handleNextQuestion, Page.suspend, Page.emit]
  · simp [handleNextQuestion, Page.suspend, Page.emit]
  · simp [questionTimerCallback, handleNextQuestion, htr, Page.suspend, Page.emit]

/-- C4 (witness): the amended statement at the racing page with the
transcript " hello" on question `qA`. -/
theorem save_precedes_next_when_transcript_witness :
    (" hello" : String) ≠ "" ∧
    (saveSettled racePage.tasks.length true
        (handleNextQuestion { currentQuestion := some qA, transcript := " hello" } racePage)).log =
      racePage.log ++ [Effect.request (Request.saveResponse racePage.sessionId qA.id " hello" none none),
        Effect.request (Request.nextQuestion racePage.sessionId)] :=
  ⟨by decide,
    (save_precedes_next_when_transcript racePage qA " hello" none none (by decide)).2.2.2.1⟩


/-- C5 (counterexample): on a page with both intervals set and a socket held,
a run of `cleanup` in which `stopMedia()` throws attempts the two
`clearInterval` calls and `stopMedia` and nothing else: `leave_interview` is
not emitted, the socket is not disconnected and is still held. -/
theorem cleanup_stops_at_throw :
    (cleanupResult onlyStopMediaThrows racePage).log =
      [Effect.clearInterval 0, Effect.clearInterval 1, Effect.hookStopMedia] ∧
    Effect.channel (ChannelEffect.emit 7 "leave_interview" [("session_id", Val.str "s1")]) ∉
      (cleanupResult onlyStopMediaThrows racePage).log ∧
    Effect.channel (ChannelEffect.socketDisconnect 7) ∉
      (cleanupResult onlyStopMediaThrows racePage).log ∧
    (cleanupResult onlyStopMediaThrows racePage).socketService.socket = some 7 := by
  decide

/-- C5 (amended): for every choice of which cleanup steps throw, leaving a
session attempts its calls in source order (clear the question timer when one
is set, clear the transcription interval when one is set, `stopMedia`, emit
`leave_interview` when a socket is held, disconnect when a socket is held) up
to and including the first call that throws, and no call after it; stopping
the recording is not among the calls.  When no step throws, every one of the
listed calls is attempted. -/
theorem cleanup_attempts_until_first_throw (throws : CleanupStep → Bool) (p : Page) :
    (cleanupResult throws p).log = p.log ++ attempted throws (cleanupCalls p) ∧
    Effect.hookStopRecording ∉ attempted throws (cleanupCalls p) ∧
    (cleanupResult (fun _ => false) p).log = p.log ++ (cleanupCalls p).map Prod.snd := by
  refine ⟨cleanup_log throws p, ?_, ?_⟩
  · rcases p with ⟨sid, ses, qs, cq, qi, st, trm, tr, ai, er, timerRef, trRef, ⟨sock, conn⟩, ivs, tasks, log⟩
    cases timerRef <;> cases trRef <;> cases sock <;>
      cases throws CleanupStep.clearQuestionTimer <;>
      cases throws CleanupStep.clearTranscriptInterval <;>
      cases throws CleanupStep.stopMedia <;>
      cases throws CleanupStep.leaveInterview <;>
      cases throws CleanupStep.disconnect <;>
      simp [cleanupCalls, attempted]
  · rw [cleanup_log]
    congr 1
    generalize cleanupCalls p = l
    induction l with
    | nil => rfl
    | cons x rest ih =>
      rcases x with ⟨st, e⟩
      simp [attempted, ih]

/-- C6 (divergence): with the hook as it is, `cleanup` on any page attempts
the guarded `clearInterval` calls and the call of `stopMedia`, which throws,
and ends there: it emits nothing on the channel and the channel client keeps
its socket.  On a page with both intervals set and socket 7 held the trace is
the two `clearInterval` calls and the call of `stopMedia`; `leave_interview`
is not emitted, the socket is not disconnected, and no call that stops the
recording occurs. -/
theorem cleanup_never_leaves (p : Page) :
    (∃ s, cleanup cleanupThrowsAsWired p = Except.error s ∧
      s.log = p.log ++ p.timerRef.toList.map Effect.clearInterval ++
        p.transcriptIntervalRef.toList.map Effect.clearInterval ++ [Effect.hookStopMedia] ∧
      s.socketService = p.socketService) ∧
    (cleanupResult cleanupThrowsAsWired racePage).log =
      [Effect.clearInterval 0, Effect.clearInterval 1, Effect.hookStopMedia] ∧
    Effect.channel (ChannelEffect.emit 7 "leave_interview" [("session_id", Val.str "s1")]) ∉
      (cleanupResult cleanupThrowsAsWired racePage).log ∧
    Effect.channel (ChannelEffect.socketDisconnect 7) ∉
      (cleanupResult cleanupThrowsAsWired racePage).log ∧
    Effect.hookStopRecording ∉ (cleanupResult cleanupThrowsAsWired racePage).log ∧
    (cleanupResult cleanupThrowsAsWired racePage).socketService.socket = some 7 := by
  refine ⟨?_, by decide, by decide, by decide, by decide, by decide⟩
  have hw : callOfMissingThrows "stopMedia" = true := by decide
  cases h1 : p.timerRef <;> cases h2 : p.transcriptIntervalRef <;>
    simp [cleanup, cleanupQuestionTimer, cleanupTranscriptInterval, cleanupStopMedia,
      cleanupStatement, cleanupThrowsAsWired, hw, h1, h2, Page.emit, Page.clearInterval, bind,
      Except.bind]

/-- C7: for every capability predicate that accepts at least one entry of the
preference list, the mime type `startRecording` chooses is the first entry of
the list the predicate accepts: it is accepted, no earlier entry is, it is
never an entry behind an accepted one, every call of `startRecording` that
reaches the recorder constructor passes exactly this type, and two predicates
that agree on the list give the same choice. -/
theorem selectMimeType_first_supported (sup : String → Bool)
    (hsome : ∃ m ∈ mimePreferences, sup m = true) :
    mimePreferences.find? sup = some (selectMimeType sup) ∧
    sup (selectMimeType sup) = true ∧
    (∀ i j, i < j → j < mimePreferences.length → sup (mimePreferences.getD i "") = true →
      selectMimeType sup ≠ mimePreferences.getD j "") ∧
    (∀ (pf : Platform) (a : Adapter) (m : String), pf.isTypeSupported = sup →
      (startRecording pf a).2.passedMimeType = some m → m = selectMimeType sup) ∧
    (∀ sup2 : String → Bool, (∀ m ∈ mimePreferences, sup2 m = sup m) →
      selectMimeType sup2 = selectMimeType sup) := by
  have hcases : sup "video/webm;codecs=vp9,opus" = true ∨ sup "video/webm;codecs=vp8,opus" = true ∨
      sup "video/webm" = true ∨ sup "video/mp4" = true := by
    obtain ⟨m, hm, hs⟩ := hsome
    simp [mimePreferences] at hm
    rcases hm with rfl | rfl | rfl | rfl <;> simp [hs]
  refine ⟨?_, ?_, ?_, ?_, ?_⟩
  · cases h1 : sup "video/webm;codecs=vp9,opus" <;> cases h2 : sup "video/webm;codecs=vp8,opus" <;>
      cases h3 : sup "video/webm" <;> cases h4 : sup "video/mp4" <;>
      simp_all [selectMimeType, mimePreferences, List.find?]
  · cases h1 : sup "video/webm;codecs=vp9,opus" <;> cases h2 : sup "video/webm;codecs=vp8,opus" <;>
      cases h3 : sup "video/webm" <;> cases h4 : sup "video/mp4" <;>
      simp_all [selectMimeType]
  · intro i j hij hj hi
    have hj4 : j < 4 := by simpa [mimePreferences] using hj
    cases h1 : sup "video/webm;codecs=vp9,opus" <;> cases h2 : sup "video/webm;codecs=vp8,opus" <;>
      cases h3 : sup "video/webm" <;> cases h4 : sup "video/mp4" <;>
      interval_cases j <;> interval_cases i <;>
      simp_all [selectMimeType, mimePreferences]
  · intro pf a m hpf hm
    subst hpf
    rcases startRecording_passed pf a with h | h
    · rw [h] at hm; cases hm
    · rw [h] at hm; exact (Option.some.inj hm).symm
  · intro sup2 hagree
    have e1 := hagree "video/webm;codecs=vp9,opus" (by simp [mimePreferences])
    have e2 := hagree "video/webm;codecs=vp8,opus" (by simp [mimePreferences])
    have e3 := hagree "video/webm" (by simp [mimePreferences])
    simp [selectMimeType, e1, e2, e3]

/-- C7 (witness): a predicate that accepts plain webm and mp4 only; plain
webm, the earlier of the two, is chosen. -/
theorem selectMimeType_first_supported_witness :
    (∃ m ∈ mimePreferences, webmOrMp4 m = true) ∧
    mimePreferences.find? webmOrMp4 = some (selectMimeType webmOrMp4) ∧
    selectMimeType webmOrMp4 = "video/webm" :=
  ⟨⟨"video/webm", by decide, by decide⟩,
    (selectMimeType_first_supported webmOrMp4 ⟨"video/webm", by decide, by decide⟩).1,
    by decide⟩

/-- C8 (counterexample): with a capability predicate that rejects every type,
`startRecording` hands `video/mp4` to the recorder constructor although the
predicate reports it as unsupported; where the constructor takes the type the
recording runs with it, where the constructor refuses it the call throws. -/
theorem mp4_fallback_unchecked :
    selectMimeType lenientPlatform.isTypeSupported = "video/mp4" ∧
    lenientPlatform.isTypeSupported "video/mp4" = false ∧
    (startRecording lenientPlatform idleAdapter).2 =
      { passedMimeType := some "video/mp4", threw := false } ∧
    (startRecording lenientPlatform idleAdapter).1.isRecording = true ∧
    (startRecording lenientPlatform idleAdapter).1.mediaRecorderRef.map (fun r => r.mimeType) =
      some "video/mp4" ∧
    (startRecording strictPlatform idleAdapter).2 =
      { passedMimeType := some "video/mp4", threw := true } := by
  decide

/-- C8 (amended): the mime type `startRecording` hands to the recorder is
one the predicate reports as supported whenever the predicate accepts at
least one of the three WebM entries; when it accepts none of them the type is
`video/mp4` without the predicate being asked, so in every case the type is
supported exactly when the predicate accepts some entry of the preference
list. -/
theorem selectMimeType_supported_iff (sup : String → Bool) :
    ((sup "video/webm;codecs=vp9,opus" = true ∨ sup "video/webm;codecs=vp8,opus" = true ∨
        sup "video/webm" = true) → sup (selectMimeType sup) = true) ∧
    ((sup "video/webm;codecs=vp9,opus" = false ∧ sup "video/webm;codecs=vp8,opus" = false ∧
        sup "video/webm" = false) → selectMimeType sup = "video/mp4") ∧
    (sup (selectMimeType sup) = true ↔ ∃ m ∈ mimePreferences, sup m = true) ∧
    (∀ (pf : Platform) (a : Adapter), pf.isTypeSupported = sup →
      (startRecording pf a).2.passedMimeType = none ∨
      (startRecording pf a).2.passedMimeType = some (selectMimeType sup)) := by
  refine ⟨?_, ?_, ?_, ?_⟩
  · cases h1 : sup "video/webm;codecs=vp9,opus" <;> cases h2 : sup "video/webm;codecs=vp8,opus" <;>
      cases h3 : sup "video/webm" <;> simp_all [selectMimeType]
  · rintro ⟨h1, h2, h3⟩
    simp [selectMimeType, h1, h2, h3]
  · cases h1 : sup "video/webm;codecs=vp9,opus" <;> cases h2 : sup "video/webm;codecs=vp8,opus" <;>
      cases h3 : sup "video/webm" <;> cases h4 : sup "video/mp4" <;>
      simp_all [selectMimeType, mimePreferences]
  · intro pf a hpf
    subst hpf
    exact startRecording_passed pf a

/-- C9: for every adapter state with no active recording (no recorder in the
ref, or `isRecording` false), `stopRecording` resolves with `null` and does
not reject; afterwards `isRecording` is false, the duration timer ref is
empty and the interval it held is no longer live, and the accumulated chunks,
the media stream and the recorder ref are unchanged. -/
theorem stopRecording_idle_resolves_null (a : Adapter)
    (hidle : a.mediaRecorderRef = none ∨ a.isRecording = false) :
    (stopRecording a).2 = StopOutcome.resolved none ∧
    (stopRecording a).1.isRecording = false ∧
    (stopRecording a).1.recordingTimerRef = none ∧
    (∀ t, a.recordingTimerRef = some t → t ∉ (stopRecording a).1.liveIntervals) ∧
    (stopRecording a).1.recordedChunksRef = a.recordedChunksRef ∧
    (stopRecording a).1.streamRef = a.streamRef ∧
    (stopRecording a).1.mediaRecorderRef = a.mediaRecorderRef := by
  have hs : stopRecording a = (stopRecordingTail a, StopOutcome.resolved none) := by
    unfold stopRecording
    rcases hidle with h | h
    · simp [h]
    · cases hm : a.mediaRecorderRef <;> simp [h]
  rw [hs]
  cases ht : a.recordingTimerRef with
  | none => simp [stopRecordingTail, ht]
  | some t => simp [stopRecordingTail, ht]

/-- C9 (witness): an adapter whose recorder is still in the ref while
`isRecording` is false, with a duration interval left over and two chunks
accumulated. -/
theorem stopRecording_idle_resolves_null_witness :
    (stoppedAdapter.mediaRecorderRef = none ∨ stoppedAdapter.isRecording = false) ∧
    (stopRecording stoppedAdapter).2 = StopOutcome.resolved none ∧
    (stopRecording stoppedAdapter).1.liveIntervals = [] ∧
    (stopRecording stoppedAdapter).1.recordedChunksRef = stoppedAdapter.recordedChunksRef :=
  ⟨Or.inr rfl, (stopRecording_idle_resolves_null stoppedAdapter (Or.inr rfl)).1, by decide,
    (stopRecording_idle_resolves_null stoppedAdapter (Or.inr rfl)).2.2.2.2.1⟩

/-- C10: for every non-negative whole number of seconds `s` the duration
formatter returns the decimal text of `s / 60` (rounded down), a colon, and
`s mod 60` written with exactly two decimal digits (a leading zero below
ten); 125 gives "2:05", 5 gives "0:05", 0 gives "0:00"; and the three copies
(`formatDuration` of the hook, `formatDuration` of the session details page,
`formatTime` of the session page) return the same string for every `s`. -/
theorem formatDuration_minutes_seconds (s : Nat) :
    formatDuration s =
      toString (s / 60) ++ ":" ++ String.mk [digitChar (s % 60 / 10), digitChar (s % 60 % 10)] ∧
    SessionDetails.formatDuration s = formatDuration s ∧
    formatTime s = formatDuration s ∧
    formatDuration 125 = "2:05" ∧ formatDuration 5 = "0:05" ∧ formatDuration 0 = "0:00" := by
  refine ⟨?_, rfl, rfl, by decide, by decide, by decide⟩
  unfold formatDuration
  simp only
  rw [padStart_two_digits (s % 60) (Nat.mod_lt _ (by decide))]


/-- C11 (divergence): for a response of `nextQuestion` whose `success` and
`interview_completed` are both true, `handleNextQuestion` starts
`handleInterviewComplete`, which calls the hook's `stopRecording` and waits
for it.  With the hook as it is, the call of `stopMedia` that follows throws
and the `catch` block only logs: the session status is left as it was, no
`session_status_update` is emitted (the log gains the calls of
`stopRecording` and `stopMedia` and nothing else), and no interval is
cleared. -/
theorem completion_stops_at_stopMedia (p : Page) (t : Nat) (env : Closure) (cq : Option Question)
    (ht : p.tasks[t]? = some { env := env, awaiting := Await.nextQuestion }) :
    let started := nextSettled t
      (some { success := true, interview_completed := true, current_question := cq }) p
    let ended := stopRecordingSettled p.tasks.length true (callOfMissingThrows "stopMedia") started
    started.log = p.log ++ [Effect.hookStopRecording] ∧
    started.tasks[p.tasks.length]? = some { env := env, awaiting := Await.stopRecording } ∧
    ended.sessionStatus = p.sessionStatus ∧
    ended.log = p.log ++ [Effect.hookStopRecording, Effect.hookStopMedia] ∧
    ended.intervals = p.intervals ∧
    ended.timerRef = p.timerRef ∧
    ended.transcriptIntervalRef = p.transcriptIntervalRef ∧
    ended.tasks[p.tasks.length]? = some { env := env, awaiting := Await.finished } := by
  intro started ended
  have hw : callOfMissingThrows "stopMedia" = true := by decide
  have hs : started = handleInterviewComplete env (p.moveTask t Await.finished) := by
    simp [started, nextSettled, ht]
  have hst : started.tasks = p.tasks.modify (fun k => { k with awaiting := Await.finished }) t ++
      [{ env := env, awaiting := Await.stopRecording }] := by
    rw [hs]; rfl
  have hu : started.tasks[p.tasks.length]? = some { env := env, awaiting := Await.stopRecording } := by
    rw [hst, List.getElem?_append_right (by simp)]
    simp
  have he : ended = stopRecordingSettled p.tasks.length true true started := by
    show stopRecordingSettled p.tasks.length true (callOfMissingThrows "stopMedia") started = _
    rw [hw]
  have hthrow := stopRecordingSettled_throwing p.tasks.length true started
  have hend : ended = (started.emit [Effect.hookStopMedia]).moveTask p.tasks.length Await.finished := by
    rw [he]
    unfold stopRecordingSettled
    rw [hu]
    simp
  refine ⟨?_, hu, ?_, ?_, ?_, ?_, ?_, ?_⟩
  · rw [hs]; rfl
  · rw [he, hthrow.1, hs]; rfl
  · rw [hend, hs]
    simp [Page.moveTask, Page.emit, handleInterviewComplete, Page.suspend]
  · rw [he, hthrow.2.1, hs]; rfl
  · rw [he, hthrow.2.2.2.1, hs]; rfl
  · rw [he, hthrow.2.2.2.2, hs]; rfl
  · have htasks : ended.tasks =
        p.tasks.modify (fun k => { k with awaiting := Await.finished }) t ++
          [{ env := env, awaiting := Await.finished }] := by
      rw [hend]
      show (started.tasks).modify _ p.tasks.length = _
      rw [hst]
      have hl : p.tasks.length =
          (p.tasks.modify (fun k => { k with awaiting := Await.finished }) t).length := by simp
      rw [hl]
      exact modify_append_last _ _ _
    rw [htasks, List.getElem?_append_right (by simp)]
    simp

/-- C11 (witness): the page whose timer has just expired, invocation 0
waiting for `nextQuestion`: after the completion response and the settlement
of `stopRecording` the status is still `active`. -/
theorem completion_stops_at_stopMedia_witness :
    expiredPage.tasks[0]? = some { env := timerEnv, awaiting := Await.nextQuestion } ∧
    expiredPage.sessionStatus = SessionStatus.active ∧
    (stopRecordingSettled expiredPage.tasks.length true (callOfMissingThrows "stopMedia")
      (nextSettled 0 completion expiredPage)).sessionStatus = expiredPage.sessionStatus :=
  ⟨by decide, by decide, (completion_stops_at_stopMedia expiredPage 0 timerEnv none (by decide)).2.2.1⟩

/-- C12 (counterexample): on a page on which two question timers are running
(intervals 0 and 2, the ref holding 2), the advance to the next question
clears interval 2 and starts interval 3: two question timers, 0 and 3, are
running afterwards, not one. -/
theorem advance_keeps_stray_timer :
    twoTimersPage.runningQuestionTimers = [0, 2] ∧
    twoTimersPage.timerRef = some 2 ∧
    (nextSettled 0 (further qB) twoTimersPage).currentQuestion = some qB ∧
    (nextSettled 0 (further qB) twoTimersPage).timerRef = some 3 ∧
    (nextSettled 0 (further qB) twoTimersPage).runningQuestionTimers = [0, 3] := by
  decide

/-- C12 (amended): when `nextQuestion` succeeds and returns a further question
`q` (interview not completed), after `handleNextQuestion` the current question
is `q`, the question index has grown by exactly 1, the transcript and the
AI-message list are empty, `timeRemaining` equals `q.time_limit`, the session,
the cached question list and the session status are unchanged, the interval
held in `timerRef` has been cleared and one new question timer has been
started and stored in `timerRef`.  The question timers running afterwards are
the new one and those that were running before other than the one in the
ref; so exactly one question timer is running afterwards if and only if no
question timer other than the one in `timerRef` was running before. -/
theorem advance_restarts_ref_timer (p : Page) (t : Nat) (env : Closure) (q : Question)
    (ht : p.tasks[t]? = some { env := env, awaiting := Await.nextQuestion }) :
    (nextSettled t (further q) p).currentQuestion = some q ∧
    (nextSettled t (further q) p).questionIndex = p.questionIndex + 1 ∧
    (nextSettled t (further q) p).transcript = "" ∧
    (nextSettled t (further q) p).aiMessages = [] ∧
    (nextSettled t (further q) p).timeRemaining = q.time_limit ∧
    (nextSettled t (further q) p).timerRef = some p.intervals.length ∧
    (nextSettled t (further q) p).session = p.session ∧
    (nextSettled t (further q) p).questions = p.questions ∧
    (nextSettled t (further q) p).sessionStatus = p.sessionStatus ∧
    (nextSettled t (further q) p).runningQuestionTimers =
      (p.runningQuestionTimers.filter fun i => decide (p.timerRef ≠ some i)) ++
        [p.intervals.length] ∧
    (∀ h, p.timerRef = some h → h < p.intervals.length →
      h ∉ (nextSettled t (further q) p).runningQuestionTimers) ∧
    ((nextSettled t (further q) p).runningQuestionTimers = [p.intervals.length] ↔
      ∀ i ∈ p.runningQuestionTimers, p.timerRef = some i) := by
  have hrun := advance_running p t env q ht
  have hs := nextSettled_advance p t env q ht
  refine ⟨?_, ?_, ?_, ?_, ?_, ?_, ?_, ?_, ?_, hrun, ?_, ?_⟩
  · rw [hs]; cases p.timerRef <;> rfl
  · rw [hs]; cases p.timerRef <;> rfl
  · rw [hs]; cases p.timerRef <;> rfl
  · rw [hs]; cases p.timerRef <;> rfl
  · rw [hs]; cases p.timerRef <;> rfl
  · rw [hs]
    cases p.timerRef with
    | none => rfl
    | some h =>
      show some (p.intervals.modify (fun iv => { iv with live := false }) h).length = _
      simp
  · rw [hs]; cases p.timerRef <;> rfl
  · rw [hs]; cases p.timerRef <;> rfl
  · rw [hs]; cases p.timerRef <;> rfl
  · intro h hh hlt hmem
    rw [hrun] at hmem
    rcases List.mem_append.mp hmem with hm | hm
    · rw [List.mem_filter] at hm
      simp [hh] at hm
    · simp at hm
      omega
  · rw [hrun]
    constructor
    · intro heq i hi
      have hnil : (p.runningQuestionTimers.filter fun i => decide (p.timerRef ≠ some i)) = [] := by
        have := congrArg List.length heq
        simp at this
        exact List.eq_nil_of_length_eq_zero (by simpa using this)
      by_contra hne
      have : i ∈ (p.runningQuestionTimers.filter fun i => decide (p.timerRef ≠ some i)) := by
        rw [List.mem_filter]
        exact ⟨hi, by simpa using hne⟩
      rw [hnil] at this
      simp at this
    · intro hall
      have hnil : (p.runningQuestionTimers.filter fun i => decide (p.timerRef ≠ some i)) = [] := by
        rw [List.filter_eq_nil_iff]
        intro i hi
        simp [hall i hi]
      rw [hnil]
      rfl

/-- C12 (witness): the page whose timer has just expired: its only running
question timer is interval 0, held in `timerRef`; after the advance to `qB`
the only running question timer is the new interval 2. -/
theorem advance_restarts_ref_timer_witness :
    expiredPage.tasks[0]? = some { env := timerEnv, awaiting := Await.nextQuestion } ∧
    (∀ i ∈ expiredPage.runningQuestionTimers, expiredPage.timerRef = some i) ∧
    (nextSettled 0 (further qB) expiredPage).runningQuestionTimers = [expiredPage.intervals.length] ∧
    (nextSettled 0 (further qB) expiredPage).timeRemaining = qB.time_limit :=
  ⟨by decide, by decide,
    (advance_restarts_ref_timer expiredPage 0 timerEnv qB (by decide)).2.2.2.2.2.2.2.2.2.2.2.2
      (by decide),
    (advance_restarts_ref_timer expiredPage 0 timerEnv qB (by decide)).2.2.2.2.1⟩

/-- C13: with the hook as it is, in every state the mounted page gets into
whose session status is `completed` or `error`, no event (the settlement of
`getSession`, `startMedia`, `startSession`, `saveResponse`, `nextQuestion` or
`stopRecording`, a click, a timer tick, a received socket event) and no run
of events changes the status.  For `error` this is because nothing is in
flight once `getSession` has failed; the statuses `active` and `completed`
are never reached, because `startInterview` ends at its call of `startMedia`
and `handleInterviewComplete` at its call of `stopMedia`. -/
theorem terminal_statuses_stay (p : Page) (e : Event) (es : List Event) (hr : ReachableAsWired p)
    (ht : p.sessionStatus = SessionStatus.completed ∨ p.sessionStatus = SessionStatus.error) :
    (step e p).sessionStatus = p.sessionStatus ∧
    (run es p).sessionStatus = p.sessionStatus ∧
    p.sessionStatus ≠ SessionStatus.completed ∧
    (∀ q, ReachableAsWired q →
      q.sessionStatus ≠ SessionStatus.active ∧ q.sessionStatus ≠ SessionStatus.completed) := by
  have hall : ∀ q, ReachableAsWired q →
      q.sessionStatus ≠ SessionStatus.active ∧ q.sessionStatus ≠ SessionStatus.completed :=
    fun q hq => ⟨(neverStarted_of_asWired q hq).1, (neverStarted_of_asWired q hq).2.1⟩
  have hnc := (hall p hr).2
  have herr : p.sessionStatus = SessionStatus.error := by
    rcases ht with h | h
    · exact absurd h hnc
    · exact h
  have hreach := reachable_of_asWired p hr
  refine ⟨?_, ?_, hnc, hall⟩
  · rw [error_step e p hreach herr, herr]
  · rw [error_run es p hreach herr, herr]

/-- C13 (witness): the state reached when `getSession` is rejected is reached
with the hook as it is and has the status `error`; the settlement of a
`startSession` promise leaves it there. -/
theorem terminal_statuses_stay_witness :
    ReachableAsWired failedPage ∧
    (failedPage.sessionStatus = SessionStatus.completed ∨
      failedPage.sessionStatus = SessionStatus.error) ∧
    (step (Event.startSessionSettled 0 startOk true true) failedPage).sessionStatus =
      failedPage.sessionStatus :=
  ⟨⟨"s1", 7, [Event.getSessionSettled 0 none], by decide, rfl⟩, Or.inr (by decide),
    (terminal_statuses_stay failedPage (Event.startSessionSettled 0 startOk true true) []
      ⟨"s1", 7, [Event.getSessionSettled 0 none], by decide, rfl⟩ (Or.inr (by decide))).1⟩

/-- C14 (counterexample): on the page in the status `ready`, a `startMedia`
call that throws, a `startMedia` promise that is rejected and a `startSession`
request that fails each leave the status `ready`; only the error text is
set. -/
theorem start_failure_keeps_ready :
    readyPage.sessionStatus = SessionStatus.ready ∧
    (step (Event.clickStart true) readyPage).sessionStatus = SessionStatus.ready ∧
    (run [Event.clickStart false, Event.startMediaSettled 1 false] readyPage).sessionStatus =
      SessionStatus.ready ∧
    (run [Event.clickStart false, Event.startMediaSettled 1 true,
      Event.startSessionSettled 1 none false false] readyPage).sessionStatus = SessionStatus.ready ∧
    (run [Event.clickStart false, Event.startMediaSettled 1 true,
      Event.startSessionSettled 1 none false false] readyPage).error = "Failed to start interview" := by
  decide

/-- C14 (amended): if `getSession` fails in `initializeSession`, the session
status afterwards is `error` and the error text is "Failed to load interview
session".  If media capture (`startMedia`) fails in `startInterview`, by
throwing or by a rejected promise, or if the `startSession` request fails,
the error text is set to "Failed to start interview" and the session status
is left as it was. -/
theorem setup_failure_statuses (p : Page) (t : Nat) (env : Closure)
    (ht : p.tasks[t]? = some { env := env, awaiting := Await.getSession })
    (q : Page) (u : Nat) (envq : Closure)
    (hu : q.tasks[u]? = some { env := envq, awaiting := Await.startMedia })
    (s : Page) (w : Nat) (envs : Closure) (v a : Bool)
    (hw : s.tasks[w]? = some { env := envs, awaiting := Await.startSession }) (x : Page) :
    (getSessionSettled t none p).sessionStatus = SessionStatus.error ∧
    (getSessionSettled t none p).error = "Failed to load interview session" ∧
    (startInterview true x).sessionStatus = x.sessionStatus ∧
    (startInterview true x).error = "Failed to start interview" ∧
    (startMediaSettled u false q).sessionStatus = q.sessionStatus ∧
    (startMediaSettled u false q).error = "Failed to start interview" ∧
    (startSessionSettled w none v a s).sessionStatus = s.sessionStatus ∧
    (startSessionSettled w none v a s).error = "Failed to start interview" := by
  refine ⟨?_, ?_, ?_, ?_, ?_, ?_, ?_, ?_⟩
  · simp [getSessionSettled, ht, Page.moveTask]
  · simp [getSessionSettled, ht, Page.moveTask]
  · simp [startInterview, startInterviewFailed, Page.moveTask, Page.suspend, Page.emit]
  · simp [startInterview, startInterviewFailed, Page.moveTask, Page.suspend, Page.emit]
  · simp [startMediaSettled, hu, startInterviewFailed, Page.moveTask]
  · simp [startMediaSettled, hu, startInterviewFailed, Page.moveTask]
  · simp [startSessionSettled, hw, startInterviewFailed, Page.moveTask]
  · simp [startSessionSettled, hw, startInterviewFailed, Page.moveTask]

/-- C14 (witness): the amended statement at the mounted page (invocation 0
waits for `getSession`) and at the ready page after a click on Start, before
and after `startMedia` has settled. -/
theorem setup_failure_statuses_witness :
    (mounted "s1" 7).tasks[0]? =
      some { env := (mounted "s1" 7).closure, awaiting := Await.getSession } ∧
    (getSessionSettled 0 none (mounted "s1" 7)).sessionStatus = SessionStatus.error ∧
    (startMediaSettled 1 false (step (Event.clickStart false) readyPage)).sessionStatus =
      (step (Event.clickStart false) readyPage).sessionStatus :=
  ⟨by decide,
    (setup_failure_statuses (mounted "s1" 7) 0 (mounted "s1" 7).closure (by decide)
      (step (Event.clickStart false) readyPage) 1 readyPage.closure (by decide)
      (run [Event.clickStart false, Event.startMediaSettled 1 true] readyPage) 1 readyPage.closure
      false false (by decide) readyPage).1,
    (setup_failure_statuses (mounted "s1" 7) 0 (mounted "s1" 7).closure (by decide)
      (step (Event.clickStart false) readyPage) 1 readyPage.closure (by decide)
      (run [Event.clickStart false, Event.startMediaSettled 1 true] readyPage) 1 readyPage.closure
      false false (by decide) readyPage).2.2.2.2.1⟩

/-- C15 (counterexample): two calls of `startRecording` with no
`stopRecording` in between leave two recorders started by the adapter active
and two duration intervals live; the second call did not throw and only the
second recorder and the second interval are still held in the refs. -/
theorem second_start_keeps_first_recorder :
    (activeRecorders twiceStarted).length = 2 ∧
    twiceStarted.detachedRecorders.map (fun r => r.state) = [RecorderState.recording] ∧
    twiceStarted.liveIntervals = [1, 2] ∧
    twiceStarted.recordingTimerRef = some 2 ∧
    (startRecording webmPlatform onceStarted).2.threw = false := by
  decide

/-- C15 (amended): a `startRecording` issued while a recording is already
active is neither rejected on that account nor does it stop the previous
recorder: it throws exactly when no stream can be had or the platform refuses
the chosen type, and when it does not throw, the previous recorder is left in
the state it was in, out of the hook's reach, a further recorder is started,
the previous duration interval stays live and a further one is registered.
The number of active recorders started by the adapter then grows by one, so
it is not bounded by one. -/
theorem second_start_adds_recorder (pf : Platform) (a : Adapter) (r : Recorder)
    (href : a.mediaRecorderRef = some r) (hact : r.state ≠ RecorderState.inactive)
    (hok : (startRecording pf a).2.threw = false) :
    ((startRecording pf a).2.threw = false ↔
      ((a.streamRef.isSome = true ∨ pf.getUserMedia.isSome = true) ∧
        pf.recorderAccepts (selectMimeType pf.isTypeSupported) = true)) ∧
    (startRecording pf a).1.detachedRecorders = a.detachedRecorders ++ [r] ∧
    (∃ r2, (startRecording pf a).1.mediaRecorderRef = some r2 ∧
      r2.state = RecorderState.recording ∧
      activeRecorders (startRecording pf a).1 = activeRecorders a ++ [r2]) ∧
    (activeRecorders (startRecording pf a).1).length = (activeRecorders a).length + 1 ∧
    (startRecording pf a).1.liveIntervals = a.liveIntervals ++ [a.nextIntervalId] ∧
    (startRecording pf a).1.recordingTimerRef = some a.nextIntervalId := by
  have hthrew := startRecording_threw pf a
  obtain ⟨hstream, hacc⟩ := hthrew.mp hok
  have hr : (r.state != RecorderState.inactive) = true := by simpa using hact
  refine ⟨hthrew, ?_⟩
  unfold startRecording
  cases hs : a.streamRef with
  | none =>
    cases hg : pf.getUserMedia with
    | none => simp [hs, hg] at hstream
    | some stream =>
      simp [hg, startVideo, hacc, href, activeRecorders, List.filter_append, hr]
  | some stream =>
    simp [hs, hacc, href, activeRecorders, List.filter_append, hr]

/-- C15 (witness): the hook after one `startRecording`, called again. -/
theorem second_start_adds_recorder_witness :
    (∃ r, onceStarted.mediaRecorderRef = some r ∧ r.state ≠ RecorderState.inactive) ∧
    (startRecording webmPlatform onceStarted).2.threw = false ∧
    (activeRecorders (startRecording webmPlatform onceStarted).1).length =
      (activeRecorders onceStarted).length + 1 :=
  ⟨⟨_, rfl, by decide⟩, by decide,
    (second_start_adds_recorder webmPlatform onceStarted _ rfl (by decide) (by decide)).2.2.2.1⟩

/-- C16: for every AI-prompt form whose name or prompt text is empty or
consists only of white space, `handleCreate` sets the error message to
exactly "Name and prompt text are required", makes no call (neither
`createAIPrompt` nor `getAIPrompts`) and leaves the form data, the prompt
list and the success message unchanged, whatever the backend would answer;
for every form with both fields non-blank it calls `createAIPrompt` exactly
once, as the first of its calls, with the form data. -/
theorem handleCreate_validates_locally (p q : PromptPage) (createOutcome : Option MutationResponse)
    (loadOutcome : Option (Option (List AIPrompt)))
    (hblank : isBlank p.formData.name = true ∨ isBlank p.formData.prompt_text = true)
    (hfilled : isBlank q.formData.name = false ∧ isBlank q.formData.prompt_text = false) :
    (handleCreate createOutcome loadOutcome p).error = "Name and prompt text are required" ∧
    (handleCreate createOutcome loadOutcome p).calls = p.calls ∧
    (handleCreate createOutcome loadOutcome p).formData = p.formData ∧
    (handleCreate createOutcome loadOutcome p).prompts = p.prompts ∧
    (handleCreate createOutcome loadOutcome p).success = p.success ∧
    countCreate (handleCreate createOutcome loadOutcome q).calls = countCreate q.calls + 1 ∧
    ∃ rest, (handleCreate createOutcome loadOutcome q).calls =
      q.calls ++ AdminCall.createAIPrompt q.formData :: rest ∧ countCreate rest = 0 := by
  have hg : jsTrim p.formData.name = "" ∨ jsTrim p.formData.prompt_text = "" := by
    rcases hblank with h | h
    · exact Or.inl ((jsTrim_eq_empty _).mpr h)
    · exact Or.inr ((jsTrim_eq_empty _).mpr h)
  obtain ⟨h1, h2⟩ := hfilled
  have g1 : ¬ jsTrim q.formData.name = "" := by
    intro h; rw [jsTrim_eq_empty] at h; rw [h] at h1; cases h1
  have g2 : ¬ jsTrim q.formData.prompt_text = "" := by
    intro h; rw [jsTrim_eq_empty] at h; rw [h] at h2; cases h2
  refine ⟨by simp [handleCreate, hg], by simp [handleCreate, hg], by simp [handleCreate, hg],
    by simp [handleCreate, hg], by simp [handleCreate, hg], ?_⟩
  cases createOutcome with
  | none =>
    refine ⟨by simp [handleCreate, g1, g2, countCreate, List.filter_append], [], ?_, rfl⟩
    simp [handleCreate, g1, g2]
  | some resp =>
    rcases resp with ⟨suc, err⟩
    cases suc with
    | false =>
      refine ⟨by simp [handleCreate, g1, g2, countCreate, List.filter_append], [], ?_, rfl⟩
      simp [handleCreate, g1, g2]
    | true =>
      refine ⟨?_, [AdminCall.getAIPrompts], ?_, rfl⟩
      · cases loadOutcome <;>
          simp [handleCreate, g1, g2, countCreate, List.filter_append, loadPrompts, resetForm]
      · cases loadOutcome <;> simp [handleCreate, g1, g2, loadPrompts, resetForm]

/-- C16 (witness): the form with an empty prompt text and the filled form,
the backend accepting the prompt. -/
theorem handleCreate_validates_locally_witness :
    (isBlank emptyTextPromptPage.formData.name = true ∨
      isBlank emptyTextPromptPage.formData.prompt_text = true) ∧
    (isBlank filledPromptPage.formData.name = false ∧
      isBlank filledPromptPage.formData.prompt_text = false) ∧
    (handleCreate (some { success := true, error := none }) (some none) emptyTextPromptPage).calls =
      emptyTextPromptPage.calls ∧
    countCreate (handleCreate (some { success := true, error := none }) (some none)
      filledPromptPage).calls = countCreate filledPromptPage.calls + 1 :=
  ⟨by decide, by decide,
    (handleCreate_validates_locally emptyTextPromptPage filledPromptPage
      (some { success := true, error := none }) (some none) (by decide) (by decide)).2.1,
    (handleCreate_validates_locally emptyTextPromptPage filledPromptPage
      (some { success := true, error := none }) (some none) (by decide) (by decide)).2.2.2.2.2.1⟩

/-- C17: for every candidate name and interview code that are both non-blank
after trimming, `handleSubmit` calls `validateCode` exactly once, with the
trimmed code and the trimmed name; if the response has `success` true it
navigates to `/interview/` followed by the returned session identifier, and
otherwise (a response without `success`, or a failed request) it does not
navigate and sets a non-empty error message; in both cases `loading` is false
afterwards.  The code "ABC123" with the name "Jane Doe" and the session
identifier "s1" gives `/interview/s1`. -/
theorem handleSubmit_validates_and_navigates (p : Landing) (outcome : ValidateOutcome)
    (hname : isBlank p.formData.candidateName = false)
    (hcode : isBlank p.formData.interviewCode = false) :
    (handleSubmit outcome p).validateCalls =
      p.validateCalls ++ [(jsTrim p.formData.interviewCode, jsTrim p.formData.candidateName)] ∧
    (handleSubmit outcome p).loading = false ∧
    (∀ body, outcome = ValidateOutcome.fulfilled body → body.success = true →
      (handleSubmit outcome p).navigations = p.navigations ++ ["/interview/" ++ body.session_id]) ∧
    ((∀ body, outcome = ValidateOutcome.fulfilled body → body.success = false) →
      (handleSubmit outcome p).navigations = p.navigations ∧ (handleSubmit outcome p).error ≠ "") ∧
    (handleSubmit (ValidateOutcome.fulfilled { success := true, session_id := "s1", error := none })
      janeLanding).navigations = ["/interview/s1"] ∧
    (handleSubmit (ValidateOutcome.fulfilled { success := true, session_id := "s1", error := none })
      janeLanding).validateCalls = [("ABC123", "Jane Doe")] := by
  have g1 : ¬ jsTrim p.formData.candidateName = "" := by
    intro h; rw [jsTrim_eq_empty] at h; rw [h] at hname; cases hname
  have g2 : ¬ jsTrim p.formData.interviewCode = "" := by
    intro h; rw [jsTrim_eq_empty] at h; rw [h] at hcode; cases hcode
  have horElse : ∀ (a : Option String) (b : String), b ≠ "" → orElse a b ≠ "" := by
    intro a b hb
    unfold orElse
    cases a with
    | none => exact hb
    | some x => by_cases hx : x = "" <;> simp [hx, hb]
  refine ⟨?_, ?_, ?_, ?_, by decide, by decide⟩
  · cases outcome with
    | fulfilled body => cases hs : body.success <;> simp [handleSubmit, g1, g2, hs]
    | rejected e => simp [handleSubmit, g1, g2]
  · cases outcome with
    | fulfilled body => cases hs : body.success <;> simp [handleSubmit, g1, g2, hs]
    | rejected e => simp [handleSubmit, g1, g2]
  · intro body ho hs
    subst ho
    simp [handleSubmit, g1, g2, hs]
  · intro hns
    cases outcome with
    | fulfilled body =>
      have hs := hns body rfl
      refine ⟨by simp [handleSubmit, g1, g2, hs], ?_⟩
      simp only [handleSubmit, g1, g2, hs, or_self, if_false, Bool.false_eq_true]
      exact horElse _ _ (by decide)
    | rejected e =>
      refine ⟨by simp [handleSubmit, g1, g2], ?_⟩
      simp only [handleSubmit, g1, g2, or_self, if_false]
      exact horElse _ _ (by decide)

/-- C17 (witness): the landing form with the code "ABC123" and the name
"Jane Doe", the backend answering with the session identifier "s1". -/
theorem handleSubmit_validates_and_navigates_witness :
    isBlank janeLanding.formData.candidateName = false ∧
    isBlank janeLanding.formData.interviewCode = false ∧
    (handleSubmit (ValidateOutcome.fulfilled { success := true, session_id := "s1", error := none })
      janeLanding).loading = false ∧
    (handleSubmit (ValidateOutcome.fulfilled { success := true, session_id := "s1", error := none })
      janeLanding).validateCalls =
      janeLanding.validateCalls ++
        [(jsTrim janeLanding.formData.interviewCode, jsTrim janeLanding.formData.candidateName)] :=
  ⟨by decide, by decide,
    (handleSubmit_validates_and_navigates janeLanding
      (ValidateOutcome.fulfilled { success := true, session_id := "s1", error := none })
      (by decide) (by decide)).2.1,
    (handleSubmit_validates_and_navigates janeLanding
      (ValidateOutcome.fulfilled { success := true, session_id := "s1", error := none })
      (by decide) (by decide)).1⟩

/-- C18: for a question timer started with a whole time limit `n >= 0` and
left to tick, the value of `timeRemaining` after `k` ticks is
`max (n - k) 0`; each tick lowers it by exactly 1 while it is positive, it
never increases and it never becomes negative. -/
theorem countdown_exact (p : Page) (env : Closure) (n k : Nat) :
    (ticks p.intervals.length k (startQuestionTimer env (n : Int) p)).timeRemaining =
      max ((n : Int) - (k : Int)) 0 ∧
    (0 < (ticks p.intervals.length k (startQuestionTimer env (n : Int) p)).timeRemaining →
      (ticks p.intervals.length (k + 1) (startQuestionTimer env (n : Int) p)).timeRemaining =
        (ticks p.intervals.length k (startQuestionTimer env (n : Int) p)).timeRemaining - 1) ∧
    (ticks p.intervals.length (k + 1) (startQuestionTimer env (n : Int) p)).timeRemaining ≤
      (ticks p.intervals.length k (startQuestionTimer env (n : Int) p)).timeRemaining ∧
    0 ≤ (ticks p.intervals.length k (startQuestionTimer env (n : Int) p)).timeRemaining ∧
    (ticks 0 60 (startQuestionTimer timerEnv 60 idlePage)).timeRemaining = 0 := by
  have hiv : (startQuestionTimer env (n : Int) p).intervals[p.intervals.length]? =
      some { kind := IntervalKind.questionTimer env, ms := 1000, live := true } := by
    simp [startQuestionTimer]
  have hk := (ticks_fields p.intervals.length env 1000 k (startQuestionTimer env (n : Int) p) n
    hiv rfl).2
  have hk1 := (ticks_fields p.intervals.length env 1000 (k + 1) (startQuestionTimer env (n : Int) p) n
    hiv rfl).2
  rw [hk, hk1]
  refine ⟨?_, ?_, ?_, ?_, ?_⟩
  · omega
  · intro h; omega
  · omega
  · omega
  · exact (ticks_fields 0 timerEnv 1000 60 (startQuestionTimer timerEnv 60 idlePage) 60
      (by decide) rfl).2

/-- C19: between a `startRecording` and the matching `stopRecording` the
chunk list is exactly the sequence of the delivered segments that exist and
have a size above zero, in delivery order, the list having been emptied by
`startRecording`; `stopRecording` on an active recording leaves its promise
pending until the stop event, which resolves it with the single blob formed
by concatenating the chunk list, the segments delivered up to the stop event
included, typed with the recorder's mime type, or `video/webm` when the
recorder reports none. -/
theorem recording_accumulates_and_resolves (pf : Platform) (a0 a : Adapter) (r : Recorder)
    (ds final : List (Option Blob))
    (hstart : (startRecording pf a0).2.threw = false)
    (href : a.mediaRecorderRef = some r) (hrec : a.isRecording = true)
    (hact : r.state ≠ RecorderState.inactive) :
    (startRecording pf a0).1.recordedChunksRef = [] ∧
    (deliver ds (startRecording pf a0).1).recordedChunksRef = keptSegments ds ∧
    (∀ b ∈ keptSegments ds, b.bytes.length > 0) ∧
    (stopRecording (deliver ds a)).2 = StopOutcome.awaitingStopEvent ∧
    stopEvent (deliver final (stopRecording (deliver ds a)).1) =
      some (Blob.concat (a.recordedChunksRef ++ keptSegments ds ++ keptSegments final)
        (if r.mimeType = "" then "video/webm" else r.mimeType)) ∧
    (stopRecording (deliver ds (startRecording pf a0).1)).2 = StopOutcome.awaitingStopEvent ∧
    stopEvent (deliver final (stopRecording (deliver ds (startRecording pf a0).1)).1) =
      some (Blob.concat (keptSegments ds ++ keptSegments final) (selectMimeType pf.isTypeSupported)) := by
  have hchunks : (startRecording pf a0).1.recordedChunksRef = [] ∧
      (startRecording pf a0).1.isRecording = true ∧
      (startRecording pf a0).1.mediaRecorderRef =
        some
          { stream := ((startRecording pf a0).1.streamRef).getD cameraStream
            mimeType := selectMimeType pf.isTypeSupported
            videoBitsPerSecond := 2500000
            audioBitsPerSecond := 128000
            state := RecorderState.recording
            timeslice := 1000
            onstop := OnStop.logChunks } := by
    have hth := (startRecording_threw pf a0).mp hstart
    obtain ⟨hstream, hacc⟩ := hth
    unfold startRecording
    cases hs : a0.streamRef with
    | none =>
      cases hg : pf.getUserMedia with
      | none => simp [hs, hg] at hstream
      | some stream => simp [hg, startVideo, hacc]
    | some stream => simp [hs, hacc]
  have hsel : selectMimeType pf.isTypeSupported ≠ "" := by
    unfold selectMimeType
    split
    · split
      · decide
      · split <;> decide
    · decide
  have hgen : ∀ (x : Adapter) (rx : Recorder), x.mediaRecorderRef = some rx → x.isRecording = true →
      rx.state ≠ RecorderState.inactive →
      (stopRecording (deliver ds x)).2 = StopOutcome.awaitingStopEvent ∧
      stopEvent (deliver final (stopRecording (deliver ds x)).1) =
        some (Blob.concat (x.recordedChunksRef ++ keptSegments ds ++ keptSegments final)
          (if rx.mimeType = "" then "video/webm" else rx.mimeType)) := by
    intro x rx hx1 hx2 hx3
    obtain ⟨d1, d2, d3⟩ := deliver_fields ds x
    have hstop : (stopRecording (deliver ds x)).2 = StopOutcome.awaitingStopEvent ∧
        (stopRecording (deliver ds x)).1.recordedChunksRef = x.recordedChunksRef ++ keptSegments ds ∧
        ∃ r2, (stopRecording (deliver ds x)).1.mediaRecorderRef = some r2 ∧
          r2.onstop = OnStop.resolveBlob ∧ r2.mimeType = rx.mimeType := by
      unfold stopRecording
      rw [d2, d3, hx1, hx2]
      cases ht : (deliver ds x).recordingTimerRef <;> simp [hx3, stopRecordingTail, ht, d1]
    obtain ⟨s1, s2, r2, s3, s4, s5⟩ := hstop
    refine ⟨s1, ?_⟩
    obtain ⟨f1, f2, -⟩ := deliver_fields final (stopRecording (deliver ds x)).1
    unfold stopEvent
    rw [f2, f1, s3, s2]
    simp [s4, s5]
  obtain ⟨c1, c2, c3⟩ := hchunks
  refine ⟨c1, ?_, ?_, (hgen a r href hrec hact).1, (hgen a r href hrec hact).2, ?_, ?_⟩
  · rw [(deliver_fields ds _).1, c1]; rfl
  · intro b hb
    unfold keptSegments at hb
    rw [List.mem_filterMap] at hb
    obtain ⟨d, -, hd⟩ := hb
    cases d with
    | none => simp at hd
    | some x =>
      by_cases hx : x.bytes.length > 0
      · simp [hx] at hd; rw [← hd]; exact hx
      · simp [hx] at hd
  · exact (hgen _ _ c3 c2 (by simp)).1
  · have := (hgen _ _ c3 c2 (by simp)).2
    rw [this, c1]
    simp [hsel]

/-- C19 (witness): the hook after one `startRecording` on the webm platform;
three segments are delivered, the second empty, then `stopRecording` is
called and a last segment arrives before the stop event. -/
theorem recording_accumulates_and_resolves_witness :
    (startRecording webmPlatform initialAdapter).2.threw = false ∧
    (∃ r, onceStarted.mediaRecorderRef = some r ∧ onceStarted.isRecording = true ∧
      r.state ≠ RecorderState.inactive) ∧
    stopEvent (deliver [some { bytes := [9], type := "video/webm" }]
      (stopRecording (deliver [some { bytes := [1, 2], type := "video/webm" },
        some { bytes := [], type := "video/webm" }, none,
        some { bytes := [3], type := "video/webm" }]
        (startRecording webmPlatform initialAdapter).1)).1) =
      some (Blob.concat
        (keptSegments [some { bytes := [1, 2], type := "video/webm" },
          some { bytes := [], type := "video/webm" }, none,
          some { bytes := [3], type := "video/webm" }] ++
          keptSegments [some { bytes := [9], type := "video/webm" }])
        (selectMimeType webmPlatform.isTypeSupported)) ∧
    Blob.concat
        (keptSegments [some { bytes := [1, 2], type := "video/webm" },
          some { bytes := [], type := "video/webm" }, none,
          some { bytes := [3], type := "video/webm" }] ++
          keptSegments [some { bytes := [9], type := "video/webm" }])
        (selectMimeType webmPlatform.isTypeSupported) =
      { bytes := [1, 2, 3, 9], type := "video/webm" } :=
  ⟨by decide, ⟨_, rfl, by decide, by decide⟩,
    (recording_accumulates_and_resolves webmPlatform initialAdapter onceStarted _ _ _
      (by decide) rfl (by decide) (by decide)).2.2.2.2.2.2,
    by decide⟩

/-- C20: `stopVideo` is idempotent and safe when nothing is active: from
every adapter state it stops each track of the current stream if there is one
(and none otherwise) and leaves the stream reference null, the source of the
video surface null, and `isVideoEnabled` and `isAudioEnabled` false; a second
call immediately after stops no track and leaves the state exactly as the
first call left it. -/
theorem stopVideo_idempotent (a : Adapter) :
    (stopVideo a).2 = (a.streamRef.map fun s => s.tracks).getD [] ∧
    (stopVideo a).1.streamRef = none ∧
    (∀ src, (stopVideo a).1.videoSurface = some src → src = none) ∧
    (stopVideo a).1.videoSurface.isSome = a.videoSurface.isSome ∧
    (stopVideo a).1.isVideoEnabled = false ∧
    (stopVideo a).1.isAudioEnabled = false ∧
    stopVideo (stopVideo a).1 = ((stopVideo a).1, []) ∧
    stopVideo initialAdapter = (initialAdapter, []) := by
  refine ⟨?_, rfl, ?_, ?_, rfl, rfl, ?_, by decide⟩
  · cases h : a.streamRef <;> simp [stopVideo, h]
  · intro src hsrc
    cases h : a.videoSurface with
    | none => simp [stopVideo, h] at hsrc
    | some x => simp [stopVideo, h] at hsrc; exact hsrc.symm
  · cases h : a.videoSurface <;> simp [stopVideo, h]
  · cases h : a.videoSurface <;> simp [stopVideo, h]

/-- C21 (counterexample): on a client that holds a socket, `leaveInterview`
called twice emits two `leave_interview` events where one call emits one, so
the events emitted by two calls differ from those of one call. -/
theorem leaveInterview_twice_emits_twice :
    (runClient [ClientCall.emit (EmitCall.leaveInterview "s1"),
      ClientCall.emit (EmitCall.leaveInterview "s1")] heldService).2 =
      [ChannelEffect.emit 7 "leave_interview" [("session_id", Val.str "s1")],
       ChannelEffect.emit 7 "leave_interview" [("session_id", Val.str "s1")]] ∧
    (runClient [ClientCall.emit (EmitCall.leaveInterview "s1")] heldService).2 =
      [ChannelEffect.emit 7 "leave_interview" [("session_id", Val.str "s1")]] ∧
    (runClient [ClientCall.emit (EmitCall.leaveInterview "s1"),
      ClientCall.emit (EmitCall.leaveInterview "s1")] heldService).2 ≠
      (runClient [ClientCall.emit (EmitCall.leaveInterview "s1")] heldService).2 := by
  decide

/-- C21 (amended): for every client state, `leaveInterview` leaves the state
of the client as it is and emits one `leave_interview` per call while a socket
is held (none without a socket), so two calls emit what one call emits, twice;
`disconnect` is idempotent: a second `disconnect` right after the first closes
nothing and changes nothing, so two calls have the effects and the final state
of one. -/
theorem leaveInterview_repeats_disconnect_idempotent (svc : SocketService) (sessionId : String) :
    (svc.leaveInterview sessionId).1 = svc ∧
    (svc.leaveInterview sessionId).2.length = heldCount svc ∧
    runClient [ClientCall.emit (EmitCall.leaveInterview sessionId),
      ClientCall.emit (EmitCall.leaveInterview sessionId)] svc =
      (svc, (svc.leaveInterview sessionId).2 ++ (svc.leaveInterview sessionId).2) ∧
    svc.disconnect.1.disconnect = (svc.disconnect.1, []) ∧
    runClient [ClientCall.disconnect, ClientCall.disconnect] svc =
      runClient [ClientCall.disconnect] svc := by
  rcases svc with ⟨sock, conn⟩
  cases sock <;>
    simp [runClient, SocketService.call, SocketService.emitCall, SocketService.leaveInterview,
      SocketService.disconnect, heldCount]

/-- C22: in every state the client reaches from its initial state, `connect`
opens a socket and registers the `connect`, `disconnect` and `error` handlers
exactly when no socket is held; with a socket held it returns that socket,
opens nothing and registers nothing, so `connect(); connect()` has the effects
and the final state of `connect()`; `disconnect()` leaves the socket null and
`isConnected` false, and the `connect()` after it opens a fresh socket with
its three handlers.  Over the whole run the sockets opened are the sockets
closed plus the one held, if any: at most one connection is open. -/
theorem connect_holds_one_connection (cs : List ClientCall) (fresh other : Nat) :
    ((clientAfter cs).socket = none →
      (clientAfter cs).connect fresh =
        ({ clientAfter cs with socket := some fresh },
          [ChannelEffect.ioOpen fresh, ChannelEffect.on fresh "connect",
            ChannelEffect.on fresh "disconnect", ChannelEffect.on fresh "error"])) ∧
    (∀ sock, (clientAfter cs).socket = some sock →
      (clientAfter cs).connect fresh = (clientAfter cs, []) ∧
      (clientAfter cs).connectReturn fresh = some sock) ∧
    runClient [ClientCall.connect fresh, ClientCall.connect other] (clientAfter cs) =
      runClient [ClientCall.connect fresh] (clientAfter cs) ∧
    (clientAfter cs).disconnect.1 = { socket := none, isConnected := false } ∧
    (clientAfter cs).disconnect.1.connect fresh =
      ({ socket := some fresh, isConnected := false },
        [ChannelEffect.ioOpen fresh, ChannelEffect.on fresh "connect",
          ChannelEffect.on fresh "disconnect", ChannelEffect.on fresh "error"]) ∧
    countOpened (runClient cs SocketService.initial).2 =
      countClosed (runClient cs SocketService.initial).2 + heldCount (clientAfter cs) := by
  have hinv : (clientAfter cs).socket = none → (clientAfter cs).isConnected = false :=
    runClient_socket_flag cs SocketService.initial (by simp [SocketService.initial])
  have hbal := runClient_balance cs SocketService.initial
  have hcount : countOpened (runClient cs SocketService.initial).2 =
      countClosed (runClient cs SocketService.initial).2 + heldCount (clientAfter cs) := by
    simpa [heldCount, SocketService.initial, clientAfter] using hbal
  refine ⟨?_, ?_, ?_, ?_, ?_, hcount⟩
  all_goals
    revert hinv
    generalize clientAfter cs = svc
    rcases svc with ⟨sock, conn⟩
    cases sock <;>
      simp [runClient, SocketService.call, SocketService.connect, SocketService.disconnect,
        SocketService.connectReturn]

/-- C23: for every emit method `c` and every listen method `m`: on a client
that holds no socket the call emits nothing, registers nothing and leaves the
client as it is (the calls return, the client has no failing path), and a
`connect()` after the dropped calls does exactly what `connect()` alone does:
it opens the socket and registers its own three handlers, nothing of what was
dropped; on a client that holds a socket the emit method emits exactly one
event, the one of its name, and the listen method registers one handler. -/
theorem emit_listen_dropped_without_socket (svc held : SocketService) (sock fresh : Nat)
    (c : EmitCall) (m : ListenMethod) (h0 : svc.socket = none) (h1 : held.socket = some sock) :
    svc.emitCall c = (svc, []) ∧
    svc.listenCall m = (svc, []) ∧
    runClient [ClientCall.emit c, ClientCall.listen m, ClientCall.connect fresh] svc =
      svc.connect fresh ∧
    (svc.connect fresh).2 =
      [ChannelEffect.ioOpen fresh, ChannelEffect.on fresh "connect",
        ChannelEffect.on fresh "disconnect", ChannelEffect.on fresh "error"] ∧
    (∃ payload, held.emitCall c = (held, [ChannelEffect.emit sock c.event payload])) ∧
    held.listenCall m = (held, [ChannelEffect.on sock m.event]) := by
  have he := emitCall_none svc c h0
  refine ⟨he, ?_, ?_, ?_, emitCall_some held c sock h1, ?_⟩
  · simp [SocketService.listenCall, SocketService.listen, h0]
  · simp [runClient, SocketService.call, he, SocketService.listenCall, SocketService.listen, h0]
  · simp [SocketService.connect, h0]
  · simp [SocketService.listenCall, SocketService.listen, h1]

/-- C23 (witness): the initial client holds no socket and `heldService` holds
socket 7; `joinInterview` on the initial client is dropped. -/
theorem emit_listen_dropped_without_socket_witness :
    SocketService.initial.socket = none ∧ heldService.socket = some 7 ∧
    SocketService.initial.emitCall (EmitCall.joinInterview "s1") = (SocketService.initial, []) ∧
    runClient [ClientCall.emit (EmitCall.joinInterview "s1"),
      ClientCall.listen ListenMethod.onTranscriptUpdate, ClientCall.connect 8]
      SocketService.initial = SocketService.initial.connect 8 :=
  ⟨rfl, rfl,
    (emit_listen_dropped_without_socket SocketService.initial heldService 7 8
      (EmitCall.joinInterview "s1") ListenMethod.onTranscriptUpdate rfl rfl).1,
    (emit_listen_dropped_without_socket SocketService.initial heldService 7 8
      (EmitCall.joinInterview "s1") ListenMethod.onTranscriptUpdate rfl rfl).2.2.1⟩

/-- C24: each `transcript_update` with text `t` replaces the transcript `T`
by `T ++ " " ++ t`; after the fragments `ts` received in order the transcript
is the old one followed by each fragment behind one space, in the order of
arrival (from the empty transcript: `" " ++ t1 ++ ... ++ " " ++ tn`), nothing
else of the page changes, and the transcript after `ts` is a prefix of the
transcript after `ts` and any further fragments `us`. -/
theorem transcript_append_only (p : Page) (ts us : List String) (t : String) :
    (onTranscriptUpdate t p).transcript = p.transcript ++ " " ++ t ∧
    receiveFragments ts p = { p with transcript := p.transcript ++ fragmentsText ts } ∧
    (receiveFragments ts { p with transcript := "" }).transcript = fragmentsText ts ∧
    (receiveFragments (ts ++ us) p).transcript =
      (receiveFragments ts p).transcript ++ fragmentsText us ∧
    (receiveFragments ts p).transcript.data <+: (receiveFragments (ts ++ us) p).transcript.data ∧
    (receiveFragments ["a", "b", "c"] silentPage).transcript = " a b c" := by
  refine ⟨rfl, receiveFragments_eq ts p, ?_, ?_, ?_, by decide⟩
  · rw [receiveFragments_eq]; simp
  · rw [receiveFragments_eq, receiveFragments_eq, fragmentsText_append]
    simp [String.append_assoc]
  · rw [receiveFragments_eq, receiveFragments_eq, fragmentsText_append]
    simp [String.append_assoc]

/-- C25: with a current question `q` and a held socket, `requestHint` emits
exactly one `ai_response_request` with the session identifier, the id of `q`,
the current transcript and the type `hint`, and changes nothing else of the
page (transcript, AI messages, timer and intervals included);
`requestAIResponse` called without a type sends the type `hint` too; with no
current question `requestHint` does nothing at all. -/
theorem requestHint_emits_one_request (p : Page) (q : Question) (sock : Nat)
    (hq : p.currentQuestion = some q) (hs : p.socketService.socket = some sock) :
    requestHint p =
      { p with log := p.log ++
          [Effect.channel (ChannelEffect.emit sock "ai_response_request"
            [("session_id", Val.str p.sessionId), ("question_id", Val.num q.id),
              ("transcript_context", Val.str p.transcript), ("type", Val.str "hint")])] } ∧
    (requestHint p).transcript = p.transcript ∧
    (requestHint p).aiMessages = p.aiMessages ∧
    (requestHint p).timeRemaining = p.timeRemaining ∧
    (requestHint p).intervals = p.intervals ∧
    p.socketService.requestAIResponse p.sessionId (Val.num q.id) p.transcript none =
      p.socketService.requestAIResponse p.sessionId (Val.num q.id) p.transcript (some "hint") ∧
    requestHint { p with currentQuestion := none } = { p with currentQuestion := none } := by
  simp [requestHint, hq, hs, Page.channelCall, SocketService.requestAIResponse]

/-- C25 (witness): on the active session of `racePage` the hint request goes
out on socket 7 for question 1 with the transcript " hello". -/
theorem requestHint_emits_one_request_witness :
    racePage.currentQuestion = some qA ∧ racePage.socketService.socket = some 7 ∧
    (requestHint racePage).log =
      [Effect.channel (ChannelEffect.emit 7 "ai_response_request"
        [("session_id", Val.str "s1"), ("question_id", Val.num 1),
          ("transcript_context", Val.str " hello"), ("type", Val.str "hint")])] :=
  ⟨rfl, rfl, by
    rw [(requestHint_emits_one_request racePage qA 7 rfl rfl).1]
    decide⟩

/-- C26 (counterexample): on an adapter that has listed its devices, a
`getDevices` whose enumeration the platform rejects returns to its caller
without throwing; the failure is only written to the `error` state. -/
theorem getDevices_returns_on_denial :
    (getDevices none enumeratedAdapter).2 = CallOutcome.returned ∧
    (getDevices none enumeratedAdapter).2 ≠ CallOutcome.threw ∧
    (getDevices none enumeratedAdapter).1.error = some "Failed to get media devices" ∧
    enumeratedAdapter.error = none := by
  decide

/-- C26 (amended): when the platform denies device enumeration, `getDevices`
catches the failure and returns to its caller; it sets the hook's `error`
state to "Failed to get media devices" and leaves everything else, the device
lists and the selected camera and microphone included, as it was.  Whatever
the platform answers, the call returns. -/
theorem getDevices_denial_sets_error (a : Adapter) (enumerated : Option (List MediaDeviceInfo)) :
    getDevices none a = ({ a with error := some "Failed to get media devices" }, CallOutcome.returned) ∧
    (getDevices none a).1.cameras = a.cameras ∧
    (getDevices none a).1.microphones = a.microphones ∧
    (getDevices none a).1.selectedCamera = a.selectedCamera ∧
    (getDevices none a).1.selectedMicrophone = a.selectedMicrophone ∧
    (getDevices enumerated a).2 = CallOutcome.returned := by
  refine ⟨rfl, rfl, rfl, rfl, rfl, ?_⟩
  cases enumerated <;> rfl

/-- C27 (divergence): the hook module has no default export, which is what
the page imports, and three of the names the page destructures
(`startMedia`, `stopMedia`, `captureAudioChunk`) are not keys of the object
`useWebRTC` returns, so calling them throws.  With the hook as it is, a click
on Start fails in `startInterview` at the call of `startMedia` (the status
stays `ready`, the error text is set, `startSession` is never requested), and
`cleanup` stops at the call of `stopMedia`: `leave_interview` is not emitted
and the socket stays held. -/
theorem hook_operations_missing :
    interviewSessionImport ∉ useWebRTCExports ∧
    interviewSessionDestructured.filter callOfMissingThrows =
      ["startMedia", "stopMedia", "captureAudioChunk"] ∧
    interviewSessionCalled.filter callOfMissingThrows =
      ["startMedia", "stopMedia", "captureAudioChunk"] ∧
    (step (Event.clickStart (callOfMissingThrows "startMedia")) readyPage).sessionStatus =
      SessionStatus.ready ∧
    (step (Event.clickStart (callOfMissingThrows "startMedia")) readyPage).error =
      "Failed to start interview" ∧
    Effect.request (Request.startSession "s1") ∉
      (step (Event.clickStart (callOfMissingThrows "startMedia")) readyPage).log ∧
    (cleanupResult cleanupThrowsAsWired racePage).log =
      [Effect.clearInterval 0, Effect.clearInterval 1, Effect.hookStopMedia] ∧
    (cleanupResult cleanupThrowsAsWired racePage).socketService.socket = some 7 := by
  decide

/-- C28: the code typed into the landing form is stored as typed, and when
the form is submitted with a name and a code that are not blank the request
carries `trim` of the typed code: the typed text is white space, then the
trimmed code, then white space, with no character changed.  A code typed in
lower case is sent in lower case. -/
theorem interview_code_sent_trimmed (p : Landing) (c : String) (outcome : ValidateOutcome)
    (hname : isBlank p.formData.candidateName = false) (hcode : isBlank c = false) :
    (Landing.handleInputChange LandingField.interviewCode c p).formData.interviewCode = c ∧
    (handleSubmit outcome (Landing.handleInputChange LandingField.interviewCode c p)).validateCalls =
      p.validateCalls ++ [(jsTrim c, jsTrim p.formData.candidateName)] ∧
    (∃ pre post : List Char, c.data = pre ++ (jsTrim c).data ++ post ∧
      (∀ x ∈ pre, isJsWhitespace x = true) ∧ (∀ x ∈ post, isJsWhitespace x = true)) ∧
    (handleSubmit outcome lowerCaseLanding).validateCalls = [("abc123", "Jane Doe")] := by
  have h1 : ¬ jsTrim p.formData.candidateName = "" := by
    rw [jsTrim_eq_empty, hname]; simp
  have h2 : ¬ jsTrim c = "" := by
    rw [jsTrim_eq_empty, hcode]; simp
  refine ⟨rfl, ?_, jsTrim_parts c, ?_⟩
  · cases outcome with
    | fulfilled body =>
      cases hb : body.success <;>
        simp [handleSubmit, Landing.handleInputChange, h1, h2, hb]
    | rejected e => simp [handleSubmit, Landing.handleInputChange, h1, h2]
  · cases outcome with
    | fulfilled body =>
      have hc : (handleSubmit (ValidateOutcome.fulfilled body) lowerCaseLanding).validateCalls =
          lowerCaseLanding.validateCalls ++
            [(jsTrim lowerCaseLanding.formData.interviewCode,
              jsTrim lowerCaseLanding.formData.candidateName)] := by
        have e1 : ¬ jsTrim lowerCaseLanding.formData.candidateName = "" := by decide
        have e2 : ¬ jsTrim lowerCaseLanding.formData.interviewCode = "" := by decide
        cases hb : body.success <;> simp [handleSubmit, e1, e2, hb]
      rw [hc]; decide
    | rejected e =>
      have hc : (handleSubmit (ValidateOutcome.rejected e) lowerCaseLanding).validateCalls =
          lowerCaseLanding.validateCalls ++
            [(jsTrim lowerCaseLanding.formData.interviewCode,
              jsTrim lowerCaseLanding.formData.candidateName)] := by
        have e1 : ¬ jsTrim lowerCaseLanding.formData.candidateName = "" := by decide
        have e2 : ¬ jsTrim lowerCaseLanding.formData.interviewCode = "" := by decide
        simp [handleSubmit, e1, e2]
      rw [hc]; decide

/-- C28 (witness): on the landing page with the name "Jane Doe", the typed
code " abc123 " is sent as "abc123". -/
theorem interview_code_sent_trimmed_witness :
    isBlank janeLanding.formData.candidateName = false ∧ isBlank " abc123 " = false ∧
    (handleSubmit (ValidateOutcome.rejected none)
      (Landing.handleInputChange LandingField.interviewCode " abc123 " janeLanding)).validateCalls =
      janeLanding.validateCalls ++ [(jsTrim " abc123 ", jsTrim janeLanding.formData.candidateName)] :=
  ⟨by decide, by decide,
    (interview_code_sent_trimmed janeLanding " abc123 " (ValidateOutcome.rejected none)
      (by decide) (by decide)).2.1⟩


/-- C29 (divergence): for a session completed 65.5 seconds after it was
created the Duration card shows "1:5.5", which no whole number of seconds
formats to: the fraction of the second is printed and the seconds are not two
whole digits.  For a difference of whole seconds the card shows what
`formatDuration` returns for them, "1:05" for 65 seconds. -/
theorem duration_shows_fraction :
    SessionDetails.durationShown 65500 = some "1:5.5" ∧
    (∀ s, SessionDetails.formatDuration s ≠ "1:5.5") ∧
    SessionDetails.durationShown 65000 = some "1:05" ∧
    (∀ s, SessionDetails.durationShown (1000 * s) = some (SessionDetails.formatDuration s)) := by
  refine ⟨by decide, formatDuration_ne_fraction, by decide, durationShown_whole⟩

/-- C30: for every whole `s >= 0` the text `formatDuration s` is decimal
digits, one colon, and two decimal digits; the digits behind the colon denote
a value below 60, and 60 times the value of the digits before the colon plus
the value of the digits behind it is `s`; the text holds exactly one colon.
Hence `formatDuration` and its copy `formatTime` are injective. -/
theorem formatDuration_lossless (s : Nat) :
    (∃ before after : List Char,
      (formatDuration s).data = before ++ ':' :: after ∧
      (∀ c ∈ before, c.isDigit = true) ∧ (∀ c ∈ after, c.isDigit = true) ∧
      after.length = 2 ∧ decimalValue after < 60 ∧
      60 * decimalValue before + decimalValue after = s) ∧
    (formatDuration s).data.count ':' = 1 ∧
    formatTime s = formatDuration s ∧
    Function.Injective formatDuration ∧ Function.Injective formatTime := by
  obtain ⟨b, a, hd, hb, ha, hl, hvb, hva⟩ := formatDuration_parts s
  have hlt : s % 60 < 60 := Nat.mod_lt _ (by decide)
  refine ⟨⟨b, a, hd, hb, ha, hl, by omega, ?_⟩, ?_, rfl, formatDuration_injective,
    formatDuration_injective⟩
  · rw [hvb, hva]; omega
  · rw [hd, List.count_append, List.count_cons_self, count_colon_digits b hb,
      count_colon_digits a ha]

end Interview
